import Mathlib

/-!
# LibpurpleAdapter: account-session state machine

A shallow embedding of `Src/LibpurpleAdapter.c`: the account-key helpers, the
global GLib hash tables, the handlers that move an account between
offline, pending and online (`login`, `logout`, `account_logged_in`,
`account_signed_off_cb`, `account_login_failed`, `connectTimeoutCallback`,
`deviceConnectionClosed`), the presence-queue handlers driven by the display
state, and `setMyCustomMessage`.

Modelling conventions.

* C strings are `String`s compared by value; the GLib tables are keyed with
  `g_str_hash`/`g_str_equal`, so a table is an association list with string
  keys.  Ownership and `free` are not modelled.
* Calls into libpurple, the timer substrate and the luna-service transport are
  recorded, in program order, as a list of `Effect`s returned next to the new
  state.  Provider callbacks are separate handler invocations.
* A request is given by its opaque handle (`LSMessage`) and its parsed fields;
  JSON parsing itself is not modelled.
-/

namespace LibpurpleAdapter

/-! ## Constants -/

/-- Seconds before a pending login is abandoned (`#define CONNECT_TIMEOUT_SECONDS 30`). -/
def CONNECT_TIMEOUT_SECONDS : Nat := 30

/-- Seconds between display-on and disabling the server queue. -/
def DISABLE_QUEUE_TIMEOUT_SECONDS : Nat := 10

/-- Seconds between a login and enabling the server queue when the display is off. -/
def POST_LOGIN_WAIT_SECONDS : Nat := 10

/-- Identifier of this UI towards libpurple (`#define UI_ID "adapter"`). -/
def UI_ID : String := "adapter"

/-! ## Provider-side types (libpurple) -/

/-- The two fields of libpurple's `PurpleAccount` that the adapter reads. -/
structure PurpleAccount where
  username : String
  protocol_id : String
deriving DecidableEq, Repr

/-- Status primitives of libpurple (`PurpleStatusPrimitive`), in header order. -/
inductive PurpleStatusPrimitive where
  | PURPLE_STATUS_UNSET
  | PURPLE_STATUS_OFFLINE
  | PURPLE_STATUS_AVAILABLE
  | PURPLE_STATUS_UNAVAILABLE
  | PURPLE_STATUS_INVISIBLE
  | PURPLE_STATUS_AWAY
  | PURPLE_STATUS_EXTENDED_AWAY
  | PURPLE_STATUS_MOBILE
  | PURPLE_STATUS_TUNE
deriving DecidableEq, Repr

/-- Connection error kinds of libpurple; the adapter tells four of them apart. -/
inductive PurpleConnectionError where
  | PURPLE_CONNECTION_ERROR_NETWORK_ERROR
  | PURPLE_CONNECTION_ERROR_INVALID_USERNAME
  | PURPLE_CONNECTION_ERROR_AUTHENTICATION_FAILED
  | PURPLE_CONNECTION_ERROR_NAME_IN_USE
  | PURPLE_CONNECTION_ERROR_OTHER (code : Nat)
deriving DecidableEq, Repr

/-- Value of a status primitive as the `int` that the adapter passes around. -/
def PurpleStatusPrimitive.toInt : PurpleStatusPrimitive → Int
  | .PURPLE_STATUS_UNSET => 0
  | .PURPLE_STATUS_OFFLINE => 1
  | .PURPLE_STATUS_AVAILABLE => 2
  | .PURPLE_STATUS_UNAVAILABLE => 3
  | .PURPLE_STATUS_INVISIBLE => 4
  | .PURPLE_STATUS_AWAY => 5
  | .PURPLE_STATUS_EXTENDED_AWAY => 6
  | .PURPLE_STATUS_MOBILE => 7
  | .PURPLE_STATUS_TUNE => 8

/-- The one member of libpurple's `PurplePluginProtocolInfo` that the adapter
reads: whether the prpl implements `send_raw`. -/
structure PurplePluginProtocolInfo where
  send_raw : Bool
deriving DecidableEq, Repr

/-- What the adapter reads of libpurple's `PurpleConnection`: the protocol info
of its prpl (`none` when `purple_connection_get_prpl` gives `NULL`) and the
display name (`none` when `purple_connection_get_display_name` gives `NULL`). -/
structure PurpleConnection where
  prpl : Option PurplePluginProtocolInfo
  display_name : Option String
deriving DecidableEq, Repr

/-- The provider side at the time of a handler invocation:
`purple_account_get_connection`, `none` for `NULL`. -/
abbrev Provider := PurpleAccount → Option PurpleConnection

/-- Opaque handle of a client request (`LSMessage *`). -/
abbrev LSMessage := Nat

/-! ## C string helpers -/

/-- Substring test, `strstr(haystack, needle) != NULL`. -/
def strstr : List Char → List Char → Bool
  | [], needle => needle.isEmpty
  | c :: cs, needle => needle.isPrefixOf (c :: cs) || strstr cs needle

/-- Contents of the buffer after `strtok(buffer, delim)` with a one-character
delimiter set: leading delimiters are skipped (and stay in the buffer), the
delimiter that ends the first token is overwritten with the terminator. -/
def strtok (buffer : List Char) (delim : Char) : List Char :=
  buffer.takeWhile (fun c => c == delim) ++
    (buffer.dropWhile (fun c => c == delim)).takeWhile (fun c => c != delim)

/-- Octal digit as a character. -/
def octalDigit (n : Nat) : Char := Char.ofNat (48 + n % 8)

/-- UTF-8 bytes of a character. -/
def utf8Bytes (c : Char) : List Nat :=
  let n := c.toNat
  if n < 128 then [n]
  else if n < 2048 then [192 + n / 64, 128 + n % 64]
  else if n < 65536 then [224 + n / 4096, 128 + n / 64 % 64, 128 + n % 64]
  else [240 + n / 262144, 128 + n / 4096 % 64, 128 + n / 64 % 64, 128 + n % 64]

/-- Escaping of one byte by GLib's `g_strescape` (no exceptions given). -/
def g_strescape_byte (b : Nat) : List Char :=
  if b = 8 then [Char.ofNat 92, 'b']
  else if b = 12 then [Char.ofNat 92, 'f']
  else if b = 10 then [Char.ofNat 92, 'n']
  else if b = 13 then [Char.ofNat 92, 'r']
  else if b = 9 then [Char.ofNat 92, 't']
  else if b = 11 then [Char.ofNat 92, 'v']
  else if b = 92 then [Char.ofNat 92, Char.ofNat 92]
  else if b = 34 then [Char.ofNat 92, Char.ofNat 34]
  else if b < 32 ∨ 127 ≤ b then
    [Char.ofNat 92, octalDigit (b / 64), octalDigit (b / 8), octalDigit b]
  else [Char.ofNat b]

/-- GLib's `g_strescape(source, NULL)`, which is not part of the adapter's
source: backslash escapes for the usual control characters, the backslash and
the double quote, octal escapes for the other bytes outside printable ASCII. -/
def g_strescape (source : String) : String :=
  String.mk ((source.data.flatMap utf8Bytes).flatMap g_strescape_byte)

/-! ## Helper methods of the adapter -/

/-- Status primitive of libpurple, as an `int`, to the availability code of
the client. -/
def getPalmAvailabilityFromPrplAvailability (prplAvailability : Int) : Int :=
  if prplAvailability = PurpleStatusPrimitive.PURPLE_STATUS_UNSET.toInt then 6
  else if prplAvailability = PurpleStatusPrimitive.PURPLE_STATUS_OFFLINE.toInt then 4
  else if prplAvailability = PurpleStatusPrimitive.PURPLE_STATUS_AVAILABLE.toInt then 0
  else if prplAvailability = PurpleStatusPrimitive.PURPLE_STATUS_UNAVAILABLE.toInt then 2
  else if prplAvailability = PurpleStatusPrimitive.PURPLE_STATUS_INVISIBLE.toInt then 3
  else if prplAvailability = PurpleStatusPrimitive.PURPLE_STATUS_AWAY.toInt then 2
  else if prplAvailability = PurpleStatusPrimitive.PURPLE_STATUS_EXTENDED_AWAY.toInt then 2
  else if prplAvailability = PurpleStatusPrimitive.PURPLE_STATUS_MOBILE.toInt then 1
  else if prplAvailability = PurpleStatusPrimitive.PURPLE_STATUS_TUNE.toInt then 0
  else 4

/-- Availability code of the client to libpurple status primitive. -/
def getPrplAvailabilityFromPalmAvailability (palmAvailability : Int) : PurpleStatusPrimitive :=
  if palmAvailability = 0 then .PURPLE_STATUS_AVAILABLE
  else if palmAvailability = 1 then .PURPLE_STATUS_MOBILE
  else if palmAvailability = 2 then .PURPLE_STATUS_AWAY
  else if palmAvailability = 3 then .PURPLE_STATUS_INVISIBLE
  else if palmAvailability = 4 then .PURPLE_STATUS_OFFLINE
  else .PURPLE_STATUS_OFFLINE

/-- User name in the form the prpl expects: for "aol" and "yahoo" a name that
contains the service's mail domain is cut by `strtok` at the first `@` that
follows a token. -/
def getPrplFriendlyUsername (serviceName username : String) : String :=
  if serviceName = "aol" then
    if strstr username.data "@aol.com".data then String.mk (strtok username.data '@')
    else username
  else if serviceName = "yahoo" then
    if strstr username.data "@yahoo.com".data then String.mk (strtok username.data '@')
    else username
  else username

/-- User name in the form the messaging service expects: "aol" and "yahoo"
names without `@` get the mail domain appended, "gmail" names lose the
resource that follows the first `/`. -/
def getJavaFriendlyUsername (username serviceName : String) : String :=
  if serviceName = "aol" ∧ ¬ ('@' ∈ username.data) then username ++ "@aol.com"
  else if serviceName = "yahoo" ∧ ¬ ('@' ∈ username.data) then username ++ "@yahoo.com"
  else if serviceName = "gmail" then String.mk (username.data.takeWhile (fun c => c != '/'))
  else username

/-- Error code reported to the client for a libpurple connection error. -/
def getJavaFriendlyErrorCode (type : PurpleConnectionError) : String :=
  match type with
  | .PURPLE_CONNECTION_ERROR_INVALID_USERNAME => "AcctMgr_Bad_Username"
  | .PURPLE_CONNECTION_ERROR_AUTHENTICATION_FAILED => "AcctMgr_Bad_Authentication"
  | .PURPLE_CONNECTION_ERROR_NETWORK_ERROR => "AcctMgr_Network_Error"
  | .PURPLE_CONNECTION_ERROR_NAME_IN_USE => "AcctMgr_Name_In_Use"
  | .PURPLE_CONNECTION_ERROR_OTHER _ => "AcctMgr_Generic_Error"

/-- Protocol id of the prpl for a service name ("aol" is "prpl-aim", "gmail" is
"prpl-jabber", anything else is the service name behind "prpl-"). -/
def getPrplProtocolIdFromServiceName (serviceName : String) : String :=
  if serviceName = "aol" then "prpl-" ++ "aim"
  else if serviceName = "gmail" then "prpl-" ++ "jabber"
  else "prpl-" ++ serviceName

/-- Service name for a protocol id: the first `strlen("prpl-")` characters are
skipped without being looked at, then "aim" is "aol" and "jabber" is "gmail". -/
def getServiceNameFromPrplProtocolId (prplProtocolId : String) : String :=
  let serviceName := String.mk (prplProtocolId.data.drop 5)
  if serviceName = "aim" then "aol"
  else if serviceName = "jabber" then "gmail"
  else serviceName

/-- Key of an account in every table: `username`, an underscore, `serviceName`. -/
def getAccountKey (username serviceName : String) : String :=
  username ++ "_" ++ serviceName

/-- Key of a provider account, derived from its protocol id and user name. -/
def getAccountKeyFromPurpleAccount (account : PurpleAccount) : String :=
  let serviceName := getServiceNameFromPrplProtocolId account.protocol_id
  let username := getJavaFriendlyUsername account.username serviceName
  getAccountKey username serviceName

/-! ## GLib hash tables with string keys -/

/-- A table created with `g_hash_table_new_full(g_str_hash, g_str_equal, ..)`.
The order of the entries stands for the unspecified iteration order. -/
abbrev Table (α : Type) := List (String × α)

/-- Value stored for `key`, the model of `g_hash_table_lookup`; `none` is `NULL`. -/
def g_hash_table_lookup {α : Type} : Table α → String → Option α
  | [], _ => none
  | (k, v) :: rest, key => if key = k then some v else g_hash_table_lookup rest key

/-- The model of `g_hash_table_insert`: the value of an existing key is replaced. -/
def g_hash_table_insert {α : Type} : Table α → String → α → Table α
  | [], key, value => [(key, value)]
  | (k, v) :: rest, key, value =>
    if key = k then (k, value) :: rest else (k, v) :: g_hash_table_insert rest key value

/-- The model of `g_hash_table_remove`. -/
def g_hash_table_remove {α : Type} : Table α → String → Table α
  | [], _ => []
  | (k, v) :: rest, key =>
    if k = key then g_hash_table_remove rest key else (k, v) :: g_hash_table_remove rest key

/-- The model of `g_hash_table_get_keys`. -/
def g_hash_table_get_keys {α : Type} (table : Table α) : List String :=
  table.map (fun entry => entry.1)

/-! ## Global state and effects -/

/-- The global variables of the adapter, and the next handle that the timer
substrate will hand out (`purple_timeout_add_seconds` returns a fresh non-zero
source id). -/
structure AdapterState where
  onlineAccountData : Table PurpleAccount
  pendingAccountData : Table PurpleAccount
  offlineAccountData : Table PurpleAccount
  accountLoginTimers : Table Nat
  loginMessages : Table LSMessage
  logoutMessages : Table LSMessage
  connectionTypeData : Table String
  ipAddressesBoundTo : Table String
  libpurpleInitialized : Bool
  registeredForAccountSignals : Bool
  registeredForPresenceUpdateSignals : Bool
  registeredForDisplayEvents : Bool
  currentDisplayState : Bool
  nextTimerHandle : Nat
deriving DecidableEq, Repr

/-- State at the start of `g_main_loop_run`: every table empty, display on. -/
def initialState : AdapterState where
  onlineAccountData := []
  pendingAccountData := []
  offlineAccountData := []
  accountLoginTimers := []
  loginMessages := []
  logoutMessages := []
  connectionTypeData := []
  ipAddressesBoundTo := []
  libpurpleInitialized := false
  registeredForAccountSignals := false
  registeredForPresenceUpdateSignals := false
  registeredForDisplayEvents := false
  currentDisplayState := true
  nextTimerHandle := 1

/-- A value added to a `json_object`. -/
inductive JsonValue where
  | str (s : String)
  | bool (b : Bool)
deriving DecidableEq, Repr

/-- Payload of a reply: either the text assembled in a `GString` (or a string
literal), or the fields added to a `json_object`, in the order they were added,
that `json_object_to_json_string` serialises. -/
inductive Payload where
  | text (s : String)
  | json (fields : List (String × JsonValue))
deriving DecidableEq, Repr

/-- Functions registered with `purple_timeout_add_seconds`. -/
inductive TimerCallback where
  | connectTimeoutCallback
  | queuePresenceUpdatesTimer
  | queuePresenceUpdatesForAccountTimerCallback
deriving DecidableEq, Repr

/-- Calls that leave the adapter.  `LSMessageReply` stands for both
`LSMessageReply` and `LSMessageReturn`; its message is `none` when the code
passes a `NULL` message, in which case no client request is answered.
`send_raw` is the call of the prpl's `send_raw` on the connection of
`account`.  `purple_account_set_status_list` is recorded with its attribute
list; the status id it passes is the one libpurple reports for the account. -/
inductive Effect where
  | LSMessageReply (message : Option LSMessage) (payload : Payload)
  | LSCall (uri : String) (payload : String)
  | initializeLibpurple
  | purple_prefs_remove (name : String)
  | purple_prefs_add_string (name : String) (value : String)
  | purple_account_new (username : String) (protocol_id : String)
  | purple_account_set_string (account : PurpleAccount) (name : String) (value : String)
  | purple_account_set_password (account : PurpleAccount) (password : String)
  | purple_signal_connect (signal : String)
  | purple_account_set_enabled (account : PurpleAccount) (ui : String) (value : Bool)
  | purple_timeout_add_seconds (seconds : Nat) (function : TimerCallback) (data : String)
      (handle : Nat)
  | purple_timeout_remove (handle : Nat)
  | purple_savedstatus_activate_for_account (prim : PurpleStatusPrimitive) (message : String)
      (account : PurpleAccount)
  | purple_account_disconnect (account : PurpleAccount)
  | purple_account_set_status_list (account : PurpleAccount) (attrs : List String)
  | send_raw (account : PurpleAccount) (stanza : String)
deriving DecidableEq, Repr

/-! ## Provider callbacks -/

/-- Text of the success reply built by `account_logged_in` and
`account_signed_off_cb`. -/
def successResponse (account : PurpleAccount) : String :=
  let serviceName := getServiceNameFromPrplProtocolId account.protocol_id
  let myJavaFriendlyUsername := getJavaFriendlyUsername account.username serviceName
  "\x7b\"serviceName\":\"" ++ serviceName ++ "\",  \"username\":\"" ++ myJavaFriendlyUsername
    ++ "\", \"returnValue\":true\x7d"

/-- Handler of the "signed-on" signal.  Only an account that is already online
is ignored; otherwise the login timer is cancelled, the account is moved to
`onlineAccountData` and the success reply goes to whatever `loginMessages`
holds for the key (the entry is left in place).  The subscription to display
events is taken to succeed. -/
def account_logged_in (st : AdapterState) (loggedInAccount : PurpleAccount) :
    AdapterState × List Effect :=
  let accountKey := getAccountKeyFromPurpleAccount loggedInAccount
  if (g_hash_table_lookup st.onlineAccountData accountKey).isSome then (st, [])
  else
    let timerHandle := (g_hash_table_lookup st.accountLoginTimers accountKey).getD 0
    let message := g_hash_table_lookup st.loginMessages accountKey
    let st1 : AdapterState :=
      { st with
        accountLoginTimers := g_hash_table_remove st.accountLoginTimers accountKey
        onlineAccountData := g_hash_table_insert st.onlineAccountData accountKey loggedInAccount
        pendingAccountData := g_hash_table_remove st.pendingAccountData accountKey
        registeredForPresenceUpdateSignals := true }
    let effects : List Effect :=
      [Effect.purple_timeout_remove timerHandle,
        Effect.LSMessageReply message (Payload.text (successResponse loggedInAccount))]
      ++ (if st.registeredForPresenceUpdateSignals then []
          else [Effect.purple_signal_connect "buddy-status-changed",
                Effect.purple_signal_connect "buddy-signed-on",
                Effect.purple_signal_connect "buddy-signed-off",
                Effect.purple_signal_connect "buddy-icon-changed"])
    if st.registeredForDisplayEvents then
      if st.currentDisplayState then (st1, effects)
      else
        ({ st1 with nextTimerHandle := st1.nextTimerHandle + 1 },
          effects ++ [Effect.purple_timeout_add_seconds POST_LOGIN_WAIT_SECONDS
            TimerCallback.queuePresenceUpdatesForAccountTimerCallback accountKey
            st1.nextTimerHandle])
    else
      ({ st1 with registeredForDisplayEvents := true },
        effects ++ [Effect.LSCall "luna://com.palm.display/control/status"
          "\x7b\"subscribe\":true\x7d"])

/-- Handler of the "signed-off" signal.  An account that is neither online nor
pending is ignored.  Otherwise it leaves the table it was found in, its bound
address is dropped, the provider account is kept in `offlineAccountData`, and
a held logout request is answered and removed.  `accountLoginTimers` is not
touched. -/
def account_signed_off_cb (st : AdapterState) (account : PurpleAccount) :
    AdapterState × List Effect :=
  let accountKey := getAccountKeyFromPurpleAccount account
  if (g_hash_table_lookup st.onlineAccountData accountKey).isSome
      ∨ (g_hash_table_lookup st.pendingAccountData accountKey).isSome then
    let st1 : AdapterState :=
      if (g_hash_table_lookup st.onlineAccountData accountKey).isSome then
        { st with onlineAccountData := g_hash_table_remove st.onlineAccountData accountKey }
      else
        { st with pendingAccountData := g_hash_table_remove st.pendingAccountData accountKey }
    let st2 : AdapterState :=
      { st1 with
        ipAddressesBoundTo := g_hash_table_remove st1.ipAddressesBoundTo accountKey
        offlineAccountData :=
          if (g_hash_table_lookup st1.offlineAccountData accountKey).isSome then
            st1.offlineAccountData
          else g_hash_table_insert st1.offlineAccountData accountKey account }
    match g_hash_table_lookup st2.logoutMessages accountKey with
    | some message =>
      ({ st2 with logoutMessages := g_hash_table_remove st2.logoutMessages accountKey },
        [Effect.LSMessageReply (some message) (Payload.text (successResponse account))])
    | none => (st2, [])
  else (st, [])

/-- Text of the failure reply built by `account_login_failed`. -/
def loginFailedResponse (account : PurpleAccount) (type : PurpleConnectionError)
    (description accountBoundToIpAddress connectionType : String) (loggedOut : Bool) : String :=
  let serviceName := getServiceNameFromPrplProtocolId account.protocol_id
  let myJavaFriendlyUsername := getJavaFriendlyUsername account.username serviceName
  "\x7b\"serviceName\":\"" ++ serviceName ++ "\",  \"username\":\"" ++ myJavaFriendlyUsername
    ++ "\", \"returnValue\":false, \"errorCode\":\"" ++ getJavaFriendlyErrorCode type
    ++ "\",  \"localIpAddress\":\"" ++ accountBoundToIpAddress
    ++ "\", \"errorText\":\"" ++ g_strescape description
    ++ (if loggedOut then "\", \"connectionStatus\":\"loggedOut\", \"connectionType\":\""
        else "\", \"connectionType\":\"")
    ++ connectionType ++ "\"\x7d"

/-- Second half of `account_login_failed`, reached when the account was online
(`loggedOut`) or pending: the reply is built from the tables as they are, the
account goes offline, and a held login request is answered and removed. -/
def account_login_failed_finish (st : AdapterState) (account : PurpleAccount)
    (type : PurpleConnectionError) (description : String) (loggedOut : Bool)
    (effects : List Effect) : AdapterState × List Effect :=
  let accountKey := getAccountKeyFromPurpleAccount account
  let accountBoundToIpAddress := (g_hash_table_lookup st.ipAddressesBoundTo accountKey).getD ""
  let connectionType := (g_hash_table_lookup st.connectionTypeData accountKey).getD ""
  let jsonResponse :=
    loginFailedResponse account type description accountBoundToIpAddress connectionType loggedOut
  let st1 : AdapterState :=
    { st with
      onlineAccountData := g_hash_table_remove st.onlineAccountData accountKey
      ipAddressesBoundTo := g_hash_table_remove st.ipAddressesBoundTo accountKey
      connectionTypeData := g_hash_table_remove st.connectionTypeData accountKey
      offlineAccountData :=
        if (g_hash_table_lookup st.offlineAccountData accountKey).isSome then
          st.offlineAccountData
        else g_hash_table_insert st.offlineAccountData accountKey account }
  match g_hash_table_lookup st1.loginMessages accountKey with
  | some message =>
    ({ st1 with loginMessages := g_hash_table_remove st1.loginMessages accountKey },
      effects ++ [Effect.LSMessageReply (some message) (Payload.text jsonResponse)])
  | none => (st1, effects)

/-- Handler of the "connection-error" signal: a failed login attempt, or the
loss of an established session. -/
def account_login_failed (st : AdapterState) (account : PurpleAccount)
    (type : PurpleConnectionError) (description : String) : AdapterState × List Effect :=
  let accountKey := getAccountKeyFromPurpleAccount account
  if (g_hash_table_lookup st.onlineAccountData accountKey).isSome then
    account_login_failed_finish st account type description true []
  else
    let timerHandle := (g_hash_table_lookup st.accountLoginTimers accountKey).getD 0
    let st1 : AdapterState :=
      { st with accountLoginTimers := g_hash_table_remove st.accountLoginTimers accountKey }
    if (g_hash_table_lookup st1.pendingAccountData accountKey).isSome then
      account_login_failed_finish
        { st1 with pendingAccountData := g_hash_table_remove st1.pendingAccountData accountKey }
        account type description false [Effect.purple_timeout_remove timerHandle]
    else (st1, [Effect.purple_timeout_remove timerHandle])

/-- Text of the failure reply built by `connectTimeoutCallback`. -/
def connectTimeoutResponse (account : PurpleAccount) (connectionType : String) : String :=
  let serviceName := getServiceNameFromPrplProtocolId account.protocol_id
  let username := getJavaFriendlyUsername account.username serviceName
  "\x7b\"serviceName\":\"" ++ serviceName ++ "\",  \"username\":\"" ++ username
    ++ "\", \"returnValue\":false, \"errorCode\":\"AcctMgr_Network_Error\", \"errorText\":\"Connection timed out\", \"connectionType\":\""
    ++ connectionType ++ "\"\x7d"

/-- Callback of the login timer armed by `login`, with the account key as its
data.  It does nothing unless the key is still in `pendingAccountData`. -/
def connectTimeoutCallback (st : AdapterState) (accountKey : String) :
    AdapterState × List Effect :=
  match g_hash_table_lookup st.pendingAccountData accountKey with
  | none => (st, [])
  | some account =>
    let st1 : AdapterState :=
      { st with
        accountLoginTimers := g_hash_table_remove st.accountLoginTimers accountKey
        pendingAccountData := g_hash_table_remove st.pendingAccountData accountKey
        ipAddressesBoundTo := g_hash_table_remove st.ipAddressesBoundTo accountKey }
    let connectionType := (g_hash_table_lookup st1.connectionTypeData accountKey).getD ""
    match g_hash_table_lookup st1.loginMessages accountKey with
    | some message =>
      ({ st1 with loginMessages := g_hash_table_remove st1.loginMessages accountKey },
        [Effect.purple_account_disconnect account,
          Effect.LSMessageReply (some message)
            (Payload.text (connectTimeoutResponse account connectionType))])
    | none => (st1, [Effect.purple_account_disconnect account])

/-! ## Service methods -/

/-- Parsed fields of a `login` request.  `serviceName`, `username` and
`password` are the fields whose absence makes `login` leave early; the
optional three default to the empty string. -/
structure LoginParams where
  serviceName : String
  username : String
  password : String
  availability : Int
  customMessage : Option String
  localIpAddress : Option String
  connectionType : Option String
deriving DecidableEq, Repr

/-- The `responsePayload` object as `login` creates it. -/
def loginResponsePayload (params : LoginParams) : List (String × JsonValue) :=
  [("serviceName", JsonValue.str params.serviceName),
    ("username", JsonValue.str (getJavaFriendlyUsername params.username params.serviceName))]

/-- State in which `login` issues the disconnect of an account that is active
on another local address: the key is taken out of `onlineAccountData` and
`pendingAccountData` (removing an absent key changes nothing, so the two
guards of the source are not repeated). -/
def loginForceLogout (st : AdapterState) (accountKey : String) : AdapterState :=
  { st with
    onlineAccountData := g_hash_table_remove st.onlineAccountData accountKey
    pendingAccountData := g_hash_table_remove st.pendingAccountData accountKey }

/-- The provider account that `login` uses: the one kept in
`offlineAccountData` from an earlier login, otherwise a new one created by
`purple_account_new` with the prpl-friendly user name and the protocol id of
the service. -/
def loginProviderAccount (st : AdapterState) (params : LoginParams) : PurpleAccount :=
  (g_hash_table_lookup st.offlineAccountData
      (getAccountKey params.username params.serviceName)).getD
    ⟨getPrplFriendlyUsername params.serviceName params.username,
      getPrplProtocolIdFromServiceName params.serviceName⟩

/-- The part of `login` behind "Let's go through our usual login process":
validation of `username` and `password`, preparation of the provider account,
and, on success, the bookkeeping of a pending login, the login timer and the
provider login call.  `effects` are the calls made so far.  `DEVICE` tells
whether the source is compiled with `-DDEVICE`.  `purple_account_new` is taken
to succeed. -/
def loginProcess (DEVICE : Bool) (st : AdapterState) (effects : List Effect)
    (message : LSMessage) (params : LoginParams) : AdapterState × List Effect :=
  let customMessage := params.customMessage.getD ""
  let localIpAddress := params.localIpAddress.getD ""
  let connectionType := params.connectionType.getD ""
  let prplProtocolId := getPrplProtocolIdFromServiceName params.serviceName
  let transportFriendlyUserName := getPrplFriendlyUsername params.serviceName params.username
  let accountKey := getAccountKey params.username params.serviceName
  if params.username = "" ∨ params.password = "" then
    (st, effects ++ [Effect.LSMessageReply (some message)
      (Payload.json (loginResponsePayload params ++
        [("errorCode", JsonValue.str "AcctMgr_Generic_Error"),
          ("errorText", JsonValue.str "AcctMgr_Generic_Error")]))])
  else if localIpAddress = "" ∧ DEVICE = true then
    (st, effects ++ [Effect.LSMessageReply (some message)
      (Payload.json (loginResponsePayload params ++
        [("errorCode", JsonValue.str "AcctMgr_Network_Error"),
          ("errorText", JsonValue.str "localIpAddress was null or empty")]))])
  else
    let account : PurpleAccount := loginProviderAccount st params
    let timerHandle := st.nextTimerHandle
    let st1 : AdapterState :=
      { st with
        connectionTypeData :=
          if connectionType = "" then st.connectionTypeData
          else g_hash_table_insert st.connectionTypeData accountKey connectionType
        registeredForAccountSignals := true
        loginMessages := g_hash_table_insert st.loginMessages accountKey message
        pendingAccountData := g_hash_table_insert st.pendingAccountData accountKey account
        ipAddressesBoundTo :=
          if localIpAddress = "" then st.ipAddressesBoundTo
          else g_hash_table_insert st.ipAddressesBoundTo accountKey localIpAddress
        accountLoginTimers := g_hash_table_insert st.accountLoginTimers accountKey timerHandle
        nextTimerHandle := st.nextTimerHandle + 1 }
    (st1, effects
      ++ (if localIpAddress = "" then []
          else [Effect.purple_prefs_remove "/purple/network/preferred_local_ip_address",
                Effect.purple_prefs_add_string "/purple/network/preferred_local_ip_address"
                  localIpAddress])
      ++ (if (g_hash_table_lookup st.offlineAccountData accountKey).isSome then []
          else [Effect.purple_account_new transportFriendlyUserName prplProtocolId])
      ++ (if prplProtocolId = "prpl-jabber"
              ∧ ¬ ("@gmail.com".data.isSuffixOf transportFriendlyUserName.data) then
            [Effect.purple_account_set_string account "connect_server" "talk.google.com"]
          else [])
      ++ [Effect.purple_account_set_password account params.password]
      ++ (if st.registeredForAccountSignals then []
          else [Effect.purple_signal_connect "signed-on",
                Effect.purple_signal_connect "signed-off",
                Effect.purple_signal_connect "account-status-changed",
                Effect.purple_signal_connect "connection-error"])
      ++ [Effect.purple_account_set_enabled account UI_ID true,
          Effect.purple_timeout_add_seconds CONNECT_TIMEOUT_SECONDS
            TimerCallback.connectTimeoutCallback accountKey timerHandle,
          Effect.purple_savedstatus_activate_for_account
            (getPrplAvailabilityFromPalmAvailability params.availability) customMessage account])

/-- The service method `login`, for a request that carries `serviceName`,
`username` and `password`.  An account that is online or pending on the same
local address is not logged in again; one that is active on another address
(or on none) is disconnected first; then the usual login process runs. -/
def login (DEVICE : Bool) (st : AdapterState) (message : LSMessage) (params : LoginParams) :
    AdapterState × List Effect :=
  let localIpAddress := params.localIpAddress.getD ""
  let accountKey := getAccountKey params.username params.serviceName
  let effects : List Effect :=
    if st.libpurpleInitialized then [] else [Effect.initializeLibpurple]
  let st0 : AdapterState := { st with libpurpleInitialized := true }
  match g_hash_table_lookup st0.onlineAccountData accountKey with
  | some alreadyActiveAccount =>
    if g_hash_table_lookup st0.ipAddressesBoundTo accountKey = some localIpAddress then
      (st0, effects ++ [Effect.LSMessageReply (some message)
        (Payload.json (loginResponsePayload params ++
          [("accountWasAlreadyLoggedIn", JsonValue.bool true),
            ("returnValue", JsonValue.bool true)]))])
    else
      loginProcess DEVICE (loginForceLogout st0 accountKey)
        (effects ++ [Effect.purple_account_disconnect alreadyActiveAccount]) message params
  | none =>
    match g_hash_table_lookup st0.pendingAccountData accountKey with
    | some alreadyActiveAccount =>
      if g_hash_table_lookup st0.ipAddressesBoundTo accountKey = some localIpAddress then
        ({ st0 with
            loginMessages :=
              g_hash_table_insert (g_hash_table_remove st0.loginMessages accountKey)
                accountKey message },
          effects)
      else
        loginProcess DEVICE (loginForceLogout st0 accountKey)
          (effects ++ [Effect.purple_account_disconnect alreadyActiveAccount]) message params
    | none => loginProcess DEVICE st0 effects message params

/-- Text of the reply of `logout` for an account that is not logged in. -/
def logoutNotLoggedInResponse (serviceName username : String) : String :=
  "\x7b\"serviceName\":\"" ++ serviceName ++ "\",  \"username\":\"" ++ username
    ++ "\",  \"returnValue\":false, \"errorCode\":\"1\", \"errorText\":\"Trying to logout from an account that is not logged in\"\x7d"

/-- The service method `logout`, for a request that carries `serviceName` and
`username`. -/
def logout (st : AdapterState) (message : LSMessage) (serviceName username : String) :
    AdapterState × List Effect :=
  let accountKey := getAccountKey username serviceName
  let accountTologoutFrom :=
    match g_hash_table_lookup st.onlineAccountData accountKey with
    | some account => some account
    | none => g_hash_table_lookup st.pendingAccountData accountKey
  match accountTologoutFrom with
  | none =>
    (st, [Effect.LSMessageReply (some message)
      (Payload.text (logoutNotLoggedInResponse serviceName username))])
  | some account =>
    ({ st with
        logoutMessages :=
          g_hash_table_insert st.logoutMessages (getAccountKeyFromPurpleAccount account) message },
      [Effect.purple_account_disconnect account])

/-- Text of the reply that `deviceConnectionClosed` sends to the login request
of an account it logs out. -/
def connectionClosedResponse (account : PurpleAccount) (connectionType : String)
    (accountWasLoggedIn : Bool) : String :=
  let serviceName := getServiceNameFromPrplProtocolId account.protocol_id
  let username := getJavaFriendlyUsername account.username serviceName
  "\x7b\"serviceName\":\"" ++ serviceName ++ "\",  \"username\":\"" ++ username
    ++ (if accountWasLoggedIn then
          "\", \"returnValue\":false, \"errorCode\":\"AcctMgr_Network_Error\", \"errorText\":\"Connection failure\", \"connectionStatus\":\"loggedOut\", \"connectionType\":\""
        else
          "\", \"returnValue\":false, \"errorCode\":\"AcctMgr_Network_Error\", \"errorText\":\"Connection failure\", \"connectionType\":\"")
    ++ connectionType ++ "\"\x7d"

/-- Variables that the first loop of `deviceConnectionClosed` carries along. -/
structure ConnectionClosedLoop where
  st : AdapterState
  effects : List Effect
  accountToLogoutList : List PurpleAccount
deriving DecidableEq, Repr

/-- One iteration of the first loop of `deviceConnectionClosed`, for one key
of `ipAddressesBoundTo`. -/
def deviceConnectionClosedIteration (ipAddress : String) (loop : ConnectionClosedLoop)
    (accountKey : String) : ConnectionClosedLoop :=
  let st := loop.st
  match g_hash_table_lookup st.ipAddressesBoundTo accountKey with
  | none => loop
  | some accountBoundToIpAddress =>
    if accountBoundToIpAddress ≠ "" ∧ ipAddress = accountBoundToIpAddress then
      let found :=
        match g_hash_table_lookup st.onlineAccountData accountKey with
        | some account => some account
        | none => g_hash_table_lookup st.pendingAccountData accountKey
      match found with
      | none => loop
      | some account =>
        let accountWasLoggedIn := (g_hash_table_lookup st.onlineAccountData accountKey).isSome
        let innerKey := getAccountKeyFromPurpleAccount account
        let connectionType := (g_hash_table_lookup st.connectionTypeData innerKey).getD ""
        let st1 : AdapterState :=
          { st with
            onlineAccountData :=
              g_hash_table_remove (g_hash_table_remove st.onlineAccountData accountKey) innerKey
            pendingAccountData := g_hash_table_remove st.pendingAccountData accountKey
            offlineAccountData :=
              if (g_hash_table_lookup st.offlineAccountData accountKey).isSome then
                st.offlineAccountData
              else g_hash_table_insert st.offlineAccountData accountKey account }
        match g_hash_table_lookup st1.loginMessages innerKey with
        | some message =>
          { st := { st1 with loginMessages := g_hash_table_remove st1.loginMessages innerKey }
            effects := loop.effects ++
              [Effect.purple_account_disconnect account,
                Effect.LSMessageReply (some message)
                  (Payload.text (connectionClosedResponse account connectionType
                    accountWasLoggedIn))]
            accountToLogoutList := loop.accountToLogoutList ++ [account] }
        | none =>
          { st := st1
            effects := loop.effects ++ [Effect.purple_account_disconnect account]
            accountToLogoutList := loop.accountToLogoutList ++ [account] }
    else loop

/-- The second loop of `deviceConnectionClosed`: the bound address of every
account that was logged out is dropped. -/
def deviceConnectionClosedUnbind (st : AdapterState) (accounts : List PurpleAccount) :
    AdapterState :=
  accounts.foldl
    (fun s account =>
      { s with
        ipAddressesBoundTo :=
          g_hash_table_remove s.ipAddressesBoundTo (getAccountKeyFromPurpleAccount account) })
    st

/-- The service method `deviceConnectionClosed`, for a request that carries
`ipAddress`.  Every account bound to the address is taken out of the online
and pending tables and disconnected, and its held login request is answered.
The request itself is answered at the end of the function, and once more
before that when no account was bound to the address. -/
def deviceConnectionClosed (st : AdapterState) (message : LSMessage) (ipAddress : String) :
    AdapterState × List Effect :=
  let loop :=
    (g_hash_table_get_keys st.ipAddressesBoundTo).foldl
      (deviceConnectionClosedIteration ipAddress) ⟨st, [], []⟩
  if loop.accountToLogoutList.length = 0 then
    (loop.st, loop.effects ++
      [Effect.LSMessageReply (some message) (Payload.text "\x7b\"returnValue\":true\x7d"),
        Effect.LSMessageReply (some message) (Payload.text "\x7b\"returnValue\":true\x7d")])
  else
    (deviceConnectionClosedUnbind loop.st loop.accountToLogoutList, loop.effects ++
      [Effect.LSMessageReply (some message) (Payload.text "\x7b\"returnValue\":true\x7d")])

/-! ## Presence-queue control -/

/-- The stanza that enables the server-side queue of presence updates; `none`
when the account has no connection or the connection no display name. -/
def getEnableQueueStanza (provider : Provider) (account : PurpleAccount) : Option String :=
  match provider account with
  | none => none
  | some pc =>
    match pc.display_name with
    | none => none
    | some displayName =>
      some ("<iq from=\x27" ++ displayName
        ++ "\x27 type=\x27set\x27><query xmlns=\x27google:queue\x27><enable/></query></iq>")

/-- The stanza that disables and flushes the server-side queue. -/
def getDisableQueueStanza (provider : Provider) (account : PurpleAccount) : Option String :=
  match provider account with
  | none => none
  | some pc =>
    match pc.display_name with
    | none => none
    | some displayName =>
      some ("<iq from=\x27" ++ displayName
        ++ "\x27 type=\x27set\x27><query xmlns=\x27google:queue\x27><disable/><flush/></query></iq>")

/-- Sends the enable stanza on the connection of `account`, if the account has
a connection whose prpl implements `send_raw` and the stanza can be built.
The protocol of the account is not looked at here. -/
def enableServerQueueForAccount (provider : Provider) (account : PurpleAccount) :
    List Effect :=
  let prpl_info :=
    match provider account with
    | none => none
    | some gc => gc.prpl
  match prpl_info with
  | none => []
  | some info =>
    if info.send_raw then
      match getEnableQueueStanza provider account with
      | some enableQueueStanza => [Effect.send_raw account enableQueueStanza]
      | none => []
    else []

/-- Sends the disable-and-flush stanza on the connection of `account`, under
the same conditions. -/
def disableServerQueueForAccount (provider : Provider) (account : PurpleAccount) :
    List Effect :=
  let prpl_info :=
    match provider account with
    | none => none
    | some gc => gc.prpl
  match prpl_info with
  | none => []
  | some info =>
    if info.send_raw then
      match getDisableQueueStanza provider account with
      | some disableQueueStanza => [Effect.send_raw account disableQueueStanza]
      | none => []
    else []

/-- Asks for the server queue to be enabled (`enable`) or disabled on every
account of `onlineAccountData` whose protocol id is "prpl-jabber"; the other
accounts are skipped.  No global variable changes. -/
def queuePresenceUpdates (provider : Provider) (st : AdapterState) (enable : Bool) :
    List Effect :=
  (g_hash_table_get_keys st.onlineAccountData).flatMap (fun accountKey =>
    match g_hash_table_lookup st.onlineAccountData accountKey with
    | none => []
    | some account =>
      if account.protocol_id ≠ "prpl-jabber" then []
      else if enable then enableServerQueueForAccount provider account
      else disableServerQueueForAccount provider account)

/-- Callback of the timer armed when the display turns on. -/
def queuePresenceUpdatesTimer (provider : Provider) (st : AdapterState) :
    AdapterState × List Effect :=
  if st.currentDisplayState then (st, queuePresenceUpdates provider st false)
  else (st, [])

/-- Callback of the timer armed by `account_logged_in` while the display is
off, with the account key as its data. -/
def queuePresenceUpdatesForAccountTimerCallback (provider : Provider) (st : AdapterState)
    (accountKey : String) : AdapterState × List Effect :=
  if st.currentDisplayState then (st, [])
  else
    match g_hash_table_lookup st.onlineAccountData accountKey with
    | some account => (st, enableServerQueueForAccount provider account)
    | none => (st, [])

/-- Parsed fields of a display status message: `returnValue` (false when
absent), `state` and `event`. -/
structure DisplayEventParams where
  returnValue : Bool
  state : Option String
  event : Option String
deriving DecidableEq, Repr

/-- The display state that a status message reports: field `state` "on" or
"off", otherwise field `event` "displayOn" or "displayOff"; `none` is the
`goto end` of `displayEventHandler`. -/
def reportedDisplayState (params : DisplayEventParams) : Option Bool :=
  if params.state = some "on" then some true
  else if params.state = some "off" then some false
  else if params.event = some "displayOn" then some true
  else if params.event = some "displayOff" then some false
  else none

/-- Handler of the replies to the display status subscription. -/
def displayEventHandler (provider : Provider) (st : AdapterState)
    (params : DisplayEventParams) : AdapterState × List Effect :=
  if params.returnValue then
    match reportedDisplayState params with
    | none => (st, [])
    | some newDisplayState =>
      if newDisplayState ≠ st.currentDisplayState then
        let st1 : AdapterState := { st with currentDisplayState := newDisplayState }
        if st1.currentDisplayState then
          ({ st1 with nextTimerHandle := st1.nextTimerHandle + 1 },
            [Effect.purple_timeout_add_seconds DISABLE_QUEUE_TIMEOUT_SECONDS
              TimerCallback.queuePresenceUpdatesTimer "" st1.nextTimerHandle])
        else (st1, queuePresenceUpdates provider st1 true)
      else (st, [])
  else
    let st1 : AdapterState :=
      { st with currentDisplayState := true, registeredForDisplayEvents := false }
    (st1, queuePresenceUpdates provider st1 false)

/-- The service method `setMyCustomMessage`, for a request that carries
`serviceName`, `username` and `customMessage`.  Only the branch for an account
found in `onlineAccountData` sends a reply. -/
def setMyCustomMessage (st : AdapterState) (message : LSMessage)
    (serviceName username customMessage : String) : AdapterState × List Effect :=
  match g_hash_table_lookup st.onlineAccountData (getAccountKey username serviceName) with
  | some account =>
    (st, [Effect.purple_account_set_status_list account ["message", customMessage],
      Effect.LSMessageReply (some message) (Payload.json
        [("serviceName", JsonValue.str serviceName),
          ("username", JsonValue.str username),
          ("customMessage", JsonValue.str customMessage),
          ("returnValue", JsonValue.bool true)])])
  | none => (st, [])

/-! ## Sequences of handler invocations -/

/-- One handler invocation of the single-threaded event loop. -/
inductive Event where
  | login (message : LSMessage) (params : LoginParams)
  | logout (message : LSMessage) (serviceName username : String)
  | account_logged_in (account : PurpleAccount)
  | account_signed_off_cb (account : PurpleAccount)
  | account_login_failed (account : PurpleAccount) (type : PurpleConnectionError)
      (description : String)
  | connectTimeoutCallback (accountKey : String)
  | deviceConnectionClosed (message : LSMessage) (ipAddress : String)
deriving DecidableEq, Repr

/-- The handler that an event invokes. -/
def step (DEVICE : Bool) (st : AdapterState) : Event → AdapterState × List Effect
  | .login message params => login DEVICE st message params
  | .logout message serviceName username => logout st message serviceName username
  | .account_logged_in account => account_logged_in st account
  | .account_signed_off_cb account => account_signed_off_cb st account
  | .account_login_failed account type description =>
    account_login_failed st account type description
  | .connectTimeoutCallback accountKey => connectTimeoutCallback st accountKey
  | .deviceConnectionClosed message ipAddress => deviceConnectionClosed st message ipAddress

/-- State after a sequence of handler invocations, one at a time to completion. -/
def runState (DEVICE : Bool) (st : AdapterState) : List Event → AdapterState
  | [] => st
  | event :: rest => runState DEVICE (step DEVICE st event).1 rest

/-- Effects of a sequence of handler invocations, each with the event that
caused it, in order. -/
def runLog (DEVICE : Bool) (st : AdapterState) : List Event → List (Event × Effect)
  | [] => []
  | event :: rest =>
    (step DEVICE st event).2.map (fun effect => (event, effect))
      ++ runLog DEVICE (step DEVICE st event).1 rest

/-- Effects of a sequence of handler invocations, in order. -/
def runEffects (DEVICE : Bool) (st : AdapterState) (events : List Event) : List Effect :=
  (runLog DEVICE st events).map (fun entry => entry.2)

/-- One handler invocation of the event loop, the presence-queue handlers and
`setMyCustomMessage` included.  A handler that calls into the provider carries
the provider side as it is at that time. -/
inductive Invocation where
  | session (event : Event)
  | displayEventHandler (provider : Provider) (params : DisplayEventParams)
  | queuePresenceUpdatesTimer (provider : Provider)
  | queuePresenceUpdatesForAccountTimerCallback (provider : Provider) (accountKey : String)
  | setMyCustomMessage (message : LSMessage) (serviceName username customMessage : String)

/-- The handler that an invocation runs. -/
def invoke (DEVICE : Bool) (st : AdapterState) : Invocation → AdapterState × List Effect
  | .session event => step DEVICE st event
  | .displayEventHandler provider params => displayEventHandler provider st params
  | .queuePresenceUpdatesTimer provider => queuePresenceUpdatesTimer provider st
  | .queuePresenceUpdatesForAccountTimerCallback provider accountKey =>
    queuePresenceUpdatesForAccountTimerCallback provider st accountKey
  | .setMyCustomMessage message serviceName username customMessage =>
    setMyCustomMessage st message serviceName username customMessage

/-- State after a sequence of invocations, one at a time to completion. -/
def runInvocations (DEVICE : Bool) (st : AdapterState) : List Invocation → AdapterState
  | [] => st
  | invocation :: rest => runInvocations DEVICE (invoke DEVICE st invocation).1 rest

/-! ## Observations on effects -/

/-- The replies among `effects` that are addressed to a client request, in
order, each with the request it answers. -/
def clientReplies : List Effect → List (LSMessage × Payload)
  | [] => []
  | Effect.LSMessageReply (some message) payload :: rest =>
    (message, payload) :: clientReplies rest
  | _ :: rest => clientReplies rest

/-- The provider login calls among `effects`. -/
def providerLogins : List Effect → List PurpleAccount
  | [] => []
  | Effect.purple_savedstatus_activate_for_account _ _ account :: rest =>
    account :: providerLogins rest
  | _ :: rest => providerLogins rest

/-- Values stored in a table, in the order of its entries. -/
def tableValues {α : Type} (table : Table α) : List α :=
  table.map (fun entry => entry.2)

/-- Request handles held in the two correlation tables. -/
def heldRequests (st : AdapterState) : List LSMessage :=
  tableValues st.loginMessages ++ tableValues st.logoutMessages

/-- The client request that an event delivers, if it is a service method. -/
def Event.request : Event → Option LSMessage
  | .login message _ => some message
  | .logout message _ _ => some message
  | .deviceConnectionClosed message _ => some message
  | _ => none

/-- Handles of the client requests delivered by a sequence of events. -/
def requests (events : List Event) : List LSMessage :=
  events.filterMap Event.request

/-- Handles of the `login` requests delivered by a sequence of events. -/
def loginRequests : List Event → List LSMessage
  | [] => []
  | .login message _ :: rest => message :: loginRequests rest
  | _ :: rest => loginRequests rest

/-- Handles of the `logout` requests delivered by a sequence of events. -/
def logoutRequests : List Event → List LSMessage
  | [] => []
  | .logout message _ _ :: rest => message :: logoutRequests rest
  | _ :: rest => logoutRequests rest

/-- Handles of the `deviceConnectionClosed` requests delivered by a sequence
of events. -/
def closedRequests : List Event → List LSMessage
  | [] => []
  | .deviceConnectionClosed message _ :: rest => message :: closedRequests rest
  | _ :: rest => closedRequests rest

/-- Whether the event is a "signed-on" notification. -/
def Event.isLoggedIn : Event → Bool
  | .account_logged_in _ => true
  | _ => false

/-- Whether the event is a `deviceConnectionClosed` request. -/
def Event.isConnectionClosed : Event → Bool
  | .deviceConnectionClosed _ _ => true
  | _ => false

/-- Whether the effect is a reply addressed to the request `message`. -/
def Effect.repliesTo (message : LSMessage) : Effect → Bool
  | .LSMessageReply (some m) _ => decide (m = message)
  | _ => false

/-- Number of replies to `message` in a log, whatever handler sent them. -/
def replyCount (message : LSMessage) (log : List (Event × Effect)) : Nat :=
  (log.filter (fun entry => entry.2.repliesTo message)).length

/-- Number of replies to `message` in a log that were sent by a handler other
than `account_logged_in`. -/
def finalReplyCount (message : LSMessage) (log : List (Event × Effect)) : Nat :=
  (log.filter (fun entry => !entry.1.isLoggedIn && entry.2.repliesTo message)).length

/-- The `login` request that an event delivers, if it is one. -/
def Event.loginRequest : Event → Option LSMessage
  | .login message _ => some message
  | _ => none

/-- What a handler other than `deviceConnectionClosed` can do to the two
correlation tables and which client replies it can send: nothing; a reply to
its own request; holding its own request (`ownLogin` is the request of a
`login`, `own` the request of any service method); a reply to a held login
request that stays held (`account_logged_in` only); a reply to a held request
whose entry is removed. -/
inductive Shape (lm lo : Table LSMessage) (own ownLogin : Option LSMessage) (loggedIn : Bool) :
    Table LSMessage → Table LSMessage → List (LSMessage × Payload) → Prop where
  | keep : Shape lm lo own ownLogin loggedIn lm lo []
  | replyOwn (m : LSMessage) (p : Payload) (hl : loggedIn = false) (h : own = some m) :
      Shape lm lo own ownLogin loggedIn lm lo [(m, p)]
  | holdLogin (k : String) (m : LSMessage) (h : ownLogin = some m) :
      Shape lm lo own ownLogin loggedIn (g_hash_table_insert lm k m) lo []
  | holdLoginAgain (k : String) (m : LSMessage) (h : ownLogin = some m) :
      Shape lm lo own ownLogin loggedIn
        (g_hash_table_insert (g_hash_table_remove lm k) k m) lo []
  | holdLogout (k : String) (m : LSMessage) (h : own = some m) :
      Shape lm lo own ownLogin loggedIn lm (g_hash_table_insert lo k m) []
  | notify (k : String) (x : LSMessage) (p : Payload) (hl : loggedIn = true)
      (h : g_hash_table_lookup lm k = some x) : Shape lm lo own ownLogin loggedIn lm lo [(x, p)]
  | releaseLogin (k : String) (x : LSMessage) (p : Payload) (hl : loggedIn = false)
      (h : g_hash_table_lookup lm k = some x) :
      Shape lm lo own ownLogin loggedIn (g_hash_table_remove lm k) lo [(x, p)]
  | releaseLogout (k : String) (x : LSMessage) (p : Payload) (hl : loggedIn = false)
      (h : g_hash_table_lookup lo k = some x) :
      Shape lm lo own ownLogin loggedIn lm (g_hash_table_remove lo k) [(x, p)]

/-- A table after a series of replies to held requests, each followed by the
removal of its entry, as in the first loop of `deviceConnectionClosed`. -/
inductive Releases (lm : Table LSMessage) : Table LSMessage → List (LSMessage × Payload) → Prop where
  | nil : Releases lm lm []
  | snoc (lm1 : Table LSMessage) (rs : List (LSMessage × Payload)) (k : String) (x : LSMessage)
      (p : Payload) (hprev : Releases lm lm1 rs) (h : g_hash_table_lookup lm1 k = some x) :
      Releases lm (g_hash_table_remove lm1 k) (rs ++ [(x, p)])

/-- What the reply-counting argument needs to know about one handler
invocation that takes the correlation tables from `lm`, `lo` to `lm2`, `lo2`
and sends `replies`: held handles stay distinct; a held handle was held before
or is the request of this invocation, and so is every reply target; a handler
other than `account_logged_in` no longer holds what it answered; a request is
answered at most once (the own request of `deviceConnectionClosed` apart);
`loginMessages` gains at most the request of a `login`; `account_logged_in`
answers only handles held in `loginMessages`. -/
structure StepFacts (lm lo : Table LSMessage) (own ownLogin : Option LSMessage)
    (loggedIn closed : Bool) (lm2 lo2 : Table LSMessage)
    (replies : List (LSMessage × Payload)) : Prop where
  nodup : (tableValues lm2 ++ tableValues lo2).Nodup
  held : ∀ m, m ∈ tableValues lm2 ++ tableValues lo2 →
    m ∈ tableValues lm ++ tableValues lo ∨ own = some m
  target : ∀ m p, (m, p) ∈ replies → m ∈ tableValues lm ++ tableValues lo ∨ own = some m
  released : loggedIn = false → ∀ m p, (m, p) ∈ replies →
    m ∉ tableValues lm2 ++ tableValues lo2
  once : ∀ m, (closed = true → own ≠ some m) → (replies.map Prod.fst).count m ≤ 1
  heldLogin : ∀ m, m ∈ tableValues lm2 → m ∈ tableValues lm ∨ ownLogin = some m
  notified : loggedIn = true → ∀ m p, (m, p) ∈ replies → m ∈ tableValues lm

/-- The `purple_account_new` calls among `effects`, as user name and protocol id. -/
def createdAccounts : List Effect → List (String × String)
  | [] => []
  | Effect.purple_account_new username protocol_id :: rest =>
    (username, protocol_id) :: createdAccounts rest
  | _ :: rest => createdAccounts rest

/-- The timers armed among `effects`: seconds, callback, callback data and the
handle returned. -/
def armedTimers : List Effect → List (Nat × TimerCallback × String × Nat)
  | [] => []
  | Effect.purple_timeout_add_seconds seconds function data handle :: rest =>
    (seconds, function, data, handle) :: armedTimers rest
  | _ :: rest => armedTimers rest

/-- The provider login calls among `effects`, with the status primitive and
the status message they activate. -/
def providerLoginCalls : List Effect → List (PurpleStatusPrimitive × String × PurpleAccount)
  | [] => []
  | Effect.purple_savedstatus_activate_for_account prim message account :: rest =>
    (prim, message, account) :: providerLoginCalls rest
  | _ :: rest => providerLoginCalls rest

/-- The provider disconnect calls among `effects`. -/
def providerDisconnects : List Effect → List PurpleAccount
  | [] => []
  | Effect.purple_account_disconnect account :: rest => account :: providerDisconnects rest
  | _ :: rest => providerDisconnects rest

/-- The stanzas sent among `effects`, each with the account it is sent on. -/
def sentStanzas : List Effect → List (PurpleAccount × String)
  | [] => []
  | Effect.send_raw account stanza :: rest => (account, stanza) :: sentStanzas rest
  | _ :: rest => sentStanzas rest

/-- Every account of `onlineAccountData` is stored under the key derived from
the provider account itself. -/
def OnlineKeyed (st : AdapterState) : Prop :=
  ∀ key account, g_hash_table_lookup st.onlineAccountData key = some account →
    getAccountKeyFromPurpleAccount account = key

/-- No key of `ipAddressesBoundTo` is bound to the empty address. -/
def BoundNonEmpty (st : AdapterState) : Prop :=
  ∀ key, g_hash_table_lookup st.ipAddressesBoundTo key ≠ some ""

/-- Every entry of `table2` is an entry of `table` under the same key: `table2`
comes from `table` by removals only. -/
def Shrinks {α : Type} (table table2 : Table α) : Prop :=
  ∀ key, g_hash_table_lookup table2 key = g_hash_table_lookup table key
    ∨ g_hash_table_lookup table2 key = none

/-- No key is in both `onlineAccountData` and `pendingAccountData`. -/
def Exclusive (st : AdapterState) : Prop :=
  ∀ key, g_hash_table_lookup st.onlineAccountData key = none
    ∨ g_hash_table_lookup st.pendingAccountData key = none

/-- A second login request on "aol" from "10.0.0.1", with the user name given
without the mail domain. -/
def scenarioLoginBob : LoginParams :=
  ⟨"aol", "bob", "p", 0, none, some "10.0.0.1", none⟩

/-- The same second request with the user name written `bob@aol.com`. -/
def scenarioLoginBobFull : LoginParams :=
  ⟨"aol", "bob@aol.com", "p", 0, none, some "10.0.0.1", none⟩

/-! ## Scenario data -/

/-- The login request of the scenario in section 8 of the specification. -/
def scenarioLogin : LoginParams :=
  ⟨"aol", "user1", "p", 0, none, some "10.0.0.1", none⟩

/-- The same request with the user name in the form `name@aol.com`. -/
def scenarioLoginFull : LoginParams :=
  ⟨"aol", "user1@aol.com", "p", 0, none, some "10.0.0.1", none⟩

/-- The provider account that `login` creates for both scenario requests. -/
def scenarioAccount : PurpleAccount := ⟨"user1", "prpl-aim"⟩

/-- A login request on "gmail" from "10.0.0.1". -/
def scenarioGmailLogin : LoginParams :=
  ⟨"gmail", "user2@gmail.com", "p", 0, none, some "10.0.0.1", none⟩

/-- The provider account that `login` creates for `scenarioGmailLogin`. -/
def scenarioGmailAccount : PurpleAccount := ⟨"user2@gmail.com", "prpl-jabber"⟩

/-- A login request on the service "irc" (protocol id "prpl-irc") from "10.0.0.1". -/
def scenarioIrcLogin : LoginParams :=
  ⟨"irc", "nick@irc.example.org", "p", 0, none, some "10.0.0.1", none⟩

/-- The provider account that `login` creates for `scenarioIrcLogin`. -/
def scenarioIrcAccount : PurpleAccount := ⟨"nick@irc.example.org", "prpl-irc"⟩

/-- A provider side on which every account has a connection through a prpl that
implements `send_raw`, with the user name of the account as display name. -/
def scenarioProvider : Provider :=
  fun account => some ⟨some ⟨true⟩, some account.username⟩

set_option maxRecDepth 100000

/-! ## Facts about tables -/

theorem lookup_insert {α : Type} (table : Table α) (key key2 : String) (value : α) :
    g_hash_table_lookup (g_hash_table_insert table key value) key2
      = if key2 = key then some value else g_hash_table_lookup table key2 := by
  induction table with
  | nil => simp [g_hash_table_insert, g_hash_table_lookup]
  | cons entry rest ih =>
    obtain ⟨k, v⟩ := entry
    by_cases hk : key = k
    · subst hk
      by_cases h2 : key2 = key <;> simp [g_hash_table_insert, g_hash_table_lookup, h2]
    · by_cases h2 : key2 = k
      · subst h2
        have hne : ¬ key2 = key := fun h => hk h.symm
        simp [g_hash_table_insert, g_hash_table_lookup, hk, hne]
      · simp [g_hash_table_insert, g_hash_table_lookup, hk, h2, ih]

theorem lookup_remove {α : Type} (table : Table α) (key key2 : String) :
    g_hash_table_lookup (g_hash_table_remove table key) key2
      = if key2 = key then none else g_hash_table_lookup table key2 := by
  induction table with
  | nil => simp [g_hash_table_remove, g_hash_table_lookup]
  | cons entry rest ih =>
    obtain ⟨k, v⟩ := entry
    by_cases hk : k = key
    · subst hk
      by_cases h2 : key2 = k
      · subst h2
        simpa [g_hash_table_remove] using ih
      · simp [g_hash_table_remove, g_hash_table_lookup, h2, ih]
    · by_cases h2 : key2 = k
      · subst h2
        simp [g_hash_table_remove, g_hash_table_lookup, hk]
      · simp [g_hash_table_remove, g_hash_table_lookup, hk, h2, ih]

theorem clientReplies_append (a b : List Effect) :
    clientReplies (a ++ b) = clientReplies a ++ clientReplies b := by
  induction a with
  | nil => rfl
  | cons e rest ih =>
    cases e with
    | LSMessageReply message payload =>
      cases message <;> simp [clientReplies, ih]
    | _ => simp [clientReplies, ih]

theorem providerLogins_append (a b : List Effect) :
    providerLogins (a ++ b) = providerLogins a ++ providerLogins b := by
  induction a with
  | nil => rfl
  | cons e rest ih => cases e <;> simp [providerLogins, ih]

theorem runEffects_nil (DEVICE : Bool) (st : AdapterState) : runEffects DEVICE st [] = [] := rfl

theorem runEffects_cons (DEVICE : Bool) (st : AdapterState) (event : Event)
    (rest : List Event) :
    runEffects DEVICE st (event :: rest)
      = (step DEVICE st event).2 ++ runEffects DEVICE (step DEVICE st event).1 rest := by
  simp [runEffects, runLog, List.map_map, Function.comp_def]

theorem lookup_insert_self {α : Type} (table : Table α) (key : String) (value : α) :
    g_hash_table_lookup (g_hash_table_insert table key value) key = some value := by
  simp [lookup_insert]

theorem lookup_remove_self {α : Type} (table : Table α) (key : String) :
    g_hash_table_lookup (g_hash_table_remove table key) key = none := by
  simp [lookup_remove]

theorem remove_of_lookup_none {α : Type} (table : Table α) (key : String)
    (h : g_hash_table_lookup table key = none) : g_hash_table_remove table key = table := by
  induction table with
  | nil => rfl
  | cons entry rest ih =>
    obtain ⟨k, v⟩ := entry
    by_cases hk : key = k
    · simp [g_hash_table_lookup, hk] at h
    · have hk2 : ¬ k = key := fun e => hk e.symm
      simp only [g_hash_table_lookup, hk, if_false] at h
      simp [g_hash_table_remove, hk2, ih h]

theorem lookup_mem_values {α : Type} (table : Table α) (key : String) (value : α)
    (h : g_hash_table_lookup table key = some value) : value ∈ tableValues table := by
  induction table with
  | nil => simp [g_hash_table_lookup] at h
  | cons entry rest ih =>
    obtain ⟨k, v⟩ := entry
    by_cases hk : key = k
    · simp [g_hash_table_lookup, hk] at h
      simp [tableValues, h]
    · simp only [g_hash_table_lookup, hk, if_false] at h
      have := ih h
      simp only [tableValues] at this
      simp [tableValues, this]

theorem lookup_inj_of_nodup {α : Type} (table : Table α) (key1 key2 : String) (value : α)
    (hnodup : (tableValues table).Nodup)
    (h1 : g_hash_table_lookup table key1 = some value)
    (h2 : g_hash_table_lookup table key2 = some value) : key1 = key2 := by
  induction table with
  | nil => simp [g_hash_table_lookup] at h1
  | cons entry rest ih =>
    obtain ⟨k, v⟩ := entry
    simp only [tableValues, List.map_cons, List.nodup_cons] at hnodup
    obtain ⟨hv, hrest⟩ := hnodup
    by_cases hk1 : key1 = k
    · by_cases hk2 : key2 = k
      · rw [hk1, hk2]
      · simp only [g_hash_table_lookup, hk1, if_true, Option.some.injEq] at h1
        simp only [g_hash_table_lookup, hk2, if_false] at h2
        exact absurd (h1 ▸ lookup_mem_values rest key2 value h2) hv
    · by_cases hk2 : key2 = k
      · simp only [g_hash_table_lookup, hk2, if_true, Option.some.injEq] at h2
        simp only [g_hash_table_lookup, hk1, if_false] at h1
        exact absurd (h2 ▸ lookup_mem_values rest key1 value h1) hv
      · simp only [g_hash_table_lookup, hk1, if_false] at h1
        simp only [g_hash_table_lookup, hk2, if_false] at h2
        exact ih hrest h1 h2

theorem values_remove_sublist {α : Type} (table : Table α) (key : String) :
    (tableValues (g_hash_table_remove table key)).Sublist (tableValues table) := by
  induction table with
  | nil => simp [g_hash_table_remove, tableValues]
  | cons entry rest ih =>
    obtain ⟨k, v⟩ := entry
    simp only [tableValues] at ih
    by_cases hk : k = key
    · simp only [g_hash_table_remove, hk, if_true, tableValues, List.map_cons]
      exact List.Sublist.cons _ ih
    · simp only [g_hash_table_remove, hk, if_false, tableValues, List.map_cons]
      exact List.Sublist.cons₂ _ ih

theorem mem_values_remove {α : Type} (table : Table α) (key : String) (value : α)
    (h : value ∈ tableValues (g_hash_table_remove table key)) : value ∈ tableValues table :=
  (values_remove_sublist table key).subset h

theorem mem_values_insert {α : Type} (table : Table α) (key : String) (value x : α)
    (h : x ∈ tableValues (g_hash_table_insert table key value)) :
    x = value ∨ x ∈ tableValues table := by
  induction table with
  | nil => simpa [g_hash_table_insert, tableValues] using h
  | cons entry rest ih =>
    obtain ⟨k, v⟩ := entry
    simp only [tableValues] at ih
    by_cases hk : key = k
    · simp only [g_hash_table_insert, hk, if_true, tableValues, List.map_cons,
        List.mem_cons] at h
      rcases h with h | h
      · exact Or.inl h
      · exact Or.inr (by simp [tableValues, h])
    · simp only [g_hash_table_insert, hk, if_false, tableValues, List.map_cons,
        List.mem_cons] at h
      rcases h with h | h
      · exact Or.inr (by simp [tableValues, h])
      · rcases ih h with h3 | h3
        · exact Or.inl h3
        · exact Or.inr (by simp [tableValues, h3])

theorem nodup_values_insert {α : Type} (table : Table α) (key : String) (value : α)
    (hnodup : (tableValues table).Nodup) (hnew : value ∉ tableValues table) :
    (tableValues (g_hash_table_insert table key value)).Nodup := by
  induction table with
  | nil => simp [g_hash_table_insert, tableValues]
  | cons entry rest ih =>
    obtain ⟨k, v⟩ := entry
    simp only [tableValues, List.map_cons, List.nodup_cons, List.mem_cons, not_or] at hnodup hnew
    obtain ⟨hv, hrest⟩ := hnodup
    obtain ⟨hne, hnotin⟩ := hnew
    by_cases hk : key = k
    · simp only [g_hash_table_insert, hk, if_true, tableValues, List.map_cons, List.nodup_cons]
      exact ⟨hnotin, hrest⟩
    · simp only [g_hash_table_insert, hk, if_false, tableValues, List.map_cons,
        List.nodup_cons]
      refine ⟨?_, ih hrest hnotin⟩
      intro hmem
      rcases mem_values_insert rest key value v hmem with h | h
      · exact hne h.symm
      · exact hv h

theorem not_mem_values_remove {α : Type} (table : Table α) (key : String) (value : α)
    (hnodup : (tableValues table).Nodup)
    (h : g_hash_table_lookup table key = some value) :
    value ∉ tableValues (g_hash_table_remove table key) := by
  induction table with
  | nil => simp [g_hash_table_lookup] at h
  | cons entry rest ih =>
    obtain ⟨k, v⟩ := entry
    simp only [tableValues, List.map_cons, List.nodup_cons] at hnodup
    obtain ⟨hv, hrest⟩ := hnodup
    by_cases hk : key = k
    · simp only [g_hash_table_lookup, hk, if_true, Option.some.injEq] at h
      subst hk
      subst h
      simp only [g_hash_table_remove, if_true]
      exact fun hmem => hv (mem_values_remove rest key v hmem)
    · have hk2 : ¬ k = key := fun e => hk e.symm
      simp only [g_hash_table_lookup, hk, if_false] at h
      simp only [g_hash_table_remove, hk2, if_false, tableValues, List.map_cons, List.mem_cons,
        not_or]
      refine ⟨?_, ih hrest h⟩
      intro hval
      exact hv (hval ▸ lookup_mem_values rest key value h)

/-! ## Effects of `account_logged_in` -/

theorem account_logged_in_replies (st : AdapterState) (account : PurpleAccount)
    (h : g_hash_table_lookup st.onlineAccountData (getAccountKeyFromPurpleAccount account)
      = none) :
    clientReplies (account_logged_in st account).2
      = clientReplies [Effect.LSMessageReply
          (g_hash_table_lookup st.loginMessages (getAccountKeyFromPurpleAccount account))
          (Payload.text (successResponse account))] := by
  unfold account_logged_in
  simp only [h, Option.isSome_none, Bool.false_eq_true, if_false]
  cases st.registeredForDisplayEvents <;> cases st.currentDisplayState <;>
    cases st.registeredForPresenceUpdateSignals <;>
    cases g_hash_table_lookup st.loginMessages (getAccountKeyFromPurpleAccount account) <;>
    simp [clientReplies]

theorem account_logged_in_providerLogins (st : AdapterState) (account : PurpleAccount) :
    providerLogins (account_logged_in st account).2 = [] := by
  unfold account_logged_in
  by_cases h : (g_hash_table_lookup st.onlineAccountData
      (getAccountKeyFromPurpleAccount account)).isSome = true
  · simp [h, providerLogins]
  · simp only [h, if_false]
    cases st.registeredForDisplayEvents <;> cases st.currentDisplayState <;>
      cases st.registeredForPresenceUpdateSignals <;>
      simp [providerLogins]

/-! ## What each handler does to the correlation tables -/

theorem loginProcess_shape (DEVICE : Bool) (st : AdapterState) (effects : List Effect)
    (message : LSMessage) (params : LoginParams) (hnone : clientReplies effects = []) :
    Shape st.loginMessages st.logoutMessages (some message) (some message) false
      (loginProcess DEVICE st effects message params).1.loginMessages
      (loginProcess DEVICE st effects message params).1.logoutMessages
      (clientReplies (loginProcess DEVICE st effects message params).2) := by
  unfold loginProcess
  by_cases h1 : params.username = "" ∨ params.password = ""
  · simp only [h1, if_true, clientReplies_append, hnone, clientReplies, List.nil_append]
    exact Shape.replyOwn _ _ rfl rfl
  · by_cases h2 : params.localIpAddress.getD "" = "" ∧ DEVICE = true
    · simp only [h1, h2, and_self, if_true, if_false, clientReplies_append, hnone, clientReplies,
        List.nil_append]
      exact Shape.replyOwn _ _ rfl rfl
    · simp only [h1, h2, if_false, clientReplies_append, hnone, clientReplies,
        apply_ite clientReplies, List.nil_append, ite_self, List.append_nil]
      exact Shape.holdLogin _ _ rfl

theorem login_shape (DEVICE : Bool) (st : AdapterState) (message : LSMessage)
    (params : LoginParams) :
    Shape st.loginMessages st.logoutMessages (some message) (some message) false
      (login DEVICE st message params).1.loginMessages
      (login DEVICE st message params).1.logoutMessages
      (clientReplies (login DEVICE st message params).2) := by
  have hinit : clientReplies
      (if st.libpurpleInitialized then [] else [Effect.initializeLibpurple]) = [] := by
    cases st.libpurpleInitialized <;> simp [clientReplies]
  have hforce : ∀ active : PurpleAccount, clientReplies
      ((if st.libpurpleInitialized then [] else [Effect.initializeLibpurple])
        ++ [Effect.purple_account_disconnect active]) = [] := by
    intro active
    simp [clientReplies_append, hinit, clientReplies]
  unfold login
  simp only
  split
  · rename_i active hon
    split
    · rw [clientReplies_append, hinit]
      exact Shape.replyOwn _ _ rfl rfl
    · exact loginProcess_shape DEVICE
        (loginForceLogout { st with libpurpleInitialized := true }
          (getAccountKey params.username params.serviceName)) _ message params (hforce active)
  · split
    · rename_i active hpend
      split
      · rw [hinit]
        exact Shape.holdLoginAgain _ _ rfl
      · exact loginProcess_shape DEVICE
          (loginForceLogout { st with libpurpleInitialized := true }
            (getAccountKey params.username params.serviceName)) _ message params (hforce active)
    · exact loginProcess_shape DEVICE { st with libpurpleInitialized := true } _ message params
        hinit

theorem logout_shape (st : AdapterState) (message : LSMessage) (serviceName username : String) :
    Shape st.loginMessages st.logoutMessages (some message) none false
      (logout st message serviceName username).1.loginMessages
      (logout st message serviceName username).1.logoutMessages
      (clientReplies (logout st message serviceName username).2) := by
  unfold logout
  simp only
  split
  · simp only [clientReplies]
    exact Shape.replyOwn _ _ rfl rfl
  · simp only [clientReplies]
    exact Shape.holdLogout _ _ rfl

theorem account_logged_in_shape (st : AdapterState) (account : PurpleAccount) :
    Shape st.loginMessages st.logoutMessages none none true
      (account_logged_in st account).1.loginMessages
      (account_logged_in st account).1.logoutMessages
      (clientReplies (account_logged_in st account).2) := by
  unfold account_logged_in
  simp only
  split
  · exact Shape.keep
  · cases hm : g_hash_table_lookup st.loginMessages (getAccountKeyFromPurpleAccount account) with
    | none =>
      cases st.registeredForDisplayEvents <;> cases st.currentDisplayState <;>
        cases st.registeredForPresenceUpdateSignals <;>
        simp [clientReplies, Shape.keep]
    | some x =>
      cases st.registeredForDisplayEvents <;> cases st.currentDisplayState <;>
        cases st.registeredForPresenceUpdateSignals <;>
        simp only [clientReplies, if_true, if_false, Bool.false_eq_true, List.cons_append,
          List.nil_append, List.append_nil] <;>
        exact Shape.notify _ _ _ rfl hm

theorem account_signed_off_cb_shape (st : AdapterState) (account : PurpleAccount) :
    Shape st.loginMessages st.logoutMessages none none false
      (account_signed_off_cb st account).1.loginMessages
      (account_signed_off_cb st account).1.logoutMessages
      (clientReplies (account_signed_off_cb st account).2) := by
  unfold account_signed_off_cb
  simp only
  split
  · by_cases hon : (g_hash_table_lookup st.onlineAccountData
        (getAccountKeyFromPurpleAccount account)).isSome = true
    · simp only [hon, if_true]
      split
      · rename_i x hx
        exact Shape.releaseLogout _ _ _ rfl hx
      · exact Shape.keep
    · simp only [hon, if_false]
      split
      · rename_i x hx
        exact Shape.releaseLogout _ _ _ rfl hx
      · exact Shape.keep
  · exact Shape.keep

theorem account_login_failed_finish_shape (st : AdapterState) (account : PurpleAccount)
    (type : PurpleConnectionError) (description : String) (loggedOut : Bool)
    (effects : List Effect) (lm lo : Table LSMessage) (hnone : clientReplies effects = [])
    (hlm : st.loginMessages = lm) (hlo : st.logoutMessages = lo) :
    Shape lm lo none none false
      (account_login_failed_finish st account type description loggedOut effects).1.loginMessages
      (account_login_failed_finish st account type description loggedOut effects).1.logoutMessages
      (clientReplies
        (account_login_failed_finish st account type description loggedOut effects).2) := by
  subst hlm
  subst hlo
  unfold account_login_failed_finish
  simp only
  split
  · rename_i x hx
    simp only [clientReplies_append, hnone, clientReplies, List.nil_append]
    exact Shape.releaseLogin _ _ _ rfl hx
  · simp only [hnone]
    exact Shape.keep

theorem account_login_failed_shape (st : AdapterState) (account : PurpleAccount)
    (type : PurpleConnectionError) (description : String) :
    Shape st.loginMessages st.logoutMessages none none false
      (account_login_failed st account type description).1.loginMessages
      (account_login_failed st account type description).1.logoutMessages
      (clientReplies (account_login_failed st account type description).2) := by
  unfold account_login_failed
  simp only
  split
  · exact account_login_failed_finish_shape st account type description true [] _ _ rfl rfl rfl
  · split
    · exact account_login_failed_finish_shape _ account type description false _ _ _ rfl rfl rfl
    · simp only [clientReplies]
      exact Shape.keep

theorem connectTimeoutCallback_shape (st : AdapterState) (accountKey : String) :
    Shape st.loginMessages st.logoutMessages none none false
      (connectTimeoutCallback st accountKey).1.loginMessages
      (connectTimeoutCallback st accountKey).1.logoutMessages
      (clientReplies (connectTimeoutCallback st accountKey).2) := by
  unfold connectTimeoutCallback
  split
  · exact Shape.keep
  · simp only
    split
    · rename_i x hx
      simp only [clientReplies]
      exact Shape.releaseLogin _ _ _ rfl hx
    · simp only [clientReplies]
      exact Shape.keep

/-! ## Facts about one handler invocation -/

theorem nodup_remove_left (lm lo : Table LSMessage) (k : String)
    (h : (tableValues lm ++ tableValues lo).Nodup) :
    (tableValues (g_hash_table_remove lm k) ++ tableValues lo).Nodup :=
  List.Nodup.sublist
    (List.Sublist.append (values_remove_sublist lm k) (List.Sublist.refl _)) h

theorem nodup_remove_right (lm lo : Table LSMessage) (k : String)
    (h : (tableValues lm ++ tableValues lo).Nodup) :
    (tableValues lm ++ tableValues (g_hash_table_remove lo k)).Nodup :=
  List.Nodup.sublist
    (List.Sublist.append (List.Sublist.refl _) (values_remove_sublist lo k)) h

theorem nodup_insert_left (lm lo : Table LSMessage) (k : String) (m : LSMessage)
    (h : (tableValues lm ++ tableValues lo).Nodup)
    (hm : m ∉ tableValues lm ++ tableValues lo) :
    (tableValues (g_hash_table_insert lm k m) ++ tableValues lo).Nodup := by
  rw [List.nodup_append] at h ⊢
  obtain ⟨h1, h2, h3⟩ := h
  simp only [List.mem_append, not_or] at hm
  refine ⟨nodup_values_insert lm k m h1 hm.1, h2, ?_⟩
  intro x hx hxlo
  rcases mem_values_insert lm k m x hx with hx1 | hx1
  · exact hm.2 (hx1 ▸ hxlo)
  · exact h3 hx1 hxlo

theorem nodup_insert_right (lm lo : Table LSMessage) (k : String) (m : LSMessage)
    (h : (tableValues lm ++ tableValues lo).Nodup)
    (hm : m ∉ tableValues lm ++ tableValues lo) :
    (tableValues lm ++ tableValues (g_hash_table_insert lo k m)).Nodup := by
  rw [List.nodup_append] at h ⊢
  obtain ⟨h1, h2, h3⟩ := h
  simp only [List.mem_append, not_or] at hm
  refine ⟨h1, nodup_values_insert lo k m h2 hm.2, ?_⟩
  intro x hxlm hx
  rcases mem_values_insert lo k m x hx with hx1 | hx1
  · exact hm.1 (hx1 ▸ hxlm)
  · exact h3 hxlm hx1

theorem released_left (lm lo : Table LSMessage) (k : String) (x : LSMessage)
    (h : (tableValues lm ++ tableValues lo).Nodup)
    (hx : g_hash_table_lookup lm k = some x) :
    x ∉ tableValues (g_hash_table_remove lm k) ++ tableValues lo := by
  rw [List.nodup_append] at h
  obtain ⟨h1, _, h3⟩ := h
  simp only [List.mem_append, not_or]
  exact ⟨not_mem_values_remove lm k x h1 hx, fun hlo => h3 (lookup_mem_values lm k x hx) hlo⟩

theorem released_right (lm lo : Table LSMessage) (k : String) (x : LSMessage)
    (h : (tableValues lm ++ tableValues lo).Nodup)
    (hx : g_hash_table_lookup lo k = some x) :
    x ∉ tableValues lm ++ tableValues (g_hash_table_remove lo k) := by
  rw [List.nodup_append] at h
  obtain ⟨_, h2, h3⟩ := h
  simp only [List.mem_append, not_or]
  exact ⟨fun hlm => h3 hlm (lookup_mem_values lo k x hx), not_mem_values_remove lo k x h2 hx⟩

theorem shape_facts (lm lo lm2 lo2 : Table LSMessage) (own ownLogin : Option LSMessage)
    (loggedIn : Bool) (replies : List (LSMessage × Payload))
    (hshape : Shape lm lo own ownLogin loggedIn lm2 lo2 replies)
    (hnodup : (tableValues lm ++ tableValues lo).Nodup)
    (hfresh : ∀ m, own = some m → m ∉ tableValues lm ++ tableValues lo)
    (hown : ∀ m, ownLogin = some m → own = some m) :
    StepFacts lm lo own ownLogin loggedIn false lm2 lo2 replies := by
  have hcount : ∀ (m m2 : LSMessage) (p : Payload),
      (List.map Prod.fst [(m, p)]).count m2 ≤ 1 := by
    intro m m2 p
    by_cases hm : m = m2 <;> simp [List.count_cons, hm]
  cases hshape with
  | keep =>
    exact ⟨hnodup, fun m h => Or.inl h, by simp, by simp, by simp, fun m h => Or.inl h, by simp⟩
  | replyOwn m p hl h =>
    refine ⟨hnodup, fun m h => Or.inl h, ?_, ?_, fun m2 _ => hcount m m2 p,
      fun m h => Or.inl h, ?_⟩
    · intro m2 p2 hmem
      simp only [List.mem_singleton, Prod.mk.injEq] at hmem
      exact Or.inr (hmem.1 ▸ h)
    · intro _ m2 p2 hmem
      simp only [List.mem_singleton, Prod.mk.injEq] at hmem
      exact hmem.1 ▸ hfresh m h
    · intro hl2
      simp [hl] at hl2
  | holdLogin k m h =>
    refine ⟨nodup_insert_left lm lo k m hnodup (hfresh m (hown m h)), ?_, by simp, by simp,
      by simp, ?_, by simp⟩
    · intro x hx
      rcases List.mem_append.mp hx with hx1 | hx1
      · rcases mem_values_insert lm k m x hx1 with h1 | h1
        · exact Or.inr (h1 ▸ hown m h)
        · exact Or.inl (List.mem_append.mpr (Or.inl h1))
      · exact Or.inl (List.mem_append.mpr (Or.inr hx1))
    · intro x hx
      rcases mem_values_insert lm k m x hx with h1 | h1
      · exact Or.inr (h1 ▸ h)
      · exact Or.inl h1
  | holdLoginAgain k m h =>
    have hsub : m ∉ tableValues (g_hash_table_remove lm k) ++ tableValues lo := by
      intro hmem
      apply hfresh m (hown m h)
      rcases List.mem_append.mp hmem with h1 | h1
      · exact List.mem_append.mpr (Or.inl (mem_values_remove lm k m h1))
      · exact List.mem_append.mpr (Or.inr h1)
    refine ⟨nodup_insert_left _ lo k m (nodup_remove_left lm lo k hnodup) hsub, ?_, by simp,
      by simp, by simp, ?_, by simp⟩
    · intro x hx
      rcases List.mem_append.mp hx with hx1 | hx1
      · rcases mem_values_insert _ k m x hx1 with h1 | h1
        · exact Or.inr (h1 ▸ hown m h)
        · exact Or.inl (List.mem_append.mpr (Or.inl (mem_values_remove lm k x h1)))
      · exact Or.inl (List.mem_append.mpr (Or.inr hx1))
    · intro x hx
      rcases mem_values_insert _ k m x hx with h1 | h1
      · exact Or.inr (h1 ▸ h)
      · exact Or.inl (mem_values_remove lm k x h1)
  | holdLogout k m h =>
    refine ⟨nodup_insert_right lm lo k m hnodup (hfresh m h), ?_, by simp, by simp,
      by simp, fun m h => Or.inl h, by simp⟩
    intro x hx
    rcases List.mem_append.mp hx with hx1 | hx1
    · exact Or.inl (List.mem_append.mpr (Or.inl hx1))
    · rcases mem_values_insert lo k m x hx1 with h1 | h1
      · exact Or.inr (h1 ▸ h)
      · exact Or.inl (List.mem_append.mpr (Or.inr h1))
  | notify k x p hl h =>
    refine ⟨hnodup, fun m h => Or.inl h, ?_, ?_, fun m2 _ => hcount x m2 p,
      fun m h => Or.inl h, ?_⟩
    · intro m2 p2 hmem
      simp only [List.mem_singleton, Prod.mk.injEq] at hmem
      exact Or.inl (List.mem_append.mpr (Or.inl (hmem.1 ▸ lookup_mem_values lm k x h)))
    · intro hl2
      simp [hl] at hl2
    · intro _ m2 p2 hmem
      simp only [List.mem_singleton, Prod.mk.injEq] at hmem
      exact hmem.1 ▸ lookup_mem_values lm k x h
  | releaseLogin k x p hl h =>
    refine ⟨nodup_remove_left lm lo k hnodup, ?_, ?_, ?_, fun m2 _ => hcount x m2 p, ?_, ?_⟩
    · intro m hm
      rcases List.mem_append.mp hm with h1 | h1
      · exact Or.inl (List.mem_append.mpr (Or.inl (mem_values_remove lm k m h1)))
      · exact Or.inl (List.mem_append.mpr (Or.inr h1))
    · intro m2 p2 hmem
      simp only [List.mem_singleton, Prod.mk.injEq] at hmem
      exact Or.inl (List.mem_append.mpr (Or.inl (hmem.1 ▸ lookup_mem_values lm k x h)))
    · intro _ m2 p2 hmem
      simp only [List.mem_singleton, Prod.mk.injEq] at hmem
      exact hmem.1 ▸ released_left lm lo k x hnodup h
    · intro m hm
      exact Or.inl (mem_values_remove lm k m hm)
    · intro hl2
      simp [hl] at hl2
  | releaseLogout k x p hl h =>
    refine ⟨nodup_remove_right lm lo k hnodup, ?_, ?_, ?_, fun m2 _ => hcount x m2 p,
      fun m h => Or.inl h, ?_⟩
    · intro m hm
      rcases List.mem_append.mp hm with h1 | h1
      · exact Or.inl (List.mem_append.mpr (Or.inl h1))
      · exact Or.inl (List.mem_append.mpr (Or.inr (mem_values_remove lo k m h1)))
    · intro m2 p2 hmem
      simp only [List.mem_singleton, Prod.mk.injEq] at hmem
      exact Or.inl (List.mem_append.mpr (Or.inr (hmem.1 ▸ lookup_mem_values lo k x h)))
    · intro _ m2 p2 hmem
      simp only [List.mem_singleton, Prod.mk.injEq] at hmem
      exact hmem.1 ▸ released_right lm lo k x hnodup h
    · intro hl2
      simp [hl] at hl2

theorem releases_facts (lm lo lm1 : Table LSMessage) (rs : List (LSMessage × Payload))
    (hrel : Releases lm lm1 rs) (hnodup : (tableValues lm ++ tableValues lo).Nodup) :
    (tableValues lm1).Sublist (tableValues lm)
    ∧ (∀ x p, (x, p) ∈ rs → x ∈ tableValues lm ∧ x ∉ tableValues lm1 ++ tableValues lo)
    ∧ (rs.map Prod.fst).Nodup := by
  induction hrel with
  | nil => exact ⟨List.Sublist.refl _, by simp, by simp⟩
  | snoc lm1 rs k x p hprev h ih =>
    obtain ⟨hsub, hmem, hnd⟩ := ih
    have hnodup1 : (tableValues lm1 ++ tableValues lo).Nodup :=
      List.Nodup.sublist (List.Sublist.append hsub (List.Sublist.refl _)) hnodup
    have hx1 : x ∈ tableValues lm1 := lookup_mem_values lm1 k x h
    refine ⟨(values_remove_sublist lm1 k).trans hsub, ?_, ?_⟩
    · intro y q hy
      rcases List.mem_append.mp hy with hy1 | hy1
      · obtain ⟨ha, hb⟩ := hmem y q hy1
        refine ⟨ha, ?_⟩
        intro hc
        apply hb
        rcases List.mem_append.mp hc with hc1 | hc1
        · exact List.mem_append.mpr (Or.inl (mem_values_remove lm1 k y hc1))
        · exact List.mem_append.mpr (Or.inr hc1)
      · simp only [List.mem_singleton, Prod.mk.injEq] at hy1
        rw [hy1.1]
        exact ⟨hsub.subset hx1, released_left lm1 lo k x hnodup1 h⟩
    · rw [List.map_append, List.nodup_append]
      refine ⟨hnd, by simp, ?_⟩
      intro y hy hy2
      simp only [List.map_cons, List.map_nil, List.mem_singleton] at hy2
      obtain ⟨⟨y1, q⟩, hyq, hfst⟩ := List.mem_map.mp hy
      simp only at hfst
      subst hfst
      subst hy2
      exact (hmem y1 q hyq).2 (List.mem_append.mpr (Or.inl hx1))

theorem deviceConnectionClosedIteration_releases (ipAddress : String) (lm : Table LSMessage)
    (loop : ConnectionClosedLoop) (accountKey : String)
    (hrel : Releases lm loop.st.loginMessages (clientReplies loop.effects)) :
    Releases lm (deviceConnectionClosedIteration ipAddress loop accountKey).st.loginMessages
        (clientReplies (deviceConnectionClosedIteration ipAddress loop accountKey).effects)
    ∧ (deviceConnectionClosedIteration ipAddress loop accountKey).st.logoutMessages
        = loop.st.logoutMessages := by
  unfold deviceConnectionClosedIteration
  simp only
  split
  · exact ⟨hrel, rfl⟩
  · split
    · split
      · exact ⟨hrel, rfl⟩
      · split
        · rename_i x hx
          refine ⟨?_, rfl⟩
          simp only [clientReplies_append, clientReplies]
          exact Releases.snoc _ _ _ _ _ hrel hx
        · refine ⟨?_, rfl⟩
          simp only [clientReplies_append, clientReplies, List.append_nil]
          exact hrel
    · exact ⟨hrel, rfl⟩

theorem deviceConnectionClosed_loop_releases (ipAddress : String) (lm : Table LSMessage)
    (keys : List String) (loop : ConnectionClosedLoop)
    (hrel : Releases lm loop.st.loginMessages (clientReplies loop.effects)) :
    Releases lm
        (keys.foldl (deviceConnectionClosedIteration ipAddress) loop).st.loginMessages
        (clientReplies (keys.foldl (deviceConnectionClosedIteration ipAddress) loop).effects)
    ∧ (keys.foldl (deviceConnectionClosedIteration ipAddress) loop).st.logoutMessages
        = loop.st.logoutMessages := by
  induction keys generalizing loop with
  | nil => exact ⟨hrel, rfl⟩
  | cons key rest ih =>
    have hstep := deviceConnectionClosedIteration_releases ipAddress lm loop key hrel
    have hrest := ih (deviceConnectionClosedIteration ipAddress loop key) hstep.1
    exact ⟨hrest.1, hrest.2.trans hstep.2⟩

theorem deviceConnectionClosedUnbind_messages (accounts : List PurpleAccount)
    (st : AdapterState) :
    (deviceConnectionClosedUnbind st accounts).loginMessages = st.loginMessages
    ∧ (deviceConnectionClosedUnbind st accounts).logoutMessages = st.logoutMessages := by
  induction accounts generalizing st with
  | nil => exact ⟨rfl, rfl⟩
  | cons account rest ih =>
    simp only [deviceConnectionClosedUnbind, List.foldl_cons]
    have := ih { st with
      ipAddressesBoundTo :=
        g_hash_table_remove st.ipAddressesBoundTo (getAccountKeyFromPurpleAccount account) }
    simpa [deviceConnectionClosedUnbind] using this

theorem deviceConnectionClosed_releases (st : AdapterState) (message : LSMessage)
    (ipAddress : String) :
    (deviceConnectionClosed st message ipAddress).1.logoutMessages = st.logoutMessages
    ∧ ∃ rs, Releases st.loginMessages (deviceConnectionClosed st message ipAddress).1.loginMessages rs
      ∧ (clientReplies (deviceConnectionClosed st message ipAddress).2
            = rs ++ [(message, Payload.text "\x7b\"returnValue\":true\x7d")]
          ∨ clientReplies (deviceConnectionClosed st message ipAddress).2
            = rs ++ [(message, Payload.text "\x7b\"returnValue\":true\x7d"),
                (message, Payload.text "\x7b\"returnValue\":true\x7d")]) := by
  have hloop := deviceConnectionClosed_loop_releases ipAddress st.loginMessages
    (g_hash_table_get_keys st.ipAddressesBoundTo) ⟨st, [], []⟩ Releases.nil
  unfold deviceConnectionClosed
  simp only
  generalize (g_hash_table_get_keys st.ipAddressesBoundTo).foldl
    (deviceConnectionClosedIteration ipAddress) ⟨st, [], []⟩ = loop at hloop ⊢
  obtain ⟨hrel, hlo⟩ := hloop
  split
  · exact ⟨hlo, clientReplies loop.effects, hrel,
      Or.inr (by simp [clientReplies_append, clientReplies])⟩
  · refine ⟨?_, clientReplies loop.effects, ?_,
      Or.inl (by simp [clientReplies_append, clientReplies])⟩
    · rw [(deviceConnectionClosedUnbind_messages _ _).2]
      exact hlo
    · rw [(deviceConnectionClosedUnbind_messages _ _).1]
      exact hrel

theorem deviceConnectionClosed_facts (st : AdapterState) (message : LSMessage)
    (ipAddress : String) (hnodup : (heldRequests st).Nodup)
    (hfresh : message ∉ heldRequests st) :
    StepFacts st.loginMessages st.logoutMessages (some message) none false true
      (deviceConnectionClosed st message ipAddress).1.loginMessages
      (deviceConnectionClosed st message ipAddress).1.logoutMessages
      (clientReplies (deviceConnectionClosed st message ipAddress).2) := by
  obtain ⟨hlo, rs, hrel, hreplies⟩ := deviceConnectionClosed_releases st message ipAddress
  obtain ⟨hsub, hmem, hnd⟩ := releases_facts _ st.logoutMessages _ rs hrel hnodup
  have hsub2 : (tableValues (deviceConnectionClosed st message ipAddress).1.loginMessages
      ++ tableValues (deviceConnectionClosed st message ipAddress).1.logoutMessages).Sublist
      (tableValues st.loginMessages ++ tableValues st.logoutMessages) := by
    rw [hlo]
    exact List.Sublist.append hsub (List.Sublist.refl _)
  have hmemOwn : ∀ m p, (m, p) ∈ clientReplies (deviceConnectionClosed st message ipAddress).2 →
      (m, p) ∈ rs ∨ m = message := by
    intro m p hmp
    rcases hreplies with h | h
    · rw [h] at hmp
      rcases List.mem_append.mp hmp with h1 | h1
      · exact Or.inl h1
      · simp only [List.mem_singleton, Prod.mk.injEq] at h1
        exact Or.inr h1.1
    · rw [h] at hmp
      rcases List.mem_append.mp hmp with h1 | h1
      · exact Or.inl h1
      · simp only [List.mem_cons, Prod.mk.injEq, List.mem_singleton, List.not_mem_nil,
          or_false, or_self] at h1
        exact Or.inr h1.1
  refine ⟨List.Nodup.sublist hsub2 hnodup, fun m hm => Or.inl (hsub2.subset hm), ?_, ?_, ?_,
    fun m hm => Or.inl (hsub.subset hm), by simp⟩
  · intro m p hmp
    rcases hmemOwn m p hmp with h | h
    · exact Or.inl (List.mem_append.mpr (Or.inl (hmem m p h).1))
    · exact Or.inr (by rw [h])
  · intro _ m p hmp
    rcases hmemOwn m p hmp with h | h
    · rw [hlo]
      exact (hmem m p h).2
    · rw [h]
      exact fun hin => hfresh (hsub2.subset hin)
  · intro m hm
    have hne : ¬ message = m := fun h => hm rfl (by rw [h])
    have hcount : (rs.map Prod.fst).count m ≤ 1 := List.nodup_iff_count_le_one.mp hnd m
    rcases hreplies with h | h
    · rw [h]
      simpa [List.count_append, List.count_cons, hne] using hcount
    · rw [h]
      simpa [List.count_append, List.count_cons, hne] using hcount

theorem step_facts (DEVICE : Bool) (st : AdapterState) (event : Event)
    (hnodup : (heldRequests st).Nodup)
    (hfresh : ∀ m, event.request = some m → m ∉ heldRequests st) :
    StepFacts st.loginMessages st.logoutMessages event.request event.loginRequest
      event.isLoggedIn event.isConnectionClosed
      (step DEVICE st event).1.loginMessages (step DEVICE st event).1.logoutMessages
      (clientReplies (step DEVICE st event).2) := by
  cases event with
  | login message params =>
    exact shape_facts _ _ _ _ _ _ _ _ (login_shape DEVICE st message params) hnodup hfresh
      (fun m h => h)
  | logout message serviceName username =>
    exact shape_facts _ _ _ _ _ _ _ _ (logout_shape st message serviceName username) hnodup hfresh
      (fun m h => by simp [Event.loginRequest] at h)
  | account_logged_in account =>
    exact shape_facts _ _ _ _ _ _ _ _ (account_logged_in_shape st account) hnodup hfresh
      (fun m h => by simp [Event.loginRequest] at h)
  | account_signed_off_cb account =>
    exact shape_facts _ _ _ _ _ _ _ _ (account_signed_off_cb_shape st account) hnodup hfresh
      (fun m h => by simp [Event.loginRequest] at h)
  | account_login_failed account type description =>
    exact shape_facts _ _ _ _ _ _ _ _ (account_login_failed_shape st account type description)
      hnodup hfresh (fun m h => by simp [Event.loginRequest] at h)
  | connectTimeoutCallback accountKey =>
    exact shape_facts _ _ _ _ _ _ _ _ (connectTimeoutCallback_shape st accountKey) hnodup hfresh
      (fun m h => by simp [Event.loginRequest] at h)
  | deviceConnectionClosed message ipAddress =>
    exact deviceConnectionClosed_facts st message ipAddress hnodup
      (hfresh message rfl)

theorem shape_slot (lm lo lm2 lo2 : Table LSMessage) (own ownLogin : Option LSMessage)
    (replies : List (LSMessage × Payload))
    (hshape : Shape lm lo own ownLogin false lm2 lo2 replies) (m : LSMessage) (p : Payload)
    (hreply : (m, p) ∈ replies) :
    own = some m
    ∨ ∃ key, (g_hash_table_lookup lm key = some m ∧ g_hash_table_lookup lm2 key = none)
        ∨ (g_hash_table_lookup lo key = some m ∧ g_hash_table_lookup lo2 key = none) := by
  cases hshape with
  | keep => simp at hreply
  | replyOwn m2 p2 hl h =>
    simp only [List.mem_singleton, Prod.mk.injEq] at hreply
    exact Or.inl (hreply.1 ▸ h)
  | holdLogin k m2 h => simp at hreply
  | holdLoginAgain k m2 h => simp at hreply
  | holdLogout k m2 h => simp at hreply
  | notify k x p2 hl h => simp at hl
  | releaseLogin k x p2 hl h =>
    simp only [List.mem_singleton, Prod.mk.injEq] at hreply
    exact Or.inr ⟨k, Or.inl ⟨hreply.1 ▸ h, lookup_remove_self lm k⟩⟩
  | releaseLogout k x p2 hl h =>
    simp only [List.mem_singleton, Prod.mk.injEq] at hreply
    exact Or.inr ⟨k, Or.inr ⟨hreply.1 ▸ h, lookup_remove_self lo k⟩⟩

theorem releases_slot (lm lm1 : Table LSMessage) (rs : List (LSMessage × Payload))
    (hrel : Releases lm lm1 rs) :
    (∀ key, g_hash_table_lookup lm1 key = g_hash_table_lookup lm key
      ∨ g_hash_table_lookup lm1 key = none)
    ∧ ∀ x p, (x, p) ∈ rs →
        ∃ key, g_hash_table_lookup lm key = some x ∧ g_hash_table_lookup lm1 key = none := by
  induction hrel with
  | nil => exact ⟨fun key => Or.inl rfl, by simp⟩
  | snoc lm1 rs k x p hprev h ih =>
    obtain ⟨hsame, hslots⟩ := ih
    refine ⟨?_, ?_⟩
    · intro key
      rw [lookup_remove]
      by_cases hk : key = k
      · simp [hk]
      · simpa [hk] using hsame key
    · intro y q hy
      rcases List.mem_append.mp hy with hy1 | hy1
      · obtain ⟨key, h1, h2⟩ := hslots y q hy1
        refine ⟨key, h1, ?_⟩
        rw [lookup_remove]
        by_cases hk : key = k
        · simp [hk]
        · simpa [hk] using h2
      · simp only [List.mem_singleton, Prod.mk.injEq] at hy1
        refine ⟨k, ?_, lookup_remove_self lm1 k⟩
        rcases hsame k with h1 | h1
        · rw [← h1, h, hy1.1]
        · rw [h1] at h
          cases h

theorem step_slot (DEVICE : Bool) (st : AdapterState) (event : Event)
    (hevent : event.isLoggedIn = false) (m : LSMessage) (p : Payload)
    (hreply : (m, p) ∈ clientReplies (step DEVICE st event).2) :
    event.request = some m
    ∨ ∃ key,
        (g_hash_table_lookup st.loginMessages key = some m
          ∧ g_hash_table_lookup (step DEVICE st event).1.loginMessages key = none)
        ∨ (g_hash_table_lookup st.logoutMessages key = some m
          ∧ g_hash_table_lookup (step DEVICE st event).1.logoutMessages key = none) := by
  cases event with
  | login message params =>
    exact shape_slot _ _ _ _ _ _ _ (login_shape DEVICE st message params) m p hreply
  | logout message serviceName username =>
    exact shape_slot _ _ _ _ _ _ _ (logout_shape st message serviceName username) m p hreply
  | account_logged_in account => simp [Event.isLoggedIn] at hevent
  | account_signed_off_cb account =>
    exact shape_slot _ _ _ _ _ _ _ (account_signed_off_cb_shape st account) m p hreply
  | account_login_failed account type description =>
    exact shape_slot _ _ _ _ _ _ _ (account_login_failed_shape st account type description)
      m p hreply
  | connectTimeoutCallback accountKey =>
    exact shape_slot _ _ _ _ _ _ _ (connectTimeoutCallback_shape st accountKey) m p hreply
  | deviceConnectionClosed message ipAddress =>
    obtain ⟨_, rs, hrel, hreplies⟩ := deviceConnectionClosed_releases st message ipAddress
    have hslots := (releases_slot _ _ rs hrel).2
    simp only [step] at hreply ⊢
    have hcases : (m, p) ∈ rs ∨ m = message := by
      rcases hreplies with h | h
      · rw [h] at hreply
        rcases List.mem_append.mp hreply with h1 | h1
        · exact Or.inl h1
        · simp only [List.mem_singleton, Prod.mk.injEq] at h1
          exact Or.inr h1.1
      · rw [h] at hreply
        rcases List.mem_append.mp hreply with h1 | h1
        · exact Or.inl h1
        · simp only [List.mem_cons, Prod.mk.injEq, List.mem_singleton, List.not_mem_nil,
            or_false, or_self] at h1
          exact Or.inr h1.1
    rcases hcases with h | h
    · obtain ⟨key, h1, h2⟩ := hslots m p h
      exact Or.inr ⟨key, Or.inl ⟨h1, h2⟩⟩
    · exact Or.inl (by rw [h]; rfl)

/-! ## Facts about sequences of handler invocations -/

theorem requests_cons (event : Event) (rest : List Event) :
    requests (event :: rest)
      = match event.request with
        | some m => m :: requests rest
        | none => requests rest := by
  cases h : event.request <;> simp [requests, List.filterMap_cons, h]

theorem loginRequests_subset (events : List Event) (m : LSMessage)
    (h : m ∈ loginRequests events) : m ∈ requests events := by
  induction events with
  | nil => simp [loginRequests] at h
  | cons event rest ih =>
    cases event <;> simp_all [loginRequests, requests_cons, Event.request]
    tauto

theorem logoutRequests_subset (events : List Event) (m : LSMessage)
    (h : m ∈ logoutRequests events) : m ∈ requests events := by
  induction events with
  | nil => simp [logoutRequests] at h
  | cons event rest ih =>
    cases event <;> simp_all [logoutRequests, requests_cons, Event.request]
    tauto

theorem closedRequests_subset (events : List Event) (m : LSMessage)
    (h : m ∈ closedRequests events) : m ∈ requests events := by
  induction events with
  | nil => simp [closedRequests] at h
  | cons event rest ih =>
    cases event <;> simp_all [closedRequests, requests_cons, Event.request]
    tauto

theorem count_replies (message : LSMessage) (effects : List Effect) :
    (effects.filter (Effect.repliesTo message)).length
      = ((clientReplies effects).map Prod.fst).count message := by
  induction effects with
  | nil => simp [clientReplies]
  | cons effect rest ih =>
    cases effect with
    | LSMessageReply target payload =>
      cases target with
      | none => simpa [List.filter_cons, Effect.repliesTo, clientReplies] using ih
      | some m =>
        by_cases hm : m = message
        · simp [List.filter_cons, Effect.repliesTo, clientReplies, hm, ih]
        · simp [List.filter_cons, Effect.repliesTo, clientReplies, hm, ih, List.count_cons]
    | _ => simpa [List.filter_cons, Effect.repliesTo, clientReplies] using ih

theorem replyCount_tag (message : LSMessage) (event : Event) (effects : List Effect) :
    replyCount message (effects.map (fun effect => (event, effect)))
      = ((clientReplies effects).map Prod.fst).count message := by
  rw [← count_replies]
  simp only [replyCount, List.filter_map, List.length_map]
  rfl

theorem finalReplyCount_tag (message : LSMessage) (event : Event) (effects : List Effect) :
    finalReplyCount message (effects.map (fun effect => (event, effect)))
      = if event.isLoggedIn then 0 else ((clientReplies effects).map Prod.fst).count message := by
  rw [← count_replies]
  cases h : event.isLoggedIn
  · simp only [finalReplyCount, List.filter_map, List.length_map, Function.comp_def, h,
      Bool.not_false, Bool.true_and, Bool.false_eq_true, if_false]
  · simp [finalReplyCount, List.filter_map, Function.comp_def, h]

theorem replyCount_cons (DEVICE : Bool) (st : AdapterState) (event : Event) (rest : List Event)
    (message : LSMessage) :
    replyCount message (runLog DEVICE st (event :: rest))
      = ((clientReplies (step DEVICE st event).2).map Prod.fst).count message
        + replyCount message (runLog DEVICE (step DEVICE st event).1 rest) := by
  rw [← replyCount_tag message event]
  simp [runLog, replyCount, List.filter_append]

theorem finalReplyCount_cons (DEVICE : Bool) (st : AdapterState) (event : Event)
    (rest : List Event) (message : LSMessage) :
    finalReplyCount message (runLog DEVICE st (event :: rest))
      = (if event.isLoggedIn then 0
          else ((clientReplies (step DEVICE st event).2).map Prod.fst).count message)
        + finalReplyCount message (runLog DEVICE (step DEVICE st event).1 rest) := by
  rw [← finalReplyCount_tag message event]
  simp [runLog, finalReplyCount, List.filter_append]

theorem count_pos_mem (message : LSMessage) (replies : List (LSMessage × Payload))
    (h : (replies.map Prod.fst).count message ≠ 0) : ∃ p, (message, p) ∈ replies := by
  have hmem : message ∈ replies.map Prod.fst := List.count_pos_iff.mp (Nat.pos_of_ne_zero h)
  obtain ⟨⟨m, p⟩, hin, hfst⟩ := List.mem_map.mp hmem
  simp only at hfst
  exact ⟨p, hfst ▸ hin⟩

theorem fresh_of_cons (st : AdapterState) (event : Event) (rest : List Event)
    (hdisj : ∀ x, x ∈ heldRequests st → x ∉ requests (event :: rest)) :
    ∀ m, event.request = some m → m ∉ heldRequests st := by
  intro m hm hheld
  apply hdisj m hheld
  rw [requests_cons, hm]
  exact List.mem_cons_self _ _

theorem requests_nodup_tail (event : Event) (rest : List Event)
    (hreq : (requests (event :: rest)).Nodup) : (requests rest).Nodup := by
  rw [requests_cons] at hreq
  cases h : event.request with
  | none => simpa [h] using hreq
  | some m =>
    simp only [h, List.nodup_cons] at hreq
    exact hreq.2

theorem not_mem_requests_tail (event : Event) (rest : List Event) (m : LSMessage)
    (h : m ∉ requests (event :: rest)) : m ∉ requests rest := by
  intro hin
  apply h
  rw [requests_cons]
  cases event.request with
  | none => exact hin
  | some x => exact List.mem_cons_of_mem _ hin

theorem own_not_mem_requests_tail (event : Event) (rest : List Event) (m : LSMessage)
    (hreq : (requests (event :: rest)).Nodup) (hown : event.request = some m) :
    m ∉ requests rest := by
  rw [requests_cons, hown] at hreq
  exact (List.nodup_cons.mp hreq).1

theorem disjoint_after_step (DEVICE : Bool) (st : AdapterState) (event : Event)
    (rest : List Event) (hnodup : (heldRequests st).Nodup)
    (hreq : (requests (event :: rest)).Nodup)
    (hdisj : ∀ x, x ∈ heldRequests st → x ∉ requests (event :: rest)) :
    ∀ x, x ∈ heldRequests (step DEVICE st event).1 → x ∉ requests rest := by
  intro x hx
  have facts := step_facts DEVICE st event hnodup (fresh_of_cons st event rest hdisj)
  rcases facts.held x hx with h | h
  · exact not_mem_requests_tail event rest x (hdisj x h)
  · exact own_not_mem_requests_tail event rest x hreq h

theorem no_reply_when_absent (DEVICE : Bool) (events : List Event) (st : AdapterState)
    (message : LSMessage) (hnodup : (heldRequests st).Nodup)
    (hreq : (requests events).Nodup)
    (hdisj : ∀ x, x ∈ heldRequests st → x ∉ requests events)
    (hheld : message ∉ heldRequests st) (hfuture : message ∉ requests events) :
    replyCount message (runLog DEVICE st events) = 0 := by
  induction events generalizing st with
  | nil => rfl
  | cons event rest ih =>
    have facts := step_facts DEVICE st event hnodup (fresh_of_cons st event rest hdisj)
    have hown : event.request ≠ some message := by
      intro h
      apply hfuture
      rw [requests_cons, h]
      exact List.mem_cons_self _ _
    have hzero : ((clientReplies (step DEVICE st event).2).map Prod.fst).count message = 0 := by
      by_contra hne
      obtain ⟨p, hp⟩ := count_pos_mem message _ hne
      rcases facts.target message p hp with h | h
      · exact hheld h
      · exact hown h
    have hheld2 : message ∉ heldRequests (step DEVICE st event).1 := by
      intro hin
      rcases facts.held message hin with h | h
      · exact hheld h
      · exact hown h
    rw [replyCount_cons, hzero, Nat.zero_add]
    exact ih (step DEVICE st event).1 facts.nodup (requests_nodup_tail event rest hreq)
      (disjoint_after_step DEVICE st event rest hnodup hreq hdisj) hheld2
      (not_mem_requests_tail event rest message hfuture)

theorem finalReplyCount_le_replyCount (message : LSMessage) (log : List (Event × Effect)) :
    finalReplyCount message log ≤ replyCount message log := by
  induction log with
  | nil => simp [finalReplyCount, replyCount]
  | cons entry rest ih =>
    simp only [finalReplyCount, replyCount] at ih ⊢
    cases h1 : entry.1.isLoggedIn <;> cases h2 : entry.2.repliesTo message <;>
      simp [List.filter_cons, h1, h2] <;> omega

theorem finalReplyCount_le_one (DEVICE : Bool) (events : List Event) (st : AdapterState)
    (message : LSMessage) (hnodup : (heldRequests st).Nodup)
    (hreq : (requests events).Nodup)
    (hdisj : ∀ x, x ∈ heldRequests st → x ∉ requests events)
    (hclosed : message ∉ closedRequests events) :
    finalReplyCount message (runLog DEVICE st events) ≤ 1 := by
  induction events generalizing st with
  | nil => simp [runLog, finalReplyCount]
  | cons event rest ih =>
    have facts := step_facts DEVICE st event hnodup (fresh_of_cons st event rest hdisj)
    have hclosedRest : message ∉ closedRequests rest := by
      intro hin
      apply hclosed
      cases event <;> simp [closedRequests, hin]
    have hrest := ih (step DEVICE st event).1 facts.nodup (requests_nodup_tail event rest hreq)
      (disjoint_after_step DEVICE st event rest hnodup hreq hdisj) hclosedRest
    rw [finalReplyCount_cons]
    by_cases hl : event.isLoggedIn = true
    · simpa [hl] using hrest
    · simp only [hl, Bool.false_eq_true, if_false]
      by_cases hzero : ((clientReplies (step DEVICE st event).2).map Prod.fst).count message = 0
      · rw [hzero, Nat.zero_add]
        exact hrest
      · obtain ⟨p, hp⟩ := count_pos_mem message _ hzero
        have hnotOwn : event.isConnectionClosed = true → event.request ≠ some message := by
          intro hc hown
          apply hclosed
          cases event <;> simp_all [closedRequests, Event.isConnectionClosed, Event.request]
        have hone := facts.once message hnotOwn
        have hreleased := facts.released (by simpa using hl) message p hp
        have hfuture : message ∉ requests rest := by
          rcases facts.target message p hp with h | h
          · exact not_mem_requests_tail event rest message (hdisj message h)
          · exact own_not_mem_requests_tail event rest message hreq h
        have hnone := no_reply_when_absent DEVICE rest (step DEVICE st event).1 message
          facts.nodup (requests_nodup_tail event rest hreq)
          (disjoint_after_step DEVICE st event rest hnodup hreq hdisj) hreleased hfuture
        have hle := finalReplyCount_le_replyCount message
          (runLog DEVICE (step DEVICE st event).1 rest)
        omega

theorem replyCount_eq_final (DEVICE : Bool) (events : List Event) (st : AdapterState)
    (message : LSMessage) (hnodup : (heldRequests st).Nodup)
    (hreq : (requests events).Nodup)
    (hdisj : ∀ x, x ∈ heldRequests st → x ∉ requests events)
    (hlm : message ∉ tableValues st.loginMessages)
    (hlogin : message ∉ loginRequests events) :
    replyCount message (runLog DEVICE st events)
      = finalReplyCount message (runLog DEVICE st events) := by
  induction events generalizing st with
  | nil => rfl
  | cons event rest ih =>
    have facts := step_facts DEVICE st event hnodup (fresh_of_cons st event rest hdisj)
    have hloginRest : message ∉ loginRequests rest := by
      intro hin
      apply hlogin
      cases event <;> simp [loginRequests, hin]
    have hlm2 : message ∉ tableValues (step DEVICE st event).1.loginMessages := by
      intro hin
      rcases facts.heldLogin message hin with h | h
      · exact hlm h
      · apply hlogin
        cases event <;> simp_all [loginRequests, Event.loginRequest]
    have hrest := ih (step DEVICE st event).1 facts.nodup (requests_nodup_tail event rest hreq)
      (disjoint_after_step DEVICE st event rest hnodup hreq hdisj) hlm2 hloginRest
    rw [replyCount_cons, finalReplyCount_cons, hrest]
    by_cases hl : event.isLoggedIn = true
    · have hzero : ((clientReplies (step DEVICE st event).2).map Prod.fst).count message = 0 := by
        by_contra hne
        obtain ⟨p, hp⟩ := count_pos_mem message _ hne
        exact hlm (facts.notified hl message p hp)
      simp [hl, hzero]
    · simp [hl]

theorem no_reply_after_final (DEVICE : Bool) (pre : List Event) (event : Event)
    (post : List Event) (st : AdapterState) (message : LSMessage) (payload : Payload)
    (hnodup : (heldRequests st).Nodup)
    (hreq : (requests (pre ++ event :: post)).Nodup)
    (hdisj : ∀ x, x ∈ heldRequests st → x ∉ requests (pre ++ event :: post))
    (hevent : event.isLoggedIn = false)
    (hreply : (message, payload)
      ∈ clientReplies (step DEVICE (runState DEVICE st pre) event).2) :
    replyCount message (runLog DEVICE (step DEVICE (runState DEVICE st pre) event).1 post)
      = 0 := by
  induction pre generalizing st with
  | nil =>
    simp only [runState, List.nil_append] at hreply hreq hdisj ⊢
    have facts := step_facts DEVICE st event hnodup (fresh_of_cons st event post hdisj)
    have hfuture : message ∉ requests post := by
      rcases facts.target message payload hreply with h | h
      · exact not_mem_requests_tail event post message (hdisj message h)
      · exact own_not_mem_requests_tail event post message hreq h
    exact no_reply_when_absent DEVICE post (step DEVICE st event).1 message facts.nodup
      (requests_nodup_tail event post hreq)
      (disjoint_after_step DEVICE st event post hnodup hreq hdisj)
      (facts.released hevent message payload hreply) hfuture
  | cons first rest ih =>
    simp only [runState, List.cons_append] at hreply hreq hdisj ⊢
    have facts := step_facts DEVICE st first hnodup
      (fresh_of_cons st first (rest ++ event :: post) hdisj)
    exact ih (step DEVICE st first).1 facts.nodup
      (requests_nodup_tail first (rest ++ event :: post) hreq)
      (disjoint_after_step DEVICE st first (rest ++ event :: post) hnodup hreq hdisj) hreply

theorem login_not_closed (events : List Event) (message : LSMessage)
    (hreq : (requests events).Nodup) (h : message ∈ loginRequests events) :
    message ∉ closedRequests events := by
  induction events with
  | nil => simp [loginRequests] at h
  | cons event rest ih =>
    have htail := requests_nodup_tail event rest hreq
    cases event with
    | login m params =>
      simp only [loginRequests, List.mem_cons] at h
      simp only [closedRequests]
      rcases h with h | h
      · intro hin
        exact own_not_mem_requests_tail _ rest m hreq rfl
          (h ▸ closedRequests_subset rest message hin)
      · exact ih htail h
    | deviceConnectionClosed m ip =>
      simp only [loginRequests] at h
      simp only [closedRequests, List.mem_cons, not_or]
      refine ⟨?_, ih htail h⟩
      intro heq
      exact own_not_mem_requests_tail _ rest m hreq rfl
        (heq ▸ loginRequests_subset rest message h)
    | _ =>
      simp only [loginRequests] at h
      simp only [closedRequests]
      exact ih htail h

theorem logout_not_closed_nor_login (events : List Event) (message : LSMessage)
    (hreq : (requests events).Nodup) (h : message ∈ logoutRequests events) :
    message ∉ closedRequests events ∧ message ∉ loginRequests events := by
  induction events with
  | nil => simp [logoutRequests] at h
  | cons event rest ih =>
    have htail := requests_nodup_tail event rest hreq
    cases event with
    | logout m serviceName username =>
      simp only [logoutRequests, List.mem_cons] at h
      simp only [closedRequests, loginRequests]
      rcases h with h | h
      · refine ⟨?_, ?_⟩
        · intro hin
          exact own_not_mem_requests_tail _ rest m hreq rfl
            (h ▸ closedRequests_subset rest message hin)
        · intro hin
          exact own_not_mem_requests_tail _ rest m hreq rfl
            (h ▸ loginRequests_subset rest message hin)
      · exact ih htail h
    | login m params =>
      simp only [logoutRequests] at h
      simp only [closedRequests, loginRequests, List.mem_cons, not_or]
      refine ⟨(ih htail h).1, ?_, (ih htail h).2⟩
      intro heq
      exact own_not_mem_requests_tail _ rest m hreq rfl
        (heq ▸ logoutRequests_subset rest message h)
    | deviceConnectionClosed m ip =>
      simp only [logoutRequests] at h
      simp only [closedRequests, loginRequests, List.mem_cons, not_or]
      refine ⟨⟨?_, (ih htail h).1⟩, (ih htail h).2⟩
      intro heq
      exact own_not_mem_requests_tail _ rest m hreq rfl
        (heq ▸ logoutRequests_subset rest message h)
    | _ =>
      simp only [logoutRequests] at h
      simp only [closedRequests, loginRequests]
      exact ih htail h

/-! ## C1: pending accounts and login timers -/

/-- C1 at the sequence `login`, `logout`, `account_signed_off_cb`: the
signed-off notification for the pending account takes its key out of
`pendingAccountData` and leaves its entry in `accountLoginTimers`; the handler
does not cancel the timer either, its only call is the reply to the logout
request. -/
theorem C1_timer_entry_outlives_pending :
    g_hash_table_lookup
        (runState false initialState
          [Event.login 7 scenarioLoginFull, Event.logout 8 "aol" "user1@aol.com",
            Event.account_signed_off_cb scenarioAccount]).pendingAccountData
        "user1@aol.com_aol" = none
    ∧ g_hash_table_lookup
        (runState false initialState
          [Event.login 7 scenarioLoginFull, Event.logout 8 "aol" "user1@aol.com",
            Event.account_signed_off_cb scenarioAccount]).accountLoginTimers
        "user1@aol.com_aol" = some 1
    ∧ (account_signed_off_cb
        (runState false initialState
          [Event.login 7 scenarioLoginFull, Event.logout 8 "aol" "user1@aol.com"])
        scenarioAccount).2
      = [Effect.LSMessageReply (some 8) (Payload.text
          "\x7b\"serviceName\":\"aol\",  \"username\":\"user1@aol.com\", \"returnValue\":true\x7d")] := by
  decide

/-! ## C2: how often a request is answered -/

/-- C2, as stated, fails: the login request 7 is answered by
`account_logged_in` and again by the following `account_login_failed`. -/
theorem C2_counterexample :
    (requests
        [Event.login 7 scenarioLoginFull, Event.account_logged_in scenarioAccount,
          Event.account_login_failed scenarioAccount
            PurpleConnectionError.PURPLE_CONNECTION_ERROR_NETWORK_ERROR "x"]).Nodup
    ∧ clientReplies (runEffects false initialState
        [Event.login 7 scenarioLoginFull, Event.account_logged_in scenarioAccount,
          Event.account_login_failed scenarioAccount
            PurpleConnectionError.PURPLE_CONNECTION_ERROR_NETWORK_ERROR "x"])
      = [(7, Payload.text
            "\x7b\"serviceName\":\"aol\",  \"username\":\"user1@aol.com\", \"returnValue\":true\x7d"),
          (7, Payload.text
            "\x7b\"serviceName\":\"aol\",  \"username\":\"user1@aol.com\", \"returnValue\":false, \"errorCode\":\"AcctMgr_Network_Error\",  \"localIpAddress\":\"10.0.0.1\", \"errorText\":\"x\", \"connectionStatus\":\"loggedOut\", \"connectionType\":\"\"\x7d")]
    ∧ replyCount 7 (runLog false initialState
        [Event.login 7 scenarioLoginFull, Event.account_logged_in scenarioAccount,
          Event.account_login_failed scenarioAccount
            PurpleConnectionError.PURPLE_CONNECTION_ERROR_NETWORK_ERROR "x"]) = 2 := by
  decide

/-- C2, amended: in every sequence of handler invocations from the initial
state whose request handles are pairwise distinct, a login request receives at
most one reply from handlers other than `account_logged_in`, a logout request
receives at most one reply in all, and a request that a handler other than
`account_logged_in` has replied to receives no reply from any later handler
invocation. -/
theorem C2_reply_upper_bound (DEVICE : Bool) (events : List Event) (message : LSMessage)
    (hreq : (requests events).Nodup) :
    (message ∈ loginRequests events →
      finalReplyCount message (runLog DEVICE initialState events) ≤ 1)
    ∧ (message ∈ logoutRequests events →
      replyCount message (runLog DEVICE initialState events) ≤ 1)
    ∧ (∀ (pre : List Event) (event : Event) (post : List Event) (payload : Payload),
        events = pre ++ event :: post → event.isLoggedIn = false →
        (message, payload)
          ∈ clientReplies (step DEVICE (runState DEVICE initialState pre) event).2 →
        replyCount message
          (runLog DEVICE (step DEVICE (runState DEVICE initialState pre) event).1 post) = 0) := by
  have hnodup : (heldRequests initialState).Nodup := by decide
  have hdisj : ∀ x, x ∈ heldRequests initialState → x ∉ requests events := by
    intro x hx
    simp [heldRequests, initialState, tableValues] at hx
  refine ⟨?_, ?_, ?_⟩
  · intro hlogin
    exact finalReplyCount_le_one DEVICE events initialState message hnodup hreq hdisj
      (login_not_closed events message hreq hlogin)
  · intro hlogout
    obtain ⟨hclosed, hlogin⟩ := logout_not_closed_nor_login events message hreq hlogout
    rw [replyCount_eq_final DEVICE events initialState message hnodup hreq hdisj
      (by simp [initialState, tableValues]) hlogin]
    exact finalReplyCount_le_one DEVICE events initialState message hnodup hreq hdisj hclosed
  · intro pre event post payload hsplit hevent hreply
    subst hsplit
    exact no_reply_after_final DEVICE pre event post initialState message payload hnodup hreq
      hdisj hevent hreply

/-- C2, amended, at a login that is answered by `account_logged_in` and then
by `account_login_failed`, and at a logout answered by `account_signed_off_cb`. -/
theorem C2_reply_upper_bound_witness :
    finalReplyCount 7 (runLog false initialState
        [Event.login 7 scenarioLoginFull, Event.account_logged_in scenarioAccount,
          Event.logout 8 "aol" "user1@aol.com", Event.account_signed_off_cb scenarioAccount,
          Event.account_login_failed scenarioAccount
            PurpleConnectionError.PURPLE_CONNECTION_ERROR_NETWORK_ERROR "x"]) ≤ 1
    ∧ replyCount 8 (runLog false initialState
        [Event.login 7 scenarioLoginFull, Event.account_logged_in scenarioAccount,
          Event.logout 8 "aol" "user1@aol.com", Event.account_signed_off_cb scenarioAccount,
          Event.account_login_failed scenarioAccount
            PurpleConnectionError.PURPLE_CONNECTION_ERROR_NETWORK_ERROR "x"]) ≤ 1 :=
  ⟨(C2_reply_upper_bound false _ 7 (by decide)).1 (by decide),
    (C2_reply_upper_bound false _ 8 (by decide)).2.1 (by decide)⟩

/-! ## C3: correlation entries after a reply -/

/-- C3, as stated, fails for `account_logged_in`: it answers the login request
held for the key and the entry is still there afterwards. -/
theorem C3_counterexample :
    g_hash_table_lookup (login false initialState 7 scenarioLoginFull).1.loginMessages
        "user1@aol.com_aol" = some 7
    ∧ clientReplies
        (account_logged_in (login false initialState 7 scenarioLoginFull).1 scenarioAccount).2
      = [(7, Payload.text
          "\x7b\"serviceName\":\"aol\",  \"username\":\"user1@aol.com\", \"returnValue\":true\x7d")]
    ∧ g_hash_table_lookup
        (account_logged_in (login false initialState 7 scenarioLoginFull).1
          scenarioAccount).1.loginMessages
        "user1@aol.com_aol" = some 7 := by
  decide

/-- C3, amended: when a handler other than `account_logged_in` (so
`account_login_failed`, `account_signed_off_cb`, `connectTimeoutCallback` or
`deviceConnectionClosed`) sends a reply to a request held in `loginMessages` or
`logoutMessages`, then after the handler the slot that held it is empty; the
only other replies are those to the handler's own request.  When moreover the
held request handles of the state are pairwise distinct and the handler's own
request is not among them, no slot at all holds the answered request
afterwards. -/
theorem C3_answered_request_released (DEVICE : Bool) (st : AdapterState) (event : Event)
    (message : LSMessage) (payload : Payload)
    (hevent : event.isLoggedIn = false)
    (hreply : (message, payload) ∈ clientReplies (step DEVICE st event).2) :
    (event.request = some message
      ∨ ∃ key,
          (g_hash_table_lookup st.loginMessages key = some message
            ∧ g_hash_table_lookup (step DEVICE st event).1.loginMessages key = none)
          ∨ (g_hash_table_lookup st.logoutMessages key = some message
            ∧ g_hash_table_lookup (step DEVICE st event).1.logoutMessages key = none))
    ∧ ((heldRequests st).Nodup → (∀ m, event.request = some m → m ∉ heldRequests st) →
        ∀ key,
          g_hash_table_lookup (step DEVICE st event).1.loginMessages key ≠ some message
          ∧ g_hash_table_lookup (step DEVICE st event).1.logoutMessages key ≠ some message) := by
  refine ⟨step_slot DEVICE st event hevent message payload hreply, ?_⟩
  intro hnodup hfresh key
  have facts := step_facts DEVICE st event hnodup hfresh
  have hout := facts.released hevent message payload hreply
  simp only [List.mem_append, not_or] at hout
  exact ⟨fun h => hout.1 (lookup_mem_values _ key message h),
    fun h => hout.2 (lookup_mem_values _ key message h)⟩

/-- C3, amended, at `account_login_failed` for a pending login. -/
theorem C3_answered_request_released_witness :
    (7, Payload.text (loginFailedResponse scenarioAccount
        PurpleConnectionError.PURPLE_CONNECTION_ERROR_NETWORK_ERROR "x" "10.0.0.1" "" false))
      ∈ clientReplies (step false (login false initialState 7 scenarioLoginFull).1
          (Event.account_login_failed scenarioAccount
            PurpleConnectionError.PURPLE_CONNECTION_ERROR_NETWORK_ERROR "x")).2
    ∧ g_hash_table_lookup (step false (login false initialState 7 scenarioLoginFull).1
          (Event.account_login_failed scenarioAccount
            PurpleConnectionError.PURPLE_CONNECTION_ERROR_NETWORK_ERROR "x")).1.loginMessages
        "user1@aol.com_aol" ≠ some 7 :=
  ⟨by decide,
    ((C3_answered_request_released false (login false initialState 7 scenarioLoginFull).1
      (Event.account_login_failed scenarioAccount
        PurpleConnectionError.PURPLE_CONNECTION_ERROR_NETWORK_ERROR "x")
      7 (Payload.text (loginFailedResponse scenarioAccount
        PurpleConnectionError.PURPLE_CONNECTION_ERROR_NETWORK_ERROR "x" "10.0.0.1" "" false))
      rfl (by decide)).2 (by decide) (fun m h => by simp [Event.request] at h)
      "user1@aol.com_aol").1⟩

/-! ## C4: a second login while the first is pending -/

/-- C4, as stated, fails: two logins for the same identity from "10.0.0.1" and
then `account_logged_in` give one provider login call and one reply in all, to
the second request; the displaced request 7 receives no reply. -/
theorem C4_counterexample :
    providerLogins (runEffects false initialState
        [Event.login 7 scenarioLoginFull, Event.login 8 scenarioLoginFull,
          Event.account_logged_in scenarioAccount]) = [scenarioAccount]
    ∧ clientReplies (runEffects false initialState
        [Event.login 7 scenarioLoginFull, Event.login 8 scenarioLoginFull,
          Event.account_logged_in scenarioAccount])
      = [(8, Payload.text
          "\x7b\"serviceName\":\"aol\",  \"username\":\"user1@aol.com\", \"returnValue\":true\x7d")] := by
  decide

/-- C4, amended: in a state in which the account is neither online nor
pending, two logins with the same identity and the same non-empty local
address (user name and first password non-empty, the key of the provider
account that `login` uses being the key of the identity), followed by one
provider completion for that account, yield exactly one provider login call
and exactly one reply, the final one, addressed to the second request; the
displaced first request receives no reply.  The completion is either
`account_logged_in` or `account_login_failed`. -/
theorem C4_relogin_while_pending (DEVICE : Bool) (st : AdapterState) (m1 m2 : LSMessage)
    (p1 p2 : LoginParams) (localIpAddress : String) (type : PurpleConnectionError)
    (description : String)
    (hs : p2.serviceName = p1.serviceName) (hu : p2.username = p1.username)
    (hip1 : p1.localIpAddress = some localIpAddress)
    (hip2 : p2.localIpAddress = some localIpAddress) (hipne : localIpAddress ≠ "")
    (hune : p1.username ≠ "") (hpne : p1.password ≠ "")
    (honline : g_hash_table_lookup st.onlineAccountData
      (getAccountKey p1.username p1.serviceName) = none)
    (hpending : g_hash_table_lookup st.pendingAccountData
      (getAccountKey p1.username p1.serviceName) = none)
    (hkey : getAccountKeyFromPurpleAccount (loginProviderAccount st p1)
      = getAccountKey p1.username p1.serviceName) :
    providerLogins (runEffects DEVICE st
        [Event.login m1 p1, Event.login m2 p2,
          Event.account_logged_in (loginProviderAccount st p1)])
      = [loginProviderAccount st p1]
    ∧ clientReplies (runEffects DEVICE st
        [Event.login m1 p1, Event.login m2 p2,
          Event.account_logged_in (loginProviderAccount st p1)])
      = [(m2, Payload.text (successResponse (loginProviderAccount st p1)))]
    ∧ providerLogins (runEffects DEVICE st
        [Event.login m1 p1, Event.login m2 p2,
          Event.account_login_failed (loginProviderAccount st p1) type description])
      = [loginProviderAccount st p1]
    ∧ clientReplies (runEffects DEVICE st
        [Event.login m1 p1, Event.login m2 p2,
          Event.account_login_failed (loginProviderAccount st p1) type description])
      = [(m2, Payload.text (loginFailedResponse (loginProviderAccount st p1) type description
          localIpAddress
          (if p1.connectionType.getD "" = "" then
            (g_hash_table_lookup st.connectionTypeData
              (getAccountKey p1.username p1.serviceName)).getD ""
           else p1.connectionType.getD "") false))] := by
  have hor : ¬ (p1.username = "" ∨ p1.password = "") := by
    rintro (h | h)
    · exact hune h
    · exact hpne h
  have hfirst : loginProviderAccount { st with libpurpleInitialized := true } p1
      = loginProviderAccount st p1 := rfl
  have hct : (g_hash_table_lookup
      (if p1.connectionType.getD "" = "" then st.connectionTypeData
        else g_hash_table_insert st.connectionTypeData (getAccountKey p1.username p1.serviceName)
          (p1.connectionType.getD ""))
      (getAccountKey p1.username p1.serviceName)).getD ""
      = (if p1.connectionType.getD "" = "" then
            (g_hash_table_lookup st.connectionTypeData
              (getAccountKey p1.username p1.serviceName)).getD ""
           else p1.connectionType.getD "") := by
    by_cases h : p1.connectionType.getD "" = ""
    · simp [h]
    · simp [h, lookup_insert]
  refine ⟨?_, ?_, ?_, ?_⟩
  · simp [runEffects_cons, runEffects_nil, step, login, loginProcess, hs, hu, honline, hpending,
      hfirst, hip1, hip2, hipne, hor, hkey, lookup_insert, lookup_remove,
      providerLogins_append, providerLogins, account_logged_in_providerLogins,
      apply_ite providerLogins]
  · simp [runEffects_cons, runEffects_nil, step, login, loginProcess, hs, hu, honline, hpending,
      hfirst, hip1, hip2, hipne, hor, hkey, lookup_insert, lookup_remove,
      clientReplies_append, clientReplies, account_logged_in_replies,
      apply_ite clientReplies]
  · simp [runEffects_cons, runEffects_nil, step, login, loginProcess, hs, hu, honline, hpending,
      hfirst, hip1, hip2, hipne, hor, hkey, lookup_insert, lookup_remove,
      providerLogins_append, providerLogins, account_login_failed, account_login_failed_finish,
      apply_ite providerLogins]
  · simp [runEffects_cons, runEffects_nil, step, login, loginProcess, hs, hu, honline, hpending,
      hfirst, hip1, hip2, hipne, hor, hkey, lookup_insert, lookup_remove,
      clientReplies_append, clientReplies, account_login_failed, account_login_failed_finish,
      hct, apply_ite clientReplies]

/-- C4, amended, at two logins for "user1@aol.com" on "aol" from "10.0.0.1"
in the initial state. -/
theorem C4_relogin_while_pending_witness :
    clientReplies (runEffects false initialState
        [Event.login 7 scenarioLoginFull, Event.login 8 scenarioLoginFull,
          Event.account_logged_in (loginProviderAccount initialState scenarioLoginFull)])
      = [(8, Payload.text
          (successResponse (loginProviderAccount initialState scenarioLoginFull)))] :=
  (C4_relogin_while_pending false initialState 7 8 scenarioLoginFull scenarioLoginFull
    "10.0.0.1" PurpleConnectionError.PURPLE_CONNECTION_ERROR_NETWORK_ERROR "x" rfl rfl rfl rfl
    (by decide) (by decide) (by decide) (by decide) (by decide) (by decide)).2.1

/-! ## C5: validation of user name and password -/

/-- C5, as stated, fails.  (1) From the initial state a login with an empty
user name is answered with the generic error code, without `returnValue`, not
with the invalid-parameter reply.  (2) When the account is online on another
local address, a login with an empty password first takes the account out of
`onlineAccountData` and issues a provider disconnect, and only then fails. -/
theorem C5_counterexample :
    (login false initialState 7 ⟨"aol", "", "p", 0, none, none, none⟩).2
        = [Effect.initializeLibpurple,
            Effect.LSMessageReply (some 7) (Payload.json
              [("serviceName", JsonValue.str "aol"), ("username", JsonValue.str "@aol.com"),
                ("errorCode", JsonValue.str "AcctMgr_Generic_Error"),
                ("errorText", JsonValue.str "AcctMgr_Generic_Error")])]
    ∧ (runState false initialState
          [Event.login 7 scenarioLoginFull, Event.account_logged_in scenarioAccount]).onlineAccountData
        = [("user1@aol.com_aol", scenarioAccount)]
    ∧ (login false
          (runState false initialState
            [Event.login 7 scenarioLoginFull, Event.account_logged_in scenarioAccount])
          8 ⟨"aol", "user1@aol.com", "", 0, none, some "10.0.0.2", none⟩)
        = ({ runState false initialState
              [Event.login 7 scenarioLoginFull, Event.account_logged_in scenarioAccount] with
             onlineAccountData := [] },
           [Effect.purple_account_disconnect scenarioAccount,
            Effect.LSMessageReply (some 8) (Payload.json
              [("serviceName", JsonValue.str "aol"),
                ("username", JsonValue.str "user1@aol.com"),
                ("errorCode", JsonValue.str "AcctMgr_Generic_Error"),
                ("errorText", JsonValue.str "AcctMgr_Generic_Error")])]) := by
  decide

/-- C5, amended: when the account is neither online nor pending, a login whose
user name or password is empty changes no table (only `libpurpleInitialized`
is set), makes no provider account call (only the one-time initialisation of
libpurple if it is still due), and sends exactly one reply, synchronously: the
failure reply with error code and text "AcctMgr_Generic_Error". -/
theorem C5_login_validation (DEVICE : Bool) (st : AdapterState) (message : LSMessage)
    (params : LoginParams)
    (hempty : params.username = "" ∨ params.password = "")
    (honline : g_hash_table_lookup st.onlineAccountData
      (getAccountKey params.username params.serviceName) = none)
    (hpending : g_hash_table_lookup st.pendingAccountData
      (getAccountKey params.username params.serviceName) = none) :
    login DEVICE st message params
      = ({ st with libpurpleInitialized := true },
          (if st.libpurpleInitialized then [] else [Effect.initializeLibpurple])
            ++ [Effect.LSMessageReply (some message) (Payload.json
              [("serviceName", JsonValue.str params.serviceName),
                ("username", JsonValue.str
                  (getJavaFriendlyUsername params.username params.serviceName)),
                ("errorCode", JsonValue.str "AcctMgr_Generic_Error"),
                ("errorText", JsonValue.str "AcctMgr_Generic_Error")])]) := by
  simp only [login, honline, hpending, loginProcess, hempty, if_true, loginResponsePayload,
    List.cons_append, List.nil_append]

/-- C5, amended, at a request with an empty password in the initial state. -/
theorem C5_login_validation_witness :
    login false initialState 7 ⟨"aol", "user1@aol.com", "", 0, none, none, none⟩
      = ({ initialState with libpurpleInitialized := true },
          [Effect.initializeLibpurple,
            Effect.LSMessageReply (some 7) (Payload.json
              [("serviceName", JsonValue.str "aol"),
                ("username", JsonValue.str "user1@aol.com"),
                ("errorCode", JsonValue.str "AcctMgr_Generic_Error"),
                ("errorText", JsonValue.str "AcctMgr_Generic_Error")])]) :=
  C5_login_validation false initialState 7 ⟨"aol", "user1@aol.com", "", 0, none, none, none⟩
    (Or.inr rfl) (by decide) (by decide)

/-! ## C6: the key derived from the provider account -/

/-- C6 at user name "user1" on "aol": `login` stores the session under
"user1_aol", the provider callbacks look under "user1@aol.com_aol". -/
theorem C6_account_key_mismatch :
    getAccountKey "user1" "aol" = "user1_aol"
    ∧ getAccountKeyFromPurpleAccount
        ⟨getPrplFriendlyUsername "aol" "user1", getPrplProtocolIdFromServiceName "aol"⟩
      = "user1@aol.com_aol"
    ∧ getAccountKeyFromPurpleAccount
        ⟨getPrplFriendlyUsername "aol" "user1", getPrplProtocolIdFromServiceName "aol"⟩
      ≠ getAccountKey "user1" "aol" := by
  decide

/-! ## C7: the login scenario -/

/-- C7 on its own input: `login` with user name "user1" on "aol" sends no
reply by itself and stores the session and the request 7 under "user1_aol".
The following `account_logged_in` for the provider account that this login
created looks under "user1@aol.com_aol", finds no held request, and addresses
its success reply to no request: request 7 is not answered.  The account is
then both online (under "user1@aol.com_aol") and pending (under "user1_aol"),
and when the login timer fires, `connectTimeoutCallback` disconnects the
account and answers request 7 with "Connection timed out".  With the user
name written "user1@aol.com" the two keys agree and request 7 gets the success
reply. -/
theorem C7_login_scenario_unanswered :
    clientReplies (login false initialState 7 scenarioLogin).2 = []
    ∧ Effect.purple_account_new "user1" "prpl-aim"
        ∈ (login false initialState 7 scenarioLogin).2
    ∧ (login false initialState 7 scenarioLogin).1.pendingAccountData
        = [("user1_aol", scenarioAccount)]
    ∧ (login false initialState 7 scenarioLogin).1.loginMessages = [("user1_aol", 7)]
    ∧ getAccountKeyFromPurpleAccount scenarioAccount = "user1@aol.com_aol"
    ∧ (account_logged_in (login false initialState 7 scenarioLogin).1 scenarioAccount).2
        = [Effect.purple_timeout_remove 0,
            Effect.LSMessageReply none (Payload.text
              "\x7b\"serviceName\":\"aol\",  \"username\":\"user1@aol.com\", \"returnValue\":true\x7d"),
            Effect.purple_signal_connect "buddy-status-changed",
            Effect.purple_signal_connect "buddy-signed-on",
            Effect.purple_signal_connect "buddy-signed-off",
            Effect.purple_signal_connect "buddy-icon-changed",
            Effect.LSCall "luna://com.palm.display/control/status" "\x7b\"subscribe\":true\x7d"]
    ∧ clientReplies (runEffects false initialState
        [Event.login 7 scenarioLogin, Event.account_logged_in scenarioAccount]) = []
    ∧ (runState false initialState
        [Event.login 7 scenarioLogin, Event.account_logged_in scenarioAccount]).onlineAccountData
      = [("user1@aol.com_aol", scenarioAccount)]
    ∧ (runState false initialState
        [Event.login 7 scenarioLogin, Event.account_logged_in scenarioAccount]).pendingAccountData
      = [("user1_aol", scenarioAccount)]
    ∧ (runState false initialState
        [Event.login 7 scenarioLogin, Event.account_logged_in scenarioAccount]).accountLoginTimers
      = [("user1_aol", 1)]
    ∧ (connectTimeoutCallback
        (runState false initialState
          [Event.login 7 scenarioLogin, Event.account_logged_in scenarioAccount])
        "user1_aol").2
      = [Effect.purple_account_disconnect scenarioAccount,
          Effect.LSMessageReply (some 7) (Payload.text
            "\x7b\"serviceName\":\"aol\",  \"username\":\"user1@aol.com\", \"returnValue\":false, \"errorCode\":\"AcctMgr_Network_Error\", \"errorText\":\"Connection timed out\", \"connectionType\":\"\"\x7d")]
    ∧ clientReplies (runEffects false initialState
        [Event.login 7 scenarioLoginFull, Event.account_logged_in scenarioAccount])
      = [(7, Payload.text
          "\x7b\"serviceName\":\"aol\",  \"username\":\"user1@aol.com\", \"returnValue\":true\x7d")] := by
  decide

/-! ## C8: a connect notification for an offline account -/

/-- C8, as stated, fails: after the login timer has fired, the account is in
neither `onlineAccountData` nor `pendingAccountData`, and a later
`account_logged_in` puts it into `onlineAccountData`. -/
theorem C8_counterexample :
    (runState false initialState
        [Event.login 7 scenarioLoginFull,
          Event.connectTimeoutCallback "user1@aol.com_aol"]).onlineAccountData = []
    ∧ (runState false initialState
        [Event.login 7 scenarioLoginFull,
          Event.connectTimeoutCallback "user1@aol.com_aol"]).pendingAccountData = []
    ∧ (runState false initialState
        [Event.login 7 scenarioLoginFull,
          Event.connectTimeoutCallback "user1@aol.com_aol",
          Event.account_logged_in scenarioAccount]).onlineAccountData
        = [("user1@aol.com_aol", scenarioAccount)] := by
  decide

/-- C8, amended: for an account that is not online and for whose key no login
request is held (as after `connectTimeoutCallback` fired for it),
`account_logged_in` sends no reply to any client request, but the account does
become online. -/
theorem C8_connect_when_offline (st : AdapterState) (account : PurpleAccount)
    (honline : g_hash_table_lookup st.onlineAccountData
      (getAccountKeyFromPurpleAccount account) = none)
    (hheld : g_hash_table_lookup st.loginMessages
      (getAccountKeyFromPurpleAccount account) = none) :
    clientReplies (account_logged_in st account).2 = []
    ∧ g_hash_table_lookup (account_logged_in st account).1.onlineAccountData
        (getAccountKeyFromPurpleAccount account) = some account
    ∧ g_hash_table_lookup (account_logged_in st account).1.pendingAccountData
        (getAccountKeyFromPurpleAccount account) = none := by
  unfold account_logged_in
  simp only [honline, hheld, Option.isSome_none, Bool.false_eq_true, if_false]
  cases st.registeredForDisplayEvents <;> cases st.currentDisplayState <;>
    cases st.registeredForPresenceUpdateSignals <;>
    simp [clientReplies, lookup_insert, lookup_remove]

/-- C8, amended, at the state reached by a login whose timer has fired. -/
theorem C8_connect_when_offline_witness :
    clientReplies (account_logged_in
        (runState false initialState
          [Event.login 7 scenarioLoginFull, Event.connectTimeoutCallback "user1@aol.com_aol"])
        scenarioAccount).2 = []
    ∧ g_hash_table_lookup (account_logged_in
        (runState false initialState
          [Event.login 7 scenarioLoginFull, Event.connectTimeoutCallback "user1@aol.com_aol"])
        scenarioAccount).1.onlineAccountData
        (getAccountKeyFromPurpleAccount scenarioAccount) = some scenarioAccount
    ∧ g_hash_table_lookup (account_logged_in
        (runState false initialState
          [Event.login 7 scenarioLoginFull, Event.connectTimeoutCallback "user1@aol.com_aol"])
        scenarioAccount).1.pendingAccountData
        (getAccountKeyFromPurpleAccount scenarioAccount) = none :=
  C8_connect_when_offline _ scenarioAccount (by decide) (by decide)

/-! ## C9: login on another local address -/

/-- C9: a login with non-empty user name, password and local address, for an
account that is online or pending and whose stored bound address is not the
requested one, issues a provider disconnect for the active provider account;
afterwards the key is in `pendingAccountData` and not in `onlineAccountData`,
`accountLoginTimers` holds the handle of a login timer of
`CONNECT_TIMEOUT_SECONDS` armed by this call, `ipAddressesBoundTo` holds the
new address and `loginMessages` holds the new request. -/
theorem C9_interface_change_relogin (DEVICE : Bool) (st : AdapterState) (message : LSMessage)
    (params : LoginParams) (active : PurpleAccount) (localIpAddress : String)
    (hu : params.username ≠ "") (hp : params.password ≠ "")
    (hip : params.localIpAddress = some localIpAddress) (hipne : localIpAddress ≠ "")
    (hactive : g_hash_table_lookup st.onlineAccountData
        (getAccountKey params.username params.serviceName) = some active
      ∨ (g_hash_table_lookup st.onlineAccountData
          (getAccountKey params.username params.serviceName) = none
        ∧ g_hash_table_lookup st.pendingAccountData
          (getAccountKey params.username params.serviceName) = some active))
    (hbound : g_hash_table_lookup st.ipAddressesBoundTo
      (getAccountKey params.username params.serviceName) ≠ some localIpAddress) :
    Effect.purple_account_disconnect active ∈ (login DEVICE st message params).2
    ∧ (g_hash_table_lookup (login DEVICE st message params).1.pendingAccountData
        (getAccountKey params.username params.serviceName)).isSome
    ∧ g_hash_table_lookup (login DEVICE st message params).1.onlineAccountData
        (getAccountKey params.username params.serviceName) = none
    ∧ (∃ timerHandle,
        g_hash_table_lookup (login DEVICE st message params).1.accountLoginTimers
          (getAccountKey params.username params.serviceName) = some timerHandle
        ∧ Effect.purple_timeout_add_seconds CONNECT_TIMEOUT_SECONDS
            TimerCallback.connectTimeoutCallback
            (getAccountKey params.username params.serviceName) timerHandle
          ∈ (login DEVICE st message params).2)
    ∧ g_hash_table_lookup (login DEVICE st message params).1.ipAddressesBoundTo
        (getAccountKey params.username params.serviceName) = some localIpAddress
    ∧ g_hash_table_lookup (login DEVICE st message params).1.loginMessages
        (getAccountKey params.username params.serviceName) = some message := by
  have hproc : login DEVICE st message params
      = loginProcess DEVICE
          (loginForceLogout { st with libpurpleInitialized := true }
            (getAccountKey params.username params.serviceName))
          ((if st.libpurpleInitialized then [] else [Effect.initializeLibpurple])
            ++ [Effect.purple_account_disconnect active]) message params := by
    rcases hactive with h | ⟨h1, h2⟩
    · simp only [login, h, hip, Option.getD_some, hbound, if_false]
    · simp only [login, h1, h2, hip, Option.getD_some, hbound, if_false]
  rw [hproc]
  have hor : ¬ (params.username = "" ∨ params.password = "") := by
    rintro (h | h)
    · exact hu h
    · exact hp h
  simp only [loginProcess, hor, if_false, hip, Option.getD_some, hipne, false_and,
    loginForceLogout]
  refine ⟨?_, ?_, ?_, ⟨st.nextTimerHandle, ?_, ?_⟩, ?_, ?_⟩
  · simp
  · simp [lookup_insert]
  · simp [lookup_remove]
  · simp [lookup_insert]
  · simp
  · simp [lookup_insert]
  · simp [lookup_insert]

/-- C9 at the online scenario account and a login from "10.0.0.2". -/
theorem C9_interface_change_relogin_witness :
    Effect.purple_account_disconnect scenarioAccount
      ∈ (login false
          (runState false initialState
            [Event.login 7 scenarioLoginFull, Event.account_logged_in scenarioAccount])
          8 ⟨"aol", "user1@aol.com", "p", 0, none, some "10.0.0.2", none⟩).2 :=
  (C9_interface_change_relogin false
    (runState false initialState
      [Event.login 7 scenarioLoginFull, Event.account_logged_in scenarioAccount])
    8 ⟨"aol", "user1@aol.com", "p", 0, none, some "10.0.0.2", none⟩ scenarioAccount "10.0.0.2"
    (by decide) (by decide) rfl (by decide) (Or.inl (by decide)) (by decide)).1

/-! ## C10: notifications after a forced relogin -/

/-- C10, as stated, fails: after the login from "10.0.0.2" has force-disconnected
the online session, a later `account_login_failed` for the account finds it
pending again and sends a failure reply to the new login request. -/
theorem C10_counterexample :
    clientReplies (account_login_failed
        (runState false initialState
          [Event.login 7 scenarioLoginFull, Event.account_logged_in scenarioAccount,
            Event.login 8 ⟨"aol", "user1@aol.com", "p", 0, none, some "10.0.0.2", none⟩])
        scenarioAccount PurpleConnectionError.PURPLE_CONNECTION_ERROR_NETWORK_ERROR "x").2
      = [(8, Payload.text
          "\x7b\"serviceName\":\"aol\",  \"username\":\"user1@aol.com\", \"returnValue\":false, \"errorCode\":\"AcctMgr_Network_Error\",  \"localIpAddress\":\"10.0.0.2\", \"errorText\":\"x\", \"connectionType\":\"\"\x7d")] := by
  decide

/-- C10, amended: a login for an account that is online, with a local address
other than the stored one, issues the provider disconnect in a state in which
the account has been taken out of `onlineAccountData` and
`pendingAccountData`; a disconnect notification delivered for the account in
that state sends no reply to any client request (`account_signed_off_cb`
changes nothing at all). -/
theorem C10_old_session_notice_swallowed (DEVICE : Bool) (st : AdapterState)
    (message : LSMessage) (params : LoginParams) (account : PurpleAccount)
    (type : PurpleConnectionError) (description : String)
    (hkey : getAccountKeyFromPurpleAccount account
      = getAccountKey params.username params.serviceName)
    (honline : g_hash_table_lookup st.onlineAccountData
      (getAccountKey params.username params.serviceName) = some account)
    (hbound : g_hash_table_lookup st.ipAddressesBoundTo
        (getAccountKey params.username params.serviceName)
      ≠ some (params.localIpAddress.getD "")) :
    login DEVICE st message params
      = loginProcess DEVICE
          (loginForceLogout { st with libpurpleInitialized := true }
            (getAccountKey params.username params.serviceName))
          ((if st.libpurpleInitialized then [] else [Effect.initializeLibpurple])
            ++ [Effect.purple_account_disconnect account]) message params
    ∧ account_signed_off_cb
        (loginForceLogout { st with libpurpleInitialized := true }
          (getAccountKey params.username params.serviceName)) account
      = (loginForceLogout { st with libpurpleInitialized := true }
          (getAccountKey params.username params.serviceName), [])
    ∧ clientReplies (account_login_failed
        (loginForceLogout { st with libpurpleInitialized := true }
          (getAccountKey params.username params.serviceName))
        account type description).2 = [] := by
  refine ⟨?_, ?_, ?_⟩
  · simp only [login, honline, hbound, if_false]
  · simp [account_signed_off_cb, loginForceLogout, hkey, lookup_remove]
  · simp [account_login_failed, loginForceLogout, hkey, lookup_remove, clientReplies]

/-- C10, amended, at the online scenario account and a login from "10.0.0.2". -/
theorem C10_old_session_notice_swallowed_witness :
    clientReplies (account_login_failed
        (loginForceLogout
          { runState false initialState
              [Event.login 7 scenarioLoginFull, Event.account_logged_in scenarioAccount] with
            libpurpleInitialized := true }
          (getAccountKey "user1@aol.com" "aol"))
        scenarioAccount PurpleConnectionError.PURPLE_CONNECTION_ERROR_NETWORK_ERROR "x").2 = [] :=
  (C10_old_session_notice_swallowed false
    (runState false initialState
      [Event.login 7 scenarioLoginFull, Event.account_logged_in scenarioAccount])
    8 ⟨"aol", "user1@aol.com", "p", 0, none, some "10.0.0.2", none⟩ scenarioAccount
    PurpleConnectionError.PURPLE_CONNECTION_ERROR_NETWORK_ERROR "x"
    (by decide) (by decide) (by decide)).2.2

/-! ## Calls among appended effects -/

theorem armedTimers_append (a b : List Effect) :
    armedTimers (a ++ b) = armedTimers a ++ armedTimers b := by
  induction a with
  | nil => rfl
  | cons e rest ih => cases e <;> simp [armedTimers, ih]

theorem providerLoginCalls_append (a b : List Effect) :
    providerLoginCalls (a ++ b) = providerLoginCalls a ++ providerLoginCalls b := by
  induction a with
  | nil => rfl
  | cons e rest ih => cases e <;> simp [providerLoginCalls, ih]

theorem providerDisconnects_append (a b : List Effect) :
    providerDisconnects (a ++ b) = providerDisconnects a ++ providerDisconnects b := by
  induction a with
  | nil => rfl
  | cons e rest ih => cases e <;> simp [providerDisconnects, ih]

/-! ## Online and pending accounts along a sequence of invocations -/

theorem shrinks_refl {α : Type} (table : Table α) : Shrinks table table :=
  fun _ => Or.inl rfl

theorem shrinks_remove {α : Type} (table : Table α) (key : String) :
    Shrinks table (g_hash_table_remove table key) := by
  intro key2
  rw [lookup_remove]
  by_cases h : key2 = key
  · exact Or.inr (by simp [h])
  · exact Or.inl (by simp [h])

theorem shrinks_trans {α : Type} (t1 t2 t3 : Table α) (h12 : Shrinks t1 t2)
    (h23 : Shrinks t2 t3) : Shrinks t1 t3 := by
  intro key
  rcases h23 key with h | h
  · rcases h12 key with h2 | h2
    · exact Or.inl (h.trans h2)
    · exact Or.inr (h.trans h2)
  · exact Or.inr h

theorem exclusive_of_shrinks (st st2 : AdapterState) (h : Exclusive st)
    (hon : Shrinks st.onlineAccountData st2.onlineAccountData)
    (hpe : Shrinks st.pendingAccountData st2.pendingAccountData) : Exclusive st2 := by
  intro key
  rcases h key with h1 | h1
  · rcases hon key with h2 | h2
    · exact Or.inl (h2.trans h1)
    · exact Or.inl h2
  · rcases hpe key with h2 | h2
    · exact Or.inr (h2.trans h1)
    · exact Or.inr h2

theorem account_signed_off_cb_shrinks (st : AdapterState) (account : PurpleAccount) :
    Shrinks st.onlineAccountData (account_signed_off_cb st account).1.onlineAccountData
    ∧ Shrinks st.pendingAccountData (account_signed_off_cb st account).1.pendingAccountData := by
  unfold account_signed_off_cb
  simp only
  split
  · by_cases hon : (g_hash_table_lookup st.onlineAccountData
        (getAccountKeyFromPurpleAccount account)).isSome = true
    · simp only [hon, if_true]
      split <;> exact ⟨shrinks_remove _ _, shrinks_refl _⟩
    · simp only [hon, if_false]
      split <;> exact ⟨shrinks_refl _, shrinks_remove _ _⟩
  · exact ⟨shrinks_refl _, shrinks_refl _⟩

theorem account_login_failed_finish_shrinks (st : AdapterState) (account : PurpleAccount)
    (type : PurpleConnectionError) (description : String) (loggedOut : Bool)
    (effects : List Effect) (online pending : Table PurpleAccount)
    (hon : Shrinks online st.onlineAccountData) (hpe : Shrinks pending st.pendingAccountData) :
    Shrinks online
      (account_login_failed_finish st account type description loggedOut effects).1.onlineAccountData
    ∧ Shrinks pending
      (account_login_failed_finish st account type description loggedOut
        effects).1.pendingAccountData := by
  unfold account_login_failed_finish
  simp only
  split <;> exact ⟨shrinks_trans _ _ _ hon (shrinks_remove _ _), hpe⟩

theorem account_login_failed_shrinks (st : AdapterState) (account : PurpleAccount)
    (type : PurpleConnectionError) (description : String) :
    Shrinks st.onlineAccountData
      (account_login_failed st account type description).1.onlineAccountData
    ∧ Shrinks st.pendingAccountData
      (account_login_failed st account type description).1.pendingAccountData := by
  unfold account_login_failed
  simp only
  split
  · exact account_login_failed_finish_shrinks st account type description true [] _ _
      (shrinks_refl _) (shrinks_refl _)
  · split
    · exact account_login_failed_finish_shrinks _ account type description false _ _ _
        (shrinks_refl _) (shrinks_remove _ _)
    · exact ⟨shrinks_refl _, shrinks_refl _⟩

theorem connectTimeoutCallback_shrinks (st : AdapterState) (accountKey : String) :
    Shrinks st.onlineAccountData (connectTimeoutCallback st accountKey).1.onlineAccountData
    ∧ Shrinks st.pendingAccountData
      (connectTimeoutCallback st accountKey).1.pendingAccountData := by
  unfold connectTimeoutCallback
  split
  · exact ⟨shrinks_refl _, shrinks_refl _⟩
  · simp only
    split <;> exact ⟨shrinks_refl _, shrinks_remove _ _⟩

theorem deviceConnectionClosedIteration_shrinks (ipAddress : String)
    (loop : ConnectionClosedLoop) (accountKey : String) (online pending : Table PurpleAccount)
    (hon : Shrinks online loop.st.onlineAccountData)
    (hpe : Shrinks pending loop.st.pendingAccountData) :
    Shrinks online
      (deviceConnectionClosedIteration ipAddress loop accountKey).st.onlineAccountData
    ∧ Shrinks pending
      (deviceConnectionClosedIteration ipAddress loop accountKey).st.pendingAccountData := by
  unfold deviceConnectionClosedIteration
  simp only
  split
  · exact ⟨hon, hpe⟩
  · split
    · split
      · exact ⟨hon, hpe⟩
      · split <;>
          exact ⟨shrinks_trans _ _ _ hon
            (shrinks_trans _ _ _ (shrinks_remove _ _) (shrinks_remove _ _)),
            shrinks_trans _ _ _ hpe (shrinks_remove _ _)⟩
    · exact ⟨hon, hpe⟩

theorem deviceConnectionClosed_loop_shrinks (ipAddress : String) (keys : List String)
    (loop : ConnectionClosedLoop) (online pending : Table PurpleAccount)
    (hon : Shrinks online loop.st.onlineAccountData)
    (hpe : Shrinks pending loop.st.pendingAccountData) :
    Shrinks online
      (keys.foldl (deviceConnectionClosedIteration ipAddress) loop).st.onlineAccountData
    ∧ Shrinks pending
      (keys.foldl (deviceConnectionClosedIteration ipAddress) loop).st.pendingAccountData := by
  induction keys generalizing loop with
  | nil => exact ⟨hon, hpe⟩
  | cons key rest ih =>
    have hstep := deviceConnectionClosedIteration_shrinks ipAddress loop key online pending
      hon hpe
    exact ih (deviceConnectionClosedIteration ipAddress loop key) hstep.1 hstep.2

theorem deviceConnectionClosedUnbind_accounts (accounts : List PurpleAccount)
    (st : AdapterState) :
    (deviceConnectionClosedUnbind st accounts).onlineAccountData = st.onlineAccountData
    ∧ (deviceConnectionClosedUnbind st accounts).pendingAccountData
      = st.pendingAccountData := by
  induction accounts generalizing st with
  | nil => exact ⟨rfl, rfl⟩
  | cons account rest ih =>
    simp only [deviceConnectionClosedUnbind, List.foldl_cons]
    have := ih { st with
      ipAddressesBoundTo :=
        g_hash_table_remove st.ipAddressesBoundTo (getAccountKeyFromPurpleAccount account) }
    simpa [deviceConnectionClosedUnbind] using this

theorem deviceConnectionClosed_shrinks (st : AdapterState) (message : LSMessage)
    (ipAddress : String) :
    Shrinks st.onlineAccountData
      (deviceConnectionClosed st message ipAddress).1.onlineAccountData
    ∧ Shrinks st.pendingAccountData
      (deviceConnectionClosed st message ipAddress).1.pendingAccountData := by
  have hloop := deviceConnectionClosed_loop_shrinks ipAddress
    (g_hash_table_get_keys st.ipAddressesBoundTo) ⟨st, [], []⟩ st.onlineAccountData
    st.pendingAccountData (shrinks_refl _) (shrinks_refl _)
  unfold deviceConnectionClosed
  simp only
  generalize (g_hash_table_get_keys st.ipAddressesBoundTo).foldl
    (deviceConnectionClosedIteration ipAddress) ⟨st, [], []⟩ = loop at hloop ⊢
  split
  · exact hloop
  · rw [(deviceConnectionClosedUnbind_accounts _ _).1,
      (deviceConnectionClosedUnbind_accounts _ _).2]
    exact hloop

theorem account_logged_in_exclusive (st : AdapterState) (account : PurpleAccount)
    (h : Exclusive st) : Exclusive (account_logged_in st account).1 := by
  unfold account_logged_in
  simp only
  split
  · exact h
  · have hnew : ∀ key,
        g_hash_table_lookup (g_hash_table_insert st.onlineAccountData
            (getAccountKeyFromPurpleAccount account) account) key = none
        ∨ g_hash_table_lookup (g_hash_table_remove st.pendingAccountData
            (getAccountKeyFromPurpleAccount account)) key = none := by
      intro key
      rw [lookup_insert, lookup_remove]
      by_cases hk : key = getAccountKeyFromPurpleAccount account
      · exact Or.inr (by simp [hk])
      · simpa [hk] using h key
    cases st.registeredForDisplayEvents <;> cases st.currentDisplayState <;> exact hnew

theorem loginProcess_exclusive (DEVICE : Bool) (st : AdapterState) (effects : List Effect)
    (message : LSMessage) (params : LoginParams) (h : Exclusive st)
    (honline : g_hash_table_lookup st.onlineAccountData
      (getAccountKey params.username params.serviceName) = none) :
    Exclusive (loginProcess DEVICE st effects message params).1 := by
  unfold loginProcess
  simp only
  split
  · exact h
  · split
    · exact h
    · intro key
      by_cases hk : key = getAccountKey params.username params.serviceName
      · exact Or.inl (by rw [hk]; exact honline)
      · rcases h key with h1 | h1
        · exact Or.inl h1
        · exact Or.inr (by simp only [lookup_insert, hk, if_false]; exact h1)

theorem loginForceLogout_exclusive (st : AdapterState) (accountKey : String)
    (h : Exclusive st) : Exclusive (loginForceLogout st accountKey) :=
  exclusive_of_shrinks st _ h (shrinks_remove _ _) (shrinks_remove _ _)

theorem login_exclusive (DEVICE : Bool) (st : AdapterState) (message : LSMessage)
    (params : LoginParams) (h : Exclusive st) :
    Exclusive (login DEVICE st message params).1 := by
  have h0 : Exclusive { st with libpurpleInitialized := true } := h
  unfold login
  simp only
  split
  · split
    · exact h0
    · exact loginProcess_exclusive DEVICE
        (loginForceLogout { st with libpurpleInitialized := true }
          (getAccountKey params.username params.serviceName)) _ message params
        (loginForceLogout_exclusive _ _ h0) (lookup_remove_self _ _)
  · rename_i hnone
    split
    · split
      · exact h0
      · exact loginProcess_exclusive DEVICE
          (loginForceLogout { st with libpurpleInitialized := true }
            (getAccountKey params.username params.serviceName)) _ message params
          (loginForceLogout_exclusive _ _ h0) (lookup_remove_self _ _)
    · exact loginProcess_exclusive DEVICE { st with libpurpleInitialized := true } _ message
        params h0 hnone

theorem logout_exclusive (st : AdapterState) (message : LSMessage)
    (serviceName username : String) (h : Exclusive st) :
    Exclusive (logout st message serviceName username).1 := by
  unfold logout
  simp only
  split <;> exact h

theorem step_exclusive (DEVICE : Bool) (st : AdapterState) (event : Event)
    (h : Exclusive st) : Exclusive (step DEVICE st event).1 := by
  cases event with
  | login message params => exact login_exclusive DEVICE st message params h
  | logout message serviceName username => exact logout_exclusive st message serviceName username h
  | account_logged_in account => exact account_logged_in_exclusive st account h
  | account_signed_off_cb account =>
    exact exclusive_of_shrinks st _ h (account_signed_off_cb_shrinks st account).1
      (account_signed_off_cb_shrinks st account).2
  | account_login_failed account type description =>
    exact exclusive_of_shrinks st _ h
      (account_login_failed_shrinks st account type description).1
      (account_login_failed_shrinks st account type description).2
  | connectTimeoutCallback accountKey =>
    exact exclusive_of_shrinks st _ h (connectTimeoutCallback_shrinks st accountKey).1
      (connectTimeoutCallback_shrinks st accountKey).2
  | deviceConnectionClosed message ipAddress =>
    exact exclusive_of_shrinks st _ h (deviceConnectionClosed_shrinks st message ipAddress).1
      (deviceConnectionClosed_shrinks st message ipAddress).2

theorem runState_exclusive (DEVICE : Bool) (events : List Event) (st : AdapterState)
    (h : Exclusive st) : Exclusive (runState DEVICE st events) := by
  induction events generalizing st with
  | nil => exact h
  | cons event rest ih => exact ih (step DEVICE st event).1 (step_exclusive DEVICE st event h)

theorem initialState_exclusive : Exclusive initialState :=
  fun _ => Or.inl rfl

theorem not_online_of_pending (st : AdapterState) (key : String) (account : PurpleAccount)
    (hpending : g_hash_table_lookup st.pendingAccountData key = some account)
    (hstate : g_hash_table_lookup st.onlineAccountData key = none
      ∨ ∃ DEVICE events, st = runState DEVICE initialState events) :
    g_hash_table_lookup st.onlineAccountData key = none := by
  rcases hstate with h | ⟨DEVICE, events, h⟩
  · exact h
  · rcases (h ▸ runState_exclusive DEVICE events initialState initialState_exclusive) key
      with h1 | h1
    · exact h1
    · rw [h1] at hpending
      cases hpending

/-! ## The presence-queue handlers leave the account tables alone -/

theorem displayEventHandler_tables (provider : Provider) (st : AdapterState)
    (params : DisplayEventParams) :
    (displayEventHandler provider st params).1.onlineAccountData = st.onlineAccountData
    ∧ (displayEventHandler provider st params).1.pendingAccountData = st.pendingAccountData
    ∧ (displayEventHandler provider st params).1.ipAddressesBoundTo
      = st.ipAddressesBoundTo := by
  unfold displayEventHandler
  simp only
  split
  · split
    · exact ⟨rfl, rfl, rfl⟩
    · split
      · split <;> exact ⟨rfl, rfl, rfl⟩
      · exact ⟨rfl, rfl, rfl⟩
  · exact ⟨rfl, rfl, rfl⟩

theorem queuePresenceUpdatesTimer_state (provider : Provider) (st : AdapterState) :
    (queuePresenceUpdatesTimer provider st).1 = st := by
  unfold queuePresenceUpdatesTimer
  split <;> rfl

theorem queuePresenceUpdatesForAccountTimerCallback_state (provider : Provider)
    (st : AdapterState) (accountKey : String) :
    (queuePresenceUpdatesForAccountTimerCallback provider st accountKey).1 = st := by
  unfold queuePresenceUpdatesForAccountTimerCallback
  split
  · rfl
  · split <;> rfl

theorem setMyCustomMessage_state (st : AdapterState) (message : LSMessage)
    (serviceName username customMessage : String) :
    (setMyCustomMessage st message serviceName username customMessage).1 = st := by
  unfold setMyCustomMessage
  split <;> rfl

/-! ## Invariants of the states reached from the initial state -/

theorem loginProcess_online (DEVICE : Bool) (st : AdapterState) (effects : List Effect)
    (message : LSMessage) (params : LoginParams) :
    (loginProcess DEVICE st effects message params).1.onlineAccountData
      = st.onlineAccountData := by
  unfold loginProcess
  simp only
  split
  · rfl
  · split <;> rfl

theorem login_online_shrinks (DEVICE : Bool) (st : AdapterState) (message : LSMessage)
    (params : LoginParams) :
    Shrinks st.onlineAccountData (login DEVICE st message params).1.onlineAccountData := by
  unfold login
  simp only
  split
  · split
    · exact shrinks_refl _
    · rw [loginProcess_online]
      exact shrinks_remove _ _
  · split
    · split
      · exact shrinks_refl _
      · rw [loginProcess_online]
        exact shrinks_remove _ _
    · rw [loginProcess_online]
      exact shrinks_refl _

theorem logout_online (st : AdapterState) (message : LSMessage)
    (serviceName username : String) :
    (logout st message serviceName username).1.onlineAccountData = st.onlineAccountData := by
  unfold logout
  simp only
  split <;> rfl

theorem onlineKeyed_of_shrinks (st st2 : AdapterState) (h : OnlineKeyed st)
    (hon : Shrinks st.onlineAccountData st2.onlineAccountData) : OnlineKeyed st2 := by
  intro key account hlookup
  rcases hon key with h2 | h2
  · exact h key account (h2 ▸ hlookup)
  · rw [h2] at hlookup
    cases hlookup

theorem account_logged_in_onlineKeyed (st : AdapterState) (account : PurpleAccount)
    (h : OnlineKeyed st) : OnlineKeyed (account_logged_in st account).1 := by
  unfold account_logged_in
  simp only
  split
  · exact h
  · have hnew : ∀ key a,
        g_hash_table_lookup (g_hash_table_insert st.onlineAccountData
            (getAccountKeyFromPurpleAccount account) account) key = some a →
        getAccountKeyFromPurpleAccount a = key := by
      intro key a hlookup
      rw [lookup_insert] at hlookup
      by_cases hk : key = getAccountKeyFromPurpleAccount account
      · simp only [hk, if_true, Option.some.injEq] at hlookup
        rw [← hlookup, hk]
      · simp only [hk, if_false] at hlookup
        exact h key a hlookup
    cases st.registeredForDisplayEvents <;> cases st.currentDisplayState <;> exact hnew

theorem step_onlineKeyed (DEVICE : Bool) (st : AdapterState) (event : Event)
    (h : OnlineKeyed st) : OnlineKeyed (step DEVICE st event).1 := by
  cases event with
  | login message params =>
    exact onlineKeyed_of_shrinks st _ h (login_online_shrinks DEVICE st message params)
  | logout message serviceName username =>
    exact onlineKeyed_of_shrinks st _ h
      (by rw [step, logout_online]; exact shrinks_refl _)
  | account_logged_in account => exact account_logged_in_onlineKeyed st account h
  | account_signed_off_cb account =>
    exact onlineKeyed_of_shrinks st _ h (account_signed_off_cb_shrinks st account).1
  | account_login_failed account type description =>
    exact onlineKeyed_of_shrinks st _ h
      (account_login_failed_shrinks st account type description).1
  | connectTimeoutCallback accountKey =>
    exact onlineKeyed_of_shrinks st _ h (connectTimeoutCallback_shrinks st accountKey).1
  | deviceConnectionClosed message ipAddress =>
    exact onlineKeyed_of_shrinks st _ h (deviceConnectionClosed_shrinks st message ipAddress).1

theorem boundNonEmpty_of_shrinks (st st2 : AdapterState) (h : BoundNonEmpty st)
    (hip : Shrinks st.ipAddressesBoundTo st2.ipAddressesBoundTo) : BoundNonEmpty st2 := by
  intro key hlookup
  rcases hip key with h2 | h2
  · exact h key (h2 ▸ hlookup)
  · rw [h2] at hlookup
    cases hlookup

theorem account_logged_in_bound (st : AdapterState) (account : PurpleAccount) :
    (account_logged_in st account).1.ipAddressesBoundTo = st.ipAddressesBoundTo := by
  unfold account_logged_in
  simp only
  split
  · rfl
  · cases st.registeredForDisplayEvents <;> cases st.currentDisplayState <;> rfl

theorem account_signed_off_cb_bound (st : AdapterState) (account : PurpleAccount) :
    Shrinks st.ipAddressesBoundTo (account_signed_off_cb st account).1.ipAddressesBoundTo := by
  unfold account_signed_off_cb
  simp only
  split
  · by_cases hon : (g_hash_table_lookup st.onlineAccountData
        (getAccountKeyFromPurpleAccount account)).isSome = true
    · simp only [hon, if_true]
      split <;> exact shrinks_remove _ _
    · simp only [hon, if_false]
      split <;> exact shrinks_remove _ _
  · exact shrinks_refl _

theorem account_login_failed_finish_bound (st : AdapterState) (account : PurpleAccount)
    (type : PurpleConnectionError) (description : String) (loggedOut : Bool)
    (effects : List Effect) :
    Shrinks st.ipAddressesBoundTo
      (account_login_failed_finish st account type description loggedOut
        effects).1.ipAddressesBoundTo := by
  unfold account_login_failed_finish
  simp only
  split <;> exact shrinks_remove _ _

theorem account_login_failed_bound (st : AdapterState) (account : PurpleAccount)
    (type : PurpleConnectionError) (description : String) :
    Shrinks st.ipAddressesBoundTo
      (account_login_failed st account type description).1.ipAddressesBoundTo := by
  unfold account_login_failed
  simp only
  split
  · exact account_login_failed_finish_bound st account type description true []
  · split
    · exact account_login_failed_finish_bound _ account type description false _
    · exact shrinks_refl _

theorem connectTimeoutCallback_bound (st : AdapterState) (accountKey : String) :
    Shrinks st.ipAddressesBoundTo
      (connectTimeoutCallback st accountKey).1.ipAddressesBoundTo := by
  unfold connectTimeoutCallback
  split
  · exact shrinks_refl _
  · simp only
    split <;> exact shrinks_remove _ _

theorem deviceConnectionClosedIteration_bound (ipAddress : String)
    (loop : ConnectionClosedLoop) (accountKey : String) :
    (deviceConnectionClosedIteration ipAddress loop accountKey).st.ipAddressesBoundTo
      = loop.st.ipAddressesBoundTo := by
  unfold deviceConnectionClosedIteration
  simp only
  split
  · rfl
  · split
    · split
      · rfl
      · split <;> rfl
    · rfl

theorem deviceConnectionClosed_loop_bound (ipAddress : String) (keys : List String)
    (loop : ConnectionClosedLoop) :
    (keys.foldl (deviceConnectionClosedIteration ipAddress) loop).st.ipAddressesBoundTo
      = loop.st.ipAddressesBoundTo := by
  induction keys generalizing loop with
  | nil => rfl
  | cons key rest ih =>
    simp only [List.foldl_cons]
    rw [ih, deviceConnectionClosedIteration_bound]

theorem deviceConnectionClosedUnbind_bound (accounts : List PurpleAccount)
    (st : AdapterState) :
    Shrinks st.ipAddressesBoundTo
      (deviceConnectionClosedUnbind st accounts).ipAddressesBoundTo := by
  induction accounts generalizing st with
  | nil => exact shrinks_refl _
  | cons account rest ih =>
    simp only [deviceConnectionClosedUnbind, List.foldl_cons]
    have := ih { st with
      ipAddressesBoundTo :=
        g_hash_table_remove st.ipAddressesBoundTo (getAccountKeyFromPurpleAccount account) }
    exact shrinks_trans _ _ _ (shrinks_remove _ _)
      (by simpa [deviceConnectionClosedUnbind] using this)

theorem deviceConnectionClosed_bound (st : AdapterState) (message : LSMessage)
    (ipAddress : String) :
    Shrinks st.ipAddressesBoundTo
      (deviceConnectionClosed st message ipAddress).1.ipAddressesBoundTo := by
  have hloop := deviceConnectionClosed_loop_bound ipAddress
    (g_hash_table_get_keys st.ipAddressesBoundTo) ⟨st, [], []⟩
  unfold deviceConnectionClosed
  simp only
  generalize (g_hash_table_get_keys st.ipAddressesBoundTo).foldl
    (deviceConnectionClosedIteration ipAddress) ⟨st, [], []⟩ = loop at hloop ⊢
  simp only at hloop
  split
  · rw [hloop]
    exact shrinks_refl _
  · have := deviceConnectionClosedUnbind_bound loop.accountToLogoutList loop.st
    rw [hloop] at this
    exact this

theorem loginProcess_bound (DEVICE : Bool) (st : AdapterState) (effects : List Effect)
    (message : LSMessage) (params : LoginParams) (h : BoundNonEmpty st) :
    BoundNonEmpty (loginProcess DEVICE st effects message params).1 := by
  unfold loginProcess
  simp only
  split
  · exact h
  · split
    · exact h
    · intro key
      by_cases hip : params.localIpAddress.getD "" = ""
      · simp only [hip, if_true]
        exact h key
      · simp only [hip, if_false, lookup_insert]
        by_cases hk : key = getAccountKey params.username params.serviceName
        · simp only [hk, if_true]
          intro heq
          exact hip (Option.some.inj heq)
        · simp only [hk, if_false]
          exact h key

theorem login_bound (DEVICE : Bool) (st : AdapterState) (message : LSMessage)
    (params : LoginParams) (h : BoundNonEmpty st) :
    BoundNonEmpty (login DEVICE st message params).1 := by
  have h0 : BoundNonEmpty { st with libpurpleInitialized := true } := h
  unfold login
  simp only
  split
  · split
    · exact h0
    · exact loginProcess_bound DEVICE _ _ message params h0
  · split
    · split
      · exact h0
      · exact loginProcess_bound DEVICE _ _ message params h0
    · exact loginProcess_bound DEVICE _ _ message params h0

theorem logout_bound (st : AdapterState) (message : LSMessage)
    (serviceName username : String) :
    (logout st message serviceName username).1.ipAddressesBoundTo
      = st.ipAddressesBoundTo := by
  unfold logout
  simp only
  split <;> rfl

theorem step_bound (DEVICE : Bool) (st : AdapterState) (event : Event)
    (h : BoundNonEmpty st) : BoundNonEmpty (step DEVICE st event).1 := by
  cases event with
  | login message params => exact login_bound DEVICE st message params h
  | logout message serviceName username =>
    exact boundNonEmpty_of_shrinks st _ h
      (by rw [step, logout_bound]; exact shrinks_refl _)
  | account_logged_in account =>
    exact boundNonEmpty_of_shrinks st _ h
      (by rw [step, account_logged_in_bound]; exact shrinks_refl _)
  | account_signed_off_cb account =>
    exact boundNonEmpty_of_shrinks st _ h (account_signed_off_cb_bound st account)
  | account_login_failed account type description =>
    exact boundNonEmpty_of_shrinks st _ h
      (account_login_failed_bound st account type description)
  | connectTimeoutCallback accountKey =>
    exact boundNonEmpty_of_shrinks st _ h (connectTimeoutCallback_bound st accountKey)
  | deviceConnectionClosed message ipAddress =>
    exact boundNonEmpty_of_shrinks st _ h (deviceConnectionClosed_bound st message ipAddress)

theorem invoke_invariants (DEVICE : Bool) (st : AdapterState) (invocation : Invocation)
    (h : Exclusive st ∧ OnlineKeyed st ∧ BoundNonEmpty st) :
    Exclusive (invoke DEVICE st invocation).1 ∧ OnlineKeyed (invoke DEVICE st invocation).1
      ∧ BoundNonEmpty (invoke DEVICE st invocation).1 := by
  cases invocation with
  | session event =>
    exact ⟨step_exclusive DEVICE st event h.1, step_onlineKeyed DEVICE st event h.2.1,
      step_bound DEVICE st event h.2.2⟩
  | displayEventHandler provider params =>
    have ht := displayEventHandler_tables provider st params
    refine ⟨?_, ?_, ?_⟩
    · intro key
      simp only [invoke, ht.1, ht.2.1]
      exact h.1 key
    · intro key account
      simp only [invoke, ht.1]
      exact h.2.1 key account
    · intro key
      simp only [invoke, ht.2.2]
      exact h.2.2 key
  | queuePresenceUpdatesTimer provider =>
    simp only [invoke, queuePresenceUpdatesTimer_state]
    exact h
  | queuePresenceUpdatesForAccountTimerCallback provider accountKey =>
    simp only [invoke, queuePresenceUpdatesForAccountTimerCallback_state]
    exact h
  | setMyCustomMessage message serviceName username customMessage =>
    simp only [invoke, setMyCustomMessage_state]
    exact h

theorem runInvocations_invariants (DEVICE : Bool) (invocations : List Invocation)
    (st : AdapterState) (h : Exclusive st ∧ OnlineKeyed st ∧ BoundNonEmpty st) :
    Exclusive (runInvocations DEVICE st invocations)
      ∧ OnlineKeyed (runInvocations DEVICE st invocations)
      ∧ BoundNonEmpty (runInvocations DEVICE st invocations) := by
  induction invocations generalizing st with
  | nil => exact h
  | cons invocation rest ih =>
    exact ih (invoke DEVICE st invocation).1 (invoke_invariants DEVICE st invocation h)

theorem initialState_invariants :
    Exclusive initialState ∧ OnlineKeyed initialState ∧ BoundNonEmpty initialState :=
  ⟨initialState_exclusive,
    by intro key account h; simp [initialState, g_hash_table_lookup] at h,
    by intro key h; simp [initialState, g_hash_table_lookup] at h⟩

theorem reached_invariants (st : AdapterState)
    (h : ∃ DEVICE invocations, st = runInvocations DEVICE initialState invocations) :
    Exclusive st ∧ OnlineKeyed st ∧ BoundNonEmpty st := by
  obtain ⟨DEVICE, invocations, rfl⟩ := h
  exact runInvocations_invariants DEVICE invocations initialState initialState_invariants

/-! ## C11: the provider account after a timeout -/

/-- C11 at the sequence `login`, `connectTimeoutCallback`, `login`: the timeout
takes the account out of `pendingAccountData` without putting the provider
account into `offlineAccountData`, so it is in no table afterwards and the
second login calls `purple_account_new` again.  For comparison, after
`account_login_failed` instead of the timeout the provider account is kept and
the second login creates none. -/
theorem C11_account_lost_after_timeout :
    createdAccounts (login false initialState 7 scenarioLoginFull).2 = [("user1", "prpl-aim")]
    ∧ (runState false initialState
        [Event.login 7 scenarioLoginFull,
          Event.connectTimeoutCallback "user1@aol.com_aol"]).offlineAccountData = []
    ∧ (runState false initialState
        [Event.login 7 scenarioLoginFull,
          Event.connectTimeoutCallback "user1@aol.com_aol"]).onlineAccountData = []
    ∧ (runState false initialState
        [Event.login 7 scenarioLoginFull,
          Event.connectTimeoutCallback "user1@aol.com_aol"]).pendingAccountData = []
    ∧ createdAccounts (login false
        (runState false initialState
          [Event.login 7 scenarioLoginFull, Event.connectTimeoutCallback "user1@aol.com_aol"])
        8 scenarioLoginFull).2 = [("user1", "prpl-aim")]
    ∧ createdAccounts (login false
        (runState false initialState
          [Event.login 7 scenarioLoginFull,
            Event.account_login_failed scenarioAccount
              PurpleConnectionError.PURPLE_CONNECTION_ERROR_NETWORK_ERROR "x"])
        8 scenarioLoginFull).2 = [] := by
  decide

/-! ## C12: a disconnect notification for a pending account -/

/-- C12 at the sequence `login`, `account_signed_off_cb`: the signed-off
notification for the pending account makes no call at all (no
`purple_timeout_remove`, no reply), leaves the timer entry and the held login
request in place, and only moves the account from `pendingAccountData` to
`offlineAccountData`.  For comparison, `account_login_failed` in the same
state cancels timer 1 and answers request 7. -/
theorem C12_signed_off_leaves_login_unanswered :
    g_hash_table_lookup (login false initialState 7 scenarioLoginFull).1.pendingAccountData
        "user1@aol.com_aol" = some scenarioAccount
    ∧ g_hash_table_lookup (login false initialState 7 scenarioLoginFull).1.loginMessages
        "user1@aol.com_aol" = some 7
    ∧ (account_signed_off_cb (login false initialState 7 scenarioLoginFull).1 scenarioAccount).2
        = []
    ∧ g_hash_table_lookup
        (account_signed_off_cb (login false initialState 7 scenarioLoginFull).1
          scenarioAccount).1.pendingAccountData "user1@aol.com_aol" = none
    ∧ g_hash_table_lookup
        (account_signed_off_cb (login false initialState 7 scenarioLoginFull).1
          scenarioAccount).1.accountLoginTimers "user1@aol.com_aol" = some 1
    ∧ g_hash_table_lookup
        (account_signed_off_cb (login false initialState 7 scenarioLoginFull).1
          scenarioAccount).1.loginMessages "user1@aol.com_aol" = some 7
    ∧ (account_login_failed (login false initialState 7 scenarioLoginFull).1 scenarioAccount
        PurpleConnectionError.PURPLE_CONNECTION_ERROR_NETWORK_ERROR "x").2
        = [Effect.purple_timeout_remove 1,
            Effect.LSMessageReply (some 7) (Payload.text
              "\x7b\"serviceName\":\"aol\",  \"username\":\"user1@aol.com\", \"returnValue\":false, \"errorCode\":\"AcctMgr_Network_Error\",  \"localIpAddress\":\"10.0.0.1\", \"errorText\":\"x\", \"connectionType\":\"\"\x7d")] := by
  decide

/-! ## C13: a fresh login -/

/-- C13, as stated, fails in a build with `DEVICE` defined: a login without a
local address, for an account that is neither online nor pending, is answered
synchronously with a network error and leaves every table as it was. -/
theorem C13_counterexample :
    login true initialState 7 ⟨"aol", "user1@aol.com", "p", 0, none, none, none⟩
      = ({ initialState with libpurpleInitialized := true },
          [Effect.initializeLibpurple,
            Effect.LSMessageReply (some 7) (Payload.json
              [("serviceName", JsonValue.str "aol"),
                ("username", JsonValue.str "user1@aol.com"),
                ("errorCode", JsonValue.str "AcctMgr_Network_Error"),
                ("errorText", JsonValue.str "localIpAddress was null or empty")])]) := by
  decide

/-- C13, amended: for a login with non-empty user name and password, for an
account that is neither online nor pending, and with a non-empty local address
or in a build without `DEVICE`: no reply is sent; afterwards the key is in
`pendingAccountData` (with the provider account that `login` uses) and not in
`onlineAccountData`; `loginMessages` holds the request; exactly one timer is
armed, the login timer of `CONNECT_TIMEOUT_SECONDS` = 30 seconds for this key,
and its handle is recorded in `accountLoginTimers`; `ipAddressesBoundTo` holds
the local address when it is non-empty; and exactly one provider login call is
made, with the status primitive
`getPrplAvailabilityFromPalmAvailability availability`. -/
theorem C13_fresh_login (DEVICE : Bool) (st : AdapterState) (message : LSMessage)
    (params : LoginParams)
    (hu : params.username ≠ "") (hp : params.password ≠ "")
    (honline : g_hash_table_lookup st.onlineAccountData
      (getAccountKey params.username params.serviceName) = none)
    (hpending : g_hash_table_lookup st.pendingAccountData
      (getAccountKey params.username params.serviceName) = none)
    (hdevice : params.localIpAddress.getD "" ≠ "" ∨ DEVICE = false) :
    clientReplies (login DEVICE st message params).2 = []
    ∧ g_hash_table_lookup (login DEVICE st message params).1.pendingAccountData
        (getAccountKey params.username params.serviceName)
      = some (loginProviderAccount st params)
    ∧ g_hash_table_lookup (login DEVICE st message params).1.onlineAccountData
        (getAccountKey params.username params.serviceName) = none
    ∧ g_hash_table_lookup (login DEVICE st message params).1.loginMessages
        (getAccountKey params.username params.serviceName) = some message
    ∧ armedTimers (login DEVICE st message params).2
      = [(CONNECT_TIMEOUT_SECONDS, TimerCallback.connectTimeoutCallback,
          getAccountKey params.username params.serviceName, st.nextTimerHandle)]
    ∧ CONNECT_TIMEOUT_SECONDS = 30
    ∧ g_hash_table_lookup (login DEVICE st message params).1.accountLoginTimers
        (getAccountKey params.username params.serviceName) = some st.nextTimerHandle
    ∧ (params.localIpAddress.getD "" ≠ "" →
        g_hash_table_lookup (login DEVICE st message params).1.ipAddressesBoundTo
          (getAccountKey params.username params.serviceName)
        = some (params.localIpAddress.getD ""))
    ∧ providerLoginCalls (login DEVICE st message params).2
      = [(getPrplAvailabilityFromPalmAvailability params.availability,
          params.customMessage.getD "", loginProviderAccount st params)] := by
  have hor : ¬ (params.username = "" ∨ params.password = "") := by
    rintro (h | h)
    · exact hu h
    · exact hp h
  have hdev : ¬ (params.localIpAddress.getD "" = "" ∧ DEVICE = true) := by
    rintro ⟨h1, h2⟩
    rcases hdevice with h | h
    · exact h h1
    · rw [h] at h2
      cases h2
  have hfirst : loginProviderAccount { st with libpurpleInitialized := true } params
      = loginProviderAccount st params := rfl
  have hlogin : login DEVICE st message params
      = loginProcess DEVICE { st with libpurpleInitialized := true }
          (if st.libpurpleInitialized then [] else [Effect.initializeLibpurple])
          message params := by
    simp only [login, honline, hpending]
  rw [hlogin]
  simp only [loginProcess, hor, hdev, if_false, hfirst]
  refine ⟨?_, ?_, ?_, ?_, ?_, rfl, ?_, ?_, ?_⟩
  · cases st.libpurpleInitialized <;>
      simp [clientReplies_append, clientReplies, apply_ite clientReplies]
  · simp [lookup_insert]
  · exact honline
  · simp [lookup_insert]
  · cases st.libpurpleInitialized <;>
      simp [armedTimers_append, armedTimers, apply_ite armedTimers]
  · simp [lookup_insert]
  · intro hne
    simp [hne, lookup_insert]
  · cases st.libpurpleInitialized <;>
      simp [providerLoginCalls_append, providerLoginCalls, apply_ite providerLoginCalls]

/-- C13, amended, at the scenario login in the initial state. -/
theorem C13_fresh_login_witness :
    clientReplies (login false initialState 7 scenarioLoginFull).2 = []
    ∧ g_hash_table_lookup (login false initialState 7 scenarioLoginFull).1.pendingAccountData
        (getAccountKey scenarioLoginFull.username scenarioLoginFull.serviceName)
      = some (loginProviderAccount initialState scenarioLoginFull) :=
  ⟨(C13_fresh_login false initialState 7 scenarioLoginFull (by decide) (by decide) (by decide)
      (by decide) (Or.inr rfl)).1,
    (C13_fresh_login false initialState 7 scenarioLoginFull (by decide) (by decide) (by decide)
      (by decide) (Or.inr rfl)).2.1⟩

/-! ## C14: the connect notification for a pending account -/

/-- C14: for an account whose key, derived from the provider account, is in
`pendingAccountData` (in a state reached from the initial state, or in any
state in which the key is not also in `onlineAccountData`),
`account_logged_in` cancels the login timer recorded for the key and removes
the timer entry, removes the key from `pendingAccountData`, inserts the
account into `onlineAccountData`, and sends to the login request held for the
key exactly one reply: the account's service name, its user name in the form
the messaging service expects, and `returnValue` true. -/
theorem C14_connected_on_pending (st : AdapterState) (account pendingAccount : PurpleAccount)
    (hpending : g_hash_table_lookup st.pendingAccountData
      (getAccountKeyFromPurpleAccount account) = some pendingAccount)
    (hstate : g_hash_table_lookup st.onlineAccountData
        (getAccountKeyFromPurpleAccount account) = none
      ∨ ∃ DEVICE events, st = runState DEVICE initialState events) :
    (∀ timerHandle,
      g_hash_table_lookup st.accountLoginTimers (getAccountKeyFromPurpleAccount account)
        = some timerHandle →
      Effect.purple_timeout_remove timerHandle ∈ (account_logged_in st account).2)
    ∧ g_hash_table_lookup (account_logged_in st account).1.accountLoginTimers
        (getAccountKeyFromPurpleAccount account) = none
    ∧ g_hash_table_lookup (account_logged_in st account).1.pendingAccountData
        (getAccountKeyFromPurpleAccount account) = none
    ∧ g_hash_table_lookup (account_logged_in st account).1.onlineAccountData
        (getAccountKeyFromPurpleAccount account) = some account
    ∧ (∀ message,
      g_hash_table_lookup st.loginMessages (getAccountKeyFromPurpleAccount account)
        = some message →
      clientReplies (account_logged_in st account).2
        = [(message, Payload.text
            ("\x7b\"serviceName\":\"" ++ getServiceNameFromPrplProtocolId account.protocol_id
              ++ "\",  \"username\":\""
              ++ getJavaFriendlyUsername account.username
                  (getServiceNameFromPrplProtocolId account.protocol_id)
              ++ "\", \"returnValue\":true\x7d"))]) := by
  have honline := not_online_of_pending st _ pendingAccount hpending hstate
  refine ⟨?_, ?_, ?_, ?_, ?_⟩
  · intro timerHandle htimer
    unfold account_logged_in
    simp only [honline, htimer, Option.isSome_none, Bool.false_eq_true, if_false,
      Option.getD_some]
    cases st.registeredForDisplayEvents <;> cases st.currentDisplayState <;> simp
  · unfold account_logged_in
    simp only [honline, Option.isSome_none, Bool.false_eq_true, if_false]
    cases st.registeredForDisplayEvents <;> cases st.currentDisplayState <;>
      simp [lookup_remove]
  · unfold account_logged_in
    simp only [honline, Option.isSome_none, Bool.false_eq_true, if_false]
    cases st.registeredForDisplayEvents <;> cases st.currentDisplayState <;>
      simp [lookup_remove]
  · unfold account_logged_in
    simp only [honline, Option.isSome_none, Bool.false_eq_true, if_false]
    cases st.registeredForDisplayEvents <;> cases st.currentDisplayState <;>
      simp [lookup_insert]
  · intro message hmessage
    rw [account_logged_in_replies st account honline, hmessage]
    rfl

/-- C14 at the scenario account after its login. -/
theorem C14_connected_on_pending_witness :
    clientReplies
        (account_logged_in (runState false initialState [Event.login 7 scenarioLoginFull])
          scenarioAccount).2
      = [(7, Payload.text
          ("\x7b\"serviceName\":\"" ++ getServiceNameFromPrplProtocolId scenarioAccount.protocol_id
            ++ "\",  \"username\":\""
              ++ getJavaFriendlyUsername scenarioAccount.username
                  (getServiceNameFromPrplProtocolId scenarioAccount.protocol_id)
              ++ "\", \"returnValue\":true\x7d"))] :=
  (C14_connected_on_pending (runState false initialState [Event.login 7 scenarioLoginFull])
    scenarioAccount scenarioAccount (by decide)
    (Or.inr ⟨false, [Event.login 7 scenarioLoginFull], rfl⟩)).2.2.2.2 7 (by decide)

/-! ## C15: what `account_login_failed` reports -/

/-- C15, as stated, fails: an account can be online without a held login
request (here after its login timer fired and the provider connected all the
same), and `account_login_failed` then sends no reply. -/
theorem C15_counterexample :
    g_hash_table_lookup
        (runState false initialState
          [Event.login 7 scenarioLoginFull, Event.connectTimeoutCallback "user1@aol.com_aol",
            Event.account_logged_in scenarioAccount]).onlineAccountData
        (getAccountKeyFromPurpleAccount scenarioAccount) = some scenarioAccount
    ∧ clientReplies (account_login_failed
        (runState false initialState
          [Event.login 7 scenarioLoginFull, Event.connectTimeoutCallback "user1@aol.com_aol",
            Event.account_logged_in scenarioAccount])
        scenarioAccount PurpleConnectionError.PURPLE_CONNECTION_ERROR_NETWORK_ERROR "x").2
      = [] := by
  decide

/-- C15, amended: for every account and error kind, `account_login_failed`
(a) when the account is online and a login request is held for its key, sends
that request exactly one reply, a failure text with error code
`getJavaFriendlyErrorCode type` that carries the field `connectionStatus`
"loggedOut"; (b) when the account is pending and a login request is held,
sends that request exactly one reply, the same failure text written without a
`connectionStatus` field; when the account is online or pending and no login
request is held, sends no reply; (c) when the account is neither online nor
pending, sends no reply and leaves `onlineAccountData`, `pendingAccountData`,
`offlineAccountData`, `loginMessages` and `logoutMessages` unchanged. -/
theorem C15_disconnect_classification (st : AdapterState) (account : PurpleAccount)
    (type : PurpleConnectionError) (description : String) :
    (∀ onlineAccount message,
      g_hash_table_lookup st.onlineAccountData (getAccountKeyFromPurpleAccount account)
        = some onlineAccount →
      g_hash_table_lookup st.loginMessages (getAccountKeyFromPurpleAccount account)
        = some message →
      clientReplies (account_login_failed st account type description).2
        = [(message, Payload.text
            ("\x7b\"serviceName\":\"" ++ getServiceNameFromPrplProtocolId account.protocol_id
              ++ "\",  \"username\":\""
              ++ getJavaFriendlyUsername account.username
                  (getServiceNameFromPrplProtocolId account.protocol_id)
              ++ "\", \"returnValue\":false, \"errorCode\":\"" ++ getJavaFriendlyErrorCode type
              ++ "\",  \"localIpAddress\":\""
              ++ (g_hash_table_lookup st.ipAddressesBoundTo
                    (getAccountKeyFromPurpleAccount account)).getD ""
              ++ "\", \"errorText\":\"" ++ g_strescape description
              ++ "\", \"connectionStatus\":\"loggedOut\", \"connectionType\":\""
              ++ (g_hash_table_lookup st.connectionTypeData
                    (getAccountKeyFromPurpleAccount account)).getD ""
              ++ "\"\x7d"))])
    ∧ (∀ pendingAccount message,
      g_hash_table_lookup st.onlineAccountData (getAccountKeyFromPurpleAccount account)
        = none →
      g_hash_table_lookup st.pendingAccountData (getAccountKeyFromPurpleAccount account)
        = some pendingAccount →
      g_hash_table_lookup st.loginMessages (getAccountKeyFromPurpleAccount account)
        = some message →
      clientReplies (account_login_failed st account type description).2
        = [(message, Payload.text
            ("\x7b\"serviceName\":\"" ++ getServiceNameFromPrplProtocolId account.protocol_id
              ++ "\",  \"username\":\""
              ++ getJavaFriendlyUsername account.username
                  (getServiceNameFromPrplProtocolId account.protocol_id)
              ++ "\", \"returnValue\":false, \"errorCode\":\"" ++ getJavaFriendlyErrorCode type
              ++ "\",  \"localIpAddress\":\""
              ++ (g_hash_table_lookup st.ipAddressesBoundTo
                    (getAccountKeyFromPurpleAccount account)).getD ""
              ++ "\", \"errorText\":\"" ++ g_strescape description
              ++ "\", \"connectionType\":\""
              ++ (g_hash_table_lookup st.connectionTypeData
                    (getAccountKeyFromPurpleAccount account)).getD ""
              ++ "\"\x7d"))])
    ∧ (g_hash_table_lookup st.loginMessages (getAccountKeyFromPurpleAccount account) = none →
      clientReplies (account_login_failed st account type description).2 = [])
    ∧ (g_hash_table_lookup st.onlineAccountData (getAccountKeyFromPurpleAccount account)
        = none →
      g_hash_table_lookup st.pendingAccountData (getAccountKeyFromPurpleAccount account)
        = none →
      clientReplies (account_login_failed st account type description).2 = []
      ∧ (account_login_failed st account type description).1.onlineAccountData
        = st.onlineAccountData
      ∧ (account_login_failed st account type description).1.pendingAccountData
        = st.pendingAccountData
      ∧ (account_login_failed st account type description).1.offlineAccountData
        = st.offlineAccountData
      ∧ (account_login_failed st account type description).1.loginMessages = st.loginMessages
      ∧ (account_login_failed st account type description).1.logoutMessages
        = st.logoutMessages) := by
  refine ⟨?_, ?_, ?_, ?_⟩
  · intro onlineAccount message honline hmessage
    simp [account_login_failed, account_login_failed_finish, honline, hmessage, clientReplies,
      loginFailedResponse]
  · intro pendingAccount message honline hpending hmessage
    simp [account_login_failed, account_login_failed_finish, honline, hpending, hmessage,
      clientReplies, loginFailedResponse]
  · intro hmessage
    unfold account_login_failed
    simp only
    split
    · simp [account_login_failed_finish, hmessage, clientReplies]
    · split
      · simp [account_login_failed_finish, hmessage, clientReplies]
      · simp [clientReplies]
  · intro honline hpending
    simp [account_login_failed, honline, hpending, clientReplies]

/-- C15, amended, at a pending and at an online scenario account with the
login request 7 held. -/
theorem C15_disconnect_classification_witness :
    clientReplies (account_login_failed (login false initialState 7 scenarioLoginFull).1
        scenarioAccount PurpleConnectionError.PURPLE_CONNECTION_ERROR_AUTHENTICATION_FAILED
        "bad").2
      = [(7, Payload.text
          "\x7b\"serviceName\":\"aol\",  \"username\":\"user1@aol.com\", \"returnValue\":false, \"errorCode\":\"AcctMgr_Bad_Authentication\",  \"localIpAddress\":\"10.0.0.1\", \"errorText\":\"bad\", \"connectionType\":\"\"\x7d")]
    ∧ clientReplies (account_login_failed
        (runState false initialState
          [Event.login 7 scenarioLoginFull, Event.account_logged_in scenarioAccount])
        scenarioAccount PurpleConnectionError.PURPLE_CONNECTION_ERROR_NETWORK_ERROR "x").2
      = [(7, Payload.text
          "\x7b\"serviceName\":\"aol\",  \"username\":\"user1@aol.com\", \"returnValue\":false, \"errorCode\":\"AcctMgr_Network_Error\",  \"localIpAddress\":\"10.0.0.1\", \"errorText\":\"x\", \"connectionStatus\":\"loggedOut\", \"connectionType\":\"\"\x7d")] :=
  ⟨(C15_disconnect_classification (login false initialState 7 scenarioLoginFull).1
      scenarioAccount PurpleConnectionError.PURPLE_CONNECTION_ERROR_AUTHENTICATION_FAILED
      "bad").2.1 scenarioAccount 7 (by decide) (by decide) (by decide),
    (C15_disconnect_classification
      (runState false initialState
        [Event.login 7 scenarioLoginFull, Event.account_logged_in scenarioAccount])
      scenarioAccount PurpleConnectionError.PURPLE_CONNECTION_ERROR_NETWORK_ERROR "x").1
      scenarioAccount 7 (by decide) (by decide)⟩

/-! ## C16: the login timer fires for a pending account -/

/-- C16: for a key that is in `pendingAccountData` (in a state reached from the
initial state, or in any state in which the key is not also in
`onlineAccountData`), `connectTimeoutCallback` removes the key from
`pendingAccountData` and `accountLoginTimers`, makes exactly one provider
disconnect call, for the pending account, leaves the key out of
`onlineAccountData`, and, when a login request is held for the key, sends it
exactly one reply, with `returnValue` false, error code
"AcctMgr_Network_Error" and error text "Connection timed out", and removes it
from `loginMessages`; when none is held it sends no reply. -/
theorem C16_login_timeout (st : AdapterState) (accountKey : String) (account : PurpleAccount)
    (hpending : g_hash_table_lookup st.pendingAccountData accountKey = some account)
    (hstate : g_hash_table_lookup st.onlineAccountData accountKey = none
      ∨ ∃ DEVICE events, st = runState DEVICE initialState events) :
    g_hash_table_lookup (connectTimeoutCallback st accountKey).1.pendingAccountData accountKey
      = none
    ∧ g_hash_table_lookup (connectTimeoutCallback st accountKey).1.accountLoginTimers accountKey
      = none
    ∧ providerDisconnects (connectTimeoutCallback st accountKey).2 = [account]
    ∧ g_hash_table_lookup (connectTimeoutCallback st accountKey).1.onlineAccountData accountKey
      = none
    ∧ (∀ message, g_hash_table_lookup st.loginMessages accountKey = some message →
        clientReplies (connectTimeoutCallback st accountKey).2
          = [(message, Payload.text
              ("\x7b\"serviceName\":\"" ++ getServiceNameFromPrplProtocolId account.protocol_id
                ++ "\",  \"username\":\""
                ++ getJavaFriendlyUsername account.username
                    (getServiceNameFromPrplProtocolId account.protocol_id)
                ++ "\", \"returnValue\":false, \"errorCode\":\"AcctMgr_Network_Error\", \"errorText\":\"Connection timed out\", \"connectionType\":\""
                ++ (g_hash_table_lookup st.connectionTypeData accountKey).getD ""
                ++ "\"\x7d"))]
        ∧ g_hash_table_lookup (connectTimeoutCallback st accountKey).1.loginMessages
            accountKey = none)
    ∧ (g_hash_table_lookup st.loginMessages accountKey = none →
        clientReplies (connectTimeoutCallback st accountKey).2 = []) := by
  have honline := not_online_of_pending st accountKey account hpending hstate
  have hcases : (∃ message, g_hash_table_lookup st.loginMessages accountKey = some message)
      ∨ g_hash_table_lookup st.loginMessages accountKey = none := by
    cases g_hash_table_lookup st.loginMessages accountKey with
    | none => exact Or.inr rfl
    | some m => exact Or.inl ⟨m, rfl⟩
  rcases hcases with ⟨m, hm⟩ | hm
  · simp [connectTimeoutCallback, hpending, hm, honline, lookup_remove, providerDisconnects,
      clientReplies, connectTimeoutResponse]
  · simp [connectTimeoutCallback, hpending, hm, honline, lookup_remove, providerDisconnects,
      clientReplies]

/-- C16 at the scenario login, whose timer fires while it is pending. -/
theorem C16_login_timeout_witness :
    clientReplies
        (connectTimeoutCallback (runState false initialState [Event.login 7 scenarioLoginFull])
          "user1@aol.com_aol").2
      = [(7, Payload.text
          "\x7b\"serviceName\":\"aol\",  \"username\":\"user1@aol.com\", \"returnValue\":false, \"errorCode\":\"AcctMgr_Network_Error\", \"errorText\":\"Connection timed out\", \"connectionType\":\"\"\x7d")] :=
  ((C16_login_timeout (runState false initialState [Event.login 7 scenarioLoginFull])
    "user1@aol.com_aol" scenarioAccount (by decide)
    (Or.inr ⟨false, [Event.login 7 scenarioLoginFull], rfl⟩)).2.2.2.2.1 7 (by decide)).1

/-! ## C17: the guard of the login timer callback -/

/-- C17: for a key that is not in `pendingAccountData`,
`connectTimeoutCallback` returns the state as it is and makes no call (no
reply, no provider call). -/
theorem C17_timeout_guard (st : AdapterState) (accountKey : String)
    (hpending : g_hash_table_lookup st.pendingAccountData accountKey = none) :
    connectTimeoutCallback st accountKey = (st, []) := by
  simp only [connectTimeoutCallback, hpending]

/-- C17 at the online scenario account, whose timer key is no longer pending. -/
theorem C17_timeout_guard_witness :
    connectTimeoutCallback
        (runState false initialState
          [Event.login 7 scenarioLoginFull, Event.account_logged_in scenarioAccount])
        "user1@aol.com_aol"
      = (runState false initialState
          [Event.login 7 scenarioLoginFull, Event.account_logged_in scenarioAccount], []) :=
  C17_timeout_guard _ "user1@aol.com_aol" (by decide)

/-! ## C18: the device connection is closed under an online and a pending account -/

/-- C18 on a concrete input: "user1@aol.com" is online and "bob" is pending on
the address "10.0.0.1", each with its login request held (7 and 8).
`deviceConnectionClosed` for that address takes both accounts out of
`onlineAccountData` and `pendingAccountData` and answers request 7 with the
network error that carries `connectionStatus` "loggedOut", but request 8 gets
no reply and stays in `loginMessages`: the pending account was stored under
the key "bob_aol" of the request, and its login request is looked up under the
key "bob@aol.com_aol" derived from the provider account.  When the pending
login names "bob@aol.com", the two keys agree and request 8 is answered with
the network error without `connectionStatus`. -/
theorem C18_pending_request_unanswered :
    g_hash_table_lookup
        (runState false initialState
          [Event.login 7 scenarioLoginFull, Event.account_logged_in scenarioAccount,
            Event.login 8 scenarioLoginBob]).onlineAccountData "user1@aol.com_aol"
      = some scenarioAccount
    ∧ g_hash_table_lookup
        (runState false initialState
          [Event.login 7 scenarioLoginFull, Event.account_logged_in scenarioAccount,
            Event.login 8 scenarioLoginBob]).pendingAccountData "bob_aol"
      = some ⟨"bob", "prpl-aim"⟩
    ∧ (runState false initialState
          [Event.login 7 scenarioLoginFull, Event.account_logged_in scenarioAccount,
            Event.login 8 scenarioLoginBob]).loginMessages
      = [("user1@aol.com_aol", 7), ("bob_aol", 8)]
    ∧ (runState false initialState
          [Event.login 7 scenarioLoginFull, Event.account_logged_in scenarioAccount,
            Event.login 8 scenarioLoginBob]).ipAddressesBoundTo
      = [("user1@aol.com_aol", "10.0.0.1"), ("bob_aol", "10.0.0.1")]
    ∧ clientReplies (deviceConnectionClosed
        (runState false initialState
          [Event.login 7 scenarioLoginFull, Event.account_logged_in scenarioAccount,
            Event.login 8 scenarioLoginBob]) 9 "10.0.0.1").2
      = [(7, Payload.text
            "\x7b\"serviceName\":\"aol\",  \"username\":\"user1@aol.com\", \"returnValue\":false, \"errorCode\":\"AcctMgr_Network_Error\", \"errorText\":\"Connection failure\", \"connectionStatus\":\"loggedOut\", \"connectionType\":\"\"\x7d"),
          (9, Payload.text "\x7b\"returnValue\":true\x7d")]
    ∧ (deviceConnectionClosed
        (runState false initialState
          [Event.login 7 scenarioLoginFull, Event.account_logged_in scenarioAccount,
            Event.login 8 scenarioLoginBob]) 9 "10.0.0.1").1.onlineAccountData = []
    ∧ (deviceConnectionClosed
        (runState false initialState
          [Event.login 7 scenarioLoginFull, Event.account_logged_in scenarioAccount,
            Event.login 8 scenarioLoginBob]) 9 "10.0.0.1").1.pendingAccountData = []
    ∧ (deviceConnectionClosed
        (runState false initialState
          [Event.login 7 scenarioLoginFull, Event.account_logged_in scenarioAccount,
            Event.login 8 scenarioLoginBob]) 9 "10.0.0.1").1.loginMessages = [("bob_aol", 8)]
    ∧ clientReplies (deviceConnectionClosed
        (runState false initialState
          [Event.login 7 scenarioLoginFull, Event.account_logged_in scenarioAccount,
            Event.login 8 scenarioLoginBobFull]) 9 "10.0.0.1").2
      = [(7, Payload.text
            "\x7b\"serviceName\":\"aol\",  \"username\":\"user1@aol.com\", \"returnValue\":false, \"errorCode\":\"AcctMgr_Network_Error\", \"errorText\":\"Connection failure\", \"connectionStatus\":\"loggedOut\", \"connectionType\":\"\"\x7d"),
          (8, Payload.text
            "\x7b\"serviceName\":\"aol\",  \"username\":\"bob@aol.com\", \"returnValue\":false, \"errorCode\":\"AcctMgr_Network_Error\", \"errorText\":\"Connection failure\", \"connectionType\":\"\"\x7d"),
          (9, Payload.text "\x7b\"returnValue\":true\x7d")] := by
  decide

/-! ## C19: login for an account that is online on the same address -/

/-- C19: a login for an account that is online and whose stored bound address
is the local address of the request changes no table (only
`libpurpleInitialized` is set), makes no call on a provider account (libpurple
is initialised first if that is still due), and sends exactly one reply,
synchronously, with `accountWasAlreadyLoggedIn` true and `returnValue` true. -/
theorem C19_already_logged_in (DEVICE : Bool) (st : AdapterState) (message : LSMessage)
    (params : LoginParams) (account : PurpleAccount)
    (honline : g_hash_table_lookup st.onlineAccountData
      (getAccountKey params.username params.serviceName) = some account)
    (hbound : g_hash_table_lookup st.ipAddressesBoundTo
        (getAccountKey params.username params.serviceName)
      = some (params.localIpAddress.getD "")) :
    login DEVICE st message params
      = ({ st with libpurpleInitialized := true },
          (if st.libpurpleInitialized then [] else [Effect.initializeLibpurple])
            ++ [Effect.LSMessageReply (some message) (Payload.json
              [("serviceName", JsonValue.str params.serviceName),
                ("username", JsonValue.str
                  (getJavaFriendlyUsername params.username params.serviceName)),
                ("accountWasAlreadyLoggedIn", JsonValue.bool true),
                ("returnValue", JsonValue.bool true)])]) := by
  simp only [login, honline, hbound, if_true, loginResponsePayload, List.cons_append,
    List.nil_append]

/-- C19 at the online scenario account and a second login from "10.0.0.1". -/
theorem C19_already_logged_in_witness :
    login false
        (runState false initialState
          [Event.login 7 scenarioLoginFull, Event.account_logged_in scenarioAccount])
        8 scenarioLoginFull
      = (runState false initialState
          [Event.login 7 scenarioLoginFull, Event.account_logged_in scenarioAccount],
          [Effect.LSMessageReply (some 8) (Payload.json
              [("serviceName", JsonValue.str "aol"),
                ("username", JsonValue.str "user1@aol.com"),
                ("accountWasAlreadyLoggedIn", JsonValue.bool true),
                ("returnValue", JsonValue.bool true)])]) :=
  C19_already_logged_in false
    (runState false initialState
      [Event.login 7 scenarioLoginFull, Event.account_logged_in scenarioAccount])
    8 scenarioLoginFull scenarioAccount (by decide) (by decide)

/-! ## C20: logout of an account that is not logged in -/

/-- C20: a logout whose account key is in neither `onlineAccountData` nor
`pendingAccountData` changes nothing, makes no provider call, and sends
exactly one reply, at once: `returnValue` false with the text "Trying to
logout from an account that is not logged in". -/
theorem C20_logout_not_logged_in (st : AdapterState) (message : LSMessage)
    (serviceName username : String)
    (honline : g_hash_table_lookup st.onlineAccountData (getAccountKey username serviceName)
      = none)
    (hpending : g_hash_table_lookup st.pendingAccountData (getAccountKey username serviceName)
      = none) :
    logout st message serviceName username
      = (st, [Effect.LSMessageReply (some message) (Payload.text
          ("\x7b\"serviceName\":\"" ++ serviceName ++ "\",  \"username\":\"" ++ username
            ++ "\",  \"returnValue\":false, \"errorCode\":\"1\", \"errorText\":\"Trying to logout from an account that is not logged in\"\x7d"))]) := by
  simp only [logout, honline, hpending, logoutNotLoggedInResponse]

/-- C20 at a logout in the initial state. -/
theorem C20_logout_not_logged_in_witness :
    logout initialState 7 "aol" "user1@aol.com"
      = (initialState, [Effect.LSMessageReply (some 7) (Payload.text
          "\x7b\"serviceName\":\"aol\",  \"username\":\"user1@aol.com\",  \"returnValue\":false, \"errorCode\":\"1\", \"errorText\":\"Trying to logout from an account that is not logged in\"\x7d")]) :=
  C20_logout_not_logged_in initialState 7 "aol" "user1@aol.com" (by decide) (by decide)

/-! ## Facts about the presence-queue handlers -/

theorem lookup_some_mem_keys {α : Type} (table : Table α) (key : String) (value : α)
    (h : g_hash_table_lookup table key = some value) : key ∈ g_hash_table_get_keys table := by
  induction table with
  | nil => simp [g_hash_table_lookup] at h
  | cons entry rest ih =>
    obtain ⟨k, v⟩ := entry
    by_cases hk : key = k
    · simp [g_hash_table_get_keys, hk]
    · simp only [g_hash_table_lookup, hk, if_false] at h
      have := ih h
      simp only [g_hash_table_get_keys, List.map_cons, List.mem_cons]
      exact Or.inr this

theorem enableServerQueueForAccount_connected (provider : Provider) (account : PurpleAccount)
    (displayName : String)
    (h : provider account = some ⟨some ⟨true⟩, some displayName⟩) :
    enableServerQueueForAccount provider account
      = [Effect.send_raw account
          ("<iq from=\x27" ++ displayName
            ++ "\x27 type=\x27set\x27><query xmlns=\x27google:queue\x27><enable/></query></iq>")] := by
  simp [enableServerQueueForAccount, getEnableQueueStanza, h]

theorem disableServerQueueForAccount_connected (provider : Provider) (account : PurpleAccount)
    (displayName : String)
    (h : provider account = some ⟨some ⟨true⟩, some displayName⟩) :
    disableServerQueueForAccount provider account
      = [Effect.send_raw account
          ("<iq from=\x27" ++ displayName
            ++ "\x27 type=\x27set\x27><query xmlns=\x27google:queue\x27><disable/><flush/></query></iq>")] := by
  simp [disableServerQueueForAccount, getDisableQueueStanza, h]

theorem enableServerQueueForAccount_sound (provider : Provider) (account : PurpleAccount)
    (effect : Effect) (h : effect ∈ enableServerQueueForAccount provider account) :
    ∃ displayName, effect = Effect.send_raw account
      ("<iq from=\x27" ++ displayName
        ++ "\x27 type=\x27set\x27><query xmlns=\x27google:queue\x27><enable/></query></iq>") := by
  unfold enableServerQueueForAccount getEnableQueueStanza at h
  cases hp : provider account with
  | none => simp [hp] at h
  | some gc =>
    cases hprpl : gc.prpl with
    | none => simp [hp, hprpl] at h
    | some info =>
      cases hname : gc.display_name with
      | none => simp [hp, hprpl, hname] at h
      | some displayName =>
        cases hraw : info.send_raw with
        | false => simp [hp, hprpl, hname, hraw] at h
        | true =>
          simp [hp, hprpl, hname, hraw] at h
          exact ⟨displayName, h⟩

theorem disableServerQueueForAccount_sound (provider : Provider) (account : PurpleAccount)
    (effect : Effect) (h : effect ∈ disableServerQueueForAccount provider account) :
    ∃ displayName, effect = Effect.send_raw account
      ("<iq from=\x27" ++ displayName
        ++ "\x27 type=\x27set\x27><query xmlns=\x27google:queue\x27><disable/><flush/></query></iq>") := by
  unfold disableServerQueueForAccount getDisableQueueStanza at h
  cases hp : provider account with
  | none => simp [hp] at h
  | some gc =>
    cases hprpl : gc.prpl with
    | none => simp [hp, hprpl] at h
    | some info =>
      cases hname : gc.display_name with
      | none => simp [hp, hprpl, hname] at h
      | some displayName =>
        cases hraw : info.send_raw with
        | false => simp [hp, hprpl, hname, hraw] at h
        | true =>
          simp [hp, hprpl, hname, hraw] at h
          exact ⟨displayName, h⟩

theorem queuePresenceUpdates_complete (provider : Provider) (st : AdapterState) (enable : Bool)
    (key : String) (account : PurpleAccount) (effect : Effect)
    (hlookup : g_hash_table_lookup st.onlineAccountData key = some account)
    (hprotocol : account.protocol_id = "prpl-jabber")
    (h : effect ∈ (if enable then enableServerQueueForAccount provider account
      else disableServerQueueForAccount provider account)) :
    effect ∈ queuePresenceUpdates provider st enable := by
  unfold queuePresenceUpdates
  rw [List.mem_flatMap]
  refine ⟨key, lookup_some_mem_keys _ _ _ hlookup, ?_⟩
  simp only [hlookup, hprotocol, ne_eq, not_true_eq_false, if_false]
  exact h

theorem queuePresenceUpdates_sound (provider : Provider) (st : AdapterState) (enable : Bool)
    (effect : Effect) (h : effect ∈ queuePresenceUpdates provider st enable) :
    ∃ key account, g_hash_table_lookup st.onlineAccountData key = some account
      ∧ account.protocol_id = "prpl-jabber"
      ∧ effect ∈ (if enable then enableServerQueueForAccount provider account
        else disableServerQueueForAccount provider account) := by
  unfold queuePresenceUpdates at h
  rw [List.mem_flatMap] at h
  obtain ⟨key, _, hmem⟩ := h
  cases hlookup : g_hash_table_lookup st.onlineAccountData key with
  | none => simp [hlookup] at hmem
  | some account =>
    by_cases hprotocol : account.protocol_id = "prpl-jabber"
    · simp only [hlookup, hprotocol, ne_eq, not_true_eq_false, if_false] at hmem
      exact ⟨key, account, hlookup, hprotocol, hmem⟩
    · simp [hlookup, hprotocol] at hmem

/-! ## Facts about account keys and the login process -/

theorem split_at_first {α : Type} (c : α) :
    ∀ (u1 u2 s1 s2 : List α), c ∉ u1 → c ∉ u2 → u1 ++ c :: s1 = u2 ++ c :: s2 →
      u1 = u2 ∧ s1 = s2
  | [], [], _, _, _, _, h => ⟨rfl, by simpa using h⟩
  | [], b :: u2, _, _, _, h2, h => by
    simp only [List.nil_append, List.cons_append, List.cons.injEq] at h
    exact absurd (h.1 ▸ List.mem_cons_self _ _) h2
  | a :: u1, [], _, _, h1, _, h => by
    simp only [List.nil_append, List.cons_append, List.cons.injEq] at h
    exact absurd (h.1 ▸ List.mem_cons_self _ _) h1
  | a :: u1, b :: u2, s1, s2, h1, h2, h => by
    simp only [List.cons_append, List.cons.injEq] at h
    have := split_at_first c u1 u2 s1 s2 (fun hm => h1 (List.mem_cons_of_mem _ hm))
      (fun hm => h2 (List.mem_cons_of_mem _ hm)) h.2
    exact ⟨by rw [h.1, this.1], this.2⟩

theorem split_at_last {α : Type} (c : α) (u1 u2 s1 s2 : List α) (h1 : c ∉ s1) (h2 : c ∉ s2)
    (h : u1 ++ c :: s1 = u2 ++ c :: s2) : u1 = u2 ∧ s1 = s2 := by
  have hrev : s1.reverse ++ c :: u1.reverse = s2.reverse ++ c :: u2.reverse := by
    have := congrArg List.reverse h
    simpa using this
  have := split_at_first c s1.reverse s2.reverse u1.reverse u2.reverse (by simpa using h1)
    (by simpa using h2) hrev
  exact ⟨List.reverse_injective this.2, List.reverse_injective this.1⟩

theorem getAccountKey_data (username serviceName : String) :
    (getAccountKey username serviceName).data = username.data ++ '_' :: serviceName.data := by
  simp [getAccountKey, String.data_append]

theorem loginProcess_effects (DEVICE : Bool) (st : AdapterState) (effects : List Effect)
    (message : LSMessage) (params : LoginParams) :
    loginProcess DEVICE st effects message params
      = ((loginProcess DEVICE st [] message params).1,
          effects ++ (loginProcess DEVICE st [] message params).2) := by
  unfold loginProcess
  simp only
  split
  · simp
  · split
    · simp
    · simp

/-! ## C21: logout of an online account -/

/-- C21: for an account that is online (in a state reached from the initial
state, or in any state in which the account is stored under the key derived
from the provider account and is not also pending), `logout` sends no reply,
stores the request in `logoutMessages`, makes exactly one call, the provider
disconnect, and leaves the account in `onlineAccountData`; the following
`account_signed_off_cb` for the account takes it out of `onlineAccountData`
(it is not pending either, and `offlineAccountData` holds a provider account
for the key), sends exactly one reply, with `returnValue` true, to the held
logout request, and removes the request from `logoutMessages`. -/
theorem C21_logout_completes (st : AdapterState) (message : LSMessage)
    (serviceName username : String) (account : PurpleAccount)
    (honline : g_hash_table_lookup st.onlineAccountData (getAccountKey username serviceName)
      = some account)
    (hstate : (getAccountKeyFromPurpleAccount account = getAccountKey username serviceName
        ∧ g_hash_table_lookup st.pendingAccountData (getAccountKey username serviceName) = none)
      ∨ ∃ DEVICE invocations, st = runInvocations DEVICE initialState invocations) :
    logout st message serviceName username
      = ({ st with
            logoutMessages :=
              g_hash_table_insert st.logoutMessages (getAccountKey username serviceName)
                message },
          [Effect.purple_account_disconnect account])
    ∧ g_hash_table_lookup (logout st message serviceName username).1.logoutMessages
        (getAccountKey username serviceName) = some message
    ∧ g_hash_table_lookup (logout st message serviceName username).1.onlineAccountData
        (getAccountKey username serviceName) = some account
    ∧ g_hash_table_lookup
        (account_signed_off_cb (logout st message serviceName username).1
          account).1.onlineAccountData (getAccountKey username serviceName) = none
    ∧ g_hash_table_lookup
        (account_signed_off_cb (logout st message serviceName username).1
          account).1.pendingAccountData (getAccountKey username serviceName) = none
    ∧ (g_hash_table_lookup
        (account_signed_off_cb (logout st message serviceName username).1
          account).1.offlineAccountData (getAccountKey username serviceName)).isSome = true
    ∧ (account_signed_off_cb (logout st message serviceName username).1 account).2
      = [Effect.LSMessageReply (some message) (Payload.text
          ("\x7b\"serviceName\":\"" ++ getServiceNameFromPrplProtocolId account.protocol_id
            ++ "\",  \"username\":\""
            ++ getJavaFriendlyUsername account.username
                (getServiceNameFromPrplProtocolId account.protocol_id)
            ++ "\", \"returnValue\":true\x7d"))]
    ∧ g_hash_table_lookup
        (account_signed_off_cb (logout st message serviceName username).1
          account).1.logoutMessages (getAccountKey username serviceName) = none := by
  have hinv : getAccountKeyFromPurpleAccount account = getAccountKey username serviceName
      ∧ g_hash_table_lookup st.pendingAccountData (getAccountKey username serviceName)
        = none := by
    rcases hstate with h | h
    · exact h
    · have hreach := reached_invariants st h
      refine ⟨hreach.2.1 _ _ honline, ?_⟩
      rcases hreach.1 (getAccountKey username serviceName) with h1 | h1
      · rw [h1] at honline
        cases honline
      · exact h1
  obtain ⟨hkey, hpending⟩ := hinv
  have hlogout : logout st message serviceName username
      = ({ st with
            logoutMessages :=
              g_hash_table_insert st.logoutMessages (getAccountKey username serviceName)
                message },
          [Effect.purple_account_disconnect account]) := by
    simp only [logout, honline, hkey]
  rw [hlogout]
  refine ⟨rfl, ?_, ?_, ?_, ?_, ?_, ?_, ?_⟩
  · simp [lookup_insert]
  · exact honline
  · by_cases hoff : (g_hash_table_lookup st.offlineAccountData
        (getAccountKey username serviceName)).isSome = true <;>
      simp [account_signed_off_cb, hkey, honline, lookup_insert, lookup_remove, hoff]
  · by_cases hoff : (g_hash_table_lookup st.offlineAccountData
        (getAccountKey username serviceName)).isSome = true <;>
      simp [account_signed_off_cb, hkey, honline, lookup_insert, lookup_remove, hoff, hpending]
  · by_cases hoff : (g_hash_table_lookup st.offlineAccountData
        (getAccountKey username serviceName)).isSome = true <;>
      simp [account_signed_off_cb, hkey, honline, lookup_insert, lookup_remove, hoff]
  · by_cases hoff : (g_hash_table_lookup st.offlineAccountData
        (getAccountKey username serviceName)).isSome = true <;>
      simp [account_signed_off_cb, hkey, honline, lookup_insert, lookup_remove, hoff,
        successResponse]
  · by_cases hoff : (g_hash_table_lookup st.offlineAccountData
        (getAccountKey username serviceName)).isSome = true <;>
      simp [account_signed_off_cb, hkey, honline, lookup_insert, lookup_remove, hoff]

/-- C21 at the online scenario account and the logout request 8. -/
theorem C21_logout_completes_witness :
    (account_signed_off_cb
        (logout
          (runInvocations false initialState
            [Invocation.session (Event.login 7 scenarioLoginFull),
              Invocation.session (Event.account_logged_in scenarioAccount)])
          8 "aol" "user1@aol.com").1 scenarioAccount).2
      = [Effect.LSMessageReply (some 8) (Payload.text
          "\x7b\"serviceName\":\"aol\",  \"username\":\"user1@aol.com\", \"returnValue\":true\x7d")] :=
  (C21_logout_completes
    (runInvocations false initialState
      [Invocation.session (Event.login 7 scenarioLoginFull),
        Invocation.session (Event.account_logged_in scenarioAccount)])
    8 "aol" "user1@aol.com" scenarioAccount (by decide)
    (Or.inr ⟨false, [Invocation.session (Event.login 7 scenarioLoginFull),
      Invocation.session (Event.account_logged_in scenarioAccount)], rfl⟩)).2.2.2.2.2.2.1

/-! ## C22: uniqueness of account keys -/

/-- C22, as stated, fails: the user name "a_b" on the service "c" and the user
name "a" on the service "b_c" have the same account key. -/
theorem C22_counterexample :
    getAccountKey "a_b" "c" = getAccountKey "a" "b_c" ∧ "a_b" ≠ "a" ∧ "c" ≠ "b_c" := by
  decide

/-- C22, amended: `getAccountKey` is injective on user names and service names
of which either both service names or both user names contain no underscore. -/
theorem C22_account_key_injective (u1 u2 s1 s2 : String)
    (h : ('_' ∉ s1.data ∧ '_' ∉ s2.data) ∨ ('_' ∉ u1.data ∧ '_' ∉ u2.data))
    (hkey : getAccountKey u1 s1 = getAccountKey u2 s2) : u1 = u2 ∧ s1 = s2 := by
  have hdata : u1.data ++ '_' :: s1.data = u2.data ++ '_' :: s2.data := by
    rw [← getAccountKey_data, ← getAccountKey_data, hkey]
  rcases h with ⟨h1, h2⟩ | ⟨h1, h2⟩
  · have := split_at_last '_' _ _ _ _ h1 h2 hdata
    exact ⟨String.ext this.1, String.ext this.2⟩
  · have := split_at_first '_' _ _ _ _ h1 h2 hdata
    exact ⟨String.ext this.1, String.ext this.2⟩

/-- C22, amended, at a user name that contains an underscore and the service
name "aol". -/
theorem C22_account_key_injective_witness :
    "user_1@aol.com" = "user_1@aol.com" ∧ "aol" = "aol" :=
  C22_account_key_injective "user_1@aol.com" "user_1@aol.com" "aol" "aol"
    (Or.inl ⟨by decide, by decide⟩) rfl

/-! ## C23: the availability tables -/

/-- C23: for every availability code `c` from 0 to 4,
`getPalmAvailabilityFromPrplAvailability` maps the status primitive
`getPrplAvailabilityFromPalmAvailability c` back to `c`, and every integer
outside 0..4 is mapped to the offline primitive. -/
theorem C23_availability_round_trip (c : Int) :
    (0 ≤ c ∧ c ≤ 4 →
      getPalmAvailabilityFromPrplAvailability (getPrplAvailabilityFromPalmAvailability c).toInt
        = c)
    ∧ (c < 0 ∨ 4 < c →
      getPrplAvailabilityFromPalmAvailability c
        = PurpleStatusPrimitive.PURPLE_STATUS_OFFLINE) := by
  constructor
  · rintro ⟨h0, h4⟩
    interval_cases c <;> rfl
  · intro h
    unfold getPrplAvailabilityFromPalmAvailability
    split_ifs <;> first | rfl | omega

/-- C23 at the codes 3 and 7. -/
theorem C23_availability_round_trip_witness :
    getPalmAvailabilityFromPrplAvailability (getPrplAvailabilityFromPalmAvailability 3).toInt
      = 3
    ∧ getPrplAvailabilityFromPalmAvailability 7
      = PurpleStatusPrimitive.PURPLE_STATUS_OFFLINE :=
  ⟨(C23_availability_round_trip 3).1 (by decide), (C23_availability_round_trip 7).2 (by decide)⟩

/-! ## C24: a change of the display state -/

/-- C25 on concrete inputs: a `setMyCustomMessage` request with all three
fields for an account that is not online (in the initial state, and while the
account is pending) gets no reply at all and nothing else happens; for the
online scenario account the status is set and the request gets one reply with
`serviceName`, `username`, `customMessage` and `returnValue` true. -/
theorem C25_no_reply_when_not_online :
    setMyCustomMessage initialState 8 "aol" "user1@aol.com" "hi" = (initialState, [])
    ∧ g_hash_table_lookup
        (runState false initialState [Event.login 7 scenarioLoginFull]).pendingAccountData
        (getAccountKey "user1@aol.com" "aol") = some scenarioAccount
    ∧ (setMyCustomMessage (runState false initialState [Event.login 7 scenarioLoginFull])
        8 "aol" "user1@aol.com" "hi").2 = []
    ∧ (setMyCustomMessage
        (runState false initialState
          [Event.login 7 scenarioLoginFull, Event.account_logged_in scenarioAccount])
        8 "aol" "user1@aol.com" "hi").2
      = [Effect.purple_account_set_status_list scenarioAccount ["message", "hi"],
          Effect.LSMessageReply (some 8) (Payload.json
            [("serviceName", JsonValue.str "aol"),
              ("username", JsonValue.str "user1@aol.com"),
              ("customMessage", JsonValue.str "hi"),
              ("returnValue", JsonValue.bool true)])] := by
  decide

/-! ## C26: the timers of the presence queue -/

/-- C26: `queuePresenceUpdatesTimer` does nothing when the display is off at
firing time; when it is on, it changes no state and sends the
disable-and-flush stanza on every account of `onlineAccountData` with protocol
id "prpl-jabber" whose connection can send it, and nothing else.
`queuePresenceUpdatesForAccountTimerCallback` does nothing when the display is
on at firing time or when its key is not in `onlineAccountData`; when the
display is off and the key is online, it changes no state and its only
possible call is the enable stanza on the account stored under that key. -/
theorem C26_debounce_timers (provider : Provider) (st : AdapterState) (accountKey : String) :
    (st.currentDisplayState = false → queuePresenceUpdatesTimer provider st = (st, []))
    ∧ (st.currentDisplayState = true →
      (queuePresenceUpdatesTimer provider st).1 = st
      ∧ (∀ key account displayName,
          g_hash_table_lookup st.onlineAccountData key = some account →
          account.protocol_id = "prpl-jabber" →
          provider account = some ⟨some ⟨true⟩, some displayName⟩ →
          Effect.send_raw account
              ("<iq from=\x27" ++ displayName
                ++ "\x27 type=\x27set\x27><query xmlns=\x27google:queue\x27><disable/><flush/></query></iq>")
            ∈ (queuePresenceUpdatesTimer provider st).2)
      ∧ (∀ effect, effect ∈ (queuePresenceUpdatesTimer provider st).2 →
          ∃ key account displayName,
            g_hash_table_lookup st.onlineAccountData key = some account
            ∧ account.protocol_id = "prpl-jabber"
            ∧ effect = Effect.send_raw account
              ("<iq from=\x27" ++ displayName
                ++ "\x27 type=\x27set\x27><query xmlns=\x27google:queue\x27><disable/><flush/></query></iq>")))
    ∧ (st.currentDisplayState = true →
      queuePresenceUpdatesForAccountTimerCallback provider st accountKey = (st, []))
    ∧ (g_hash_table_lookup st.onlineAccountData accountKey = none →
      queuePresenceUpdatesForAccountTimerCallback provider st accountKey = (st, []))
    ∧ (∀ account, st.currentDisplayState = false →
      g_hash_table_lookup st.onlineAccountData accountKey = some account →
      (queuePresenceUpdatesForAccountTimerCallback provider st accountKey).1 = st
      ∧ (∀ displayName, provider account = some ⟨some ⟨true⟩, some displayName⟩ →
          (queuePresenceUpdatesForAccountTimerCallback provider st accountKey).2
            = [Effect.send_raw account
                ("<iq from=\x27" ++ displayName
                  ++ "\x27 type=\x27set\x27><query xmlns=\x27google:queue\x27><enable/></query></iq>")])
      ∧ (∀ effect,
          effect ∈ (queuePresenceUpdatesForAccountTimerCallback provider st accountKey).2 →
          ∃ displayName, effect = Effect.send_raw account
            ("<iq from=\x27" ++ displayName
              ++ "\x27 type=\x27set\x27><query xmlns=\x27google:queue\x27><enable/></query></iq>"))) := by
  refine ⟨?_, ?_, ?_, ?_, ?_⟩
  · intro hoff
    simp [queuePresenceUpdatesTimer, hoff]
  · intro hon
    have hrun : queuePresenceUpdatesTimer provider st
        = (st, queuePresenceUpdates provider st false) := by
      simp [queuePresenceUpdatesTimer, hon]
    rw [hrun]
    refine ⟨rfl, ?_, ?_⟩
    · intro key account displayName hlookup hprotocol hprovider
      refine queuePresenceUpdates_complete provider _ false key account _ hlookup hprotocol ?_
      simp [disableServerQueueForAccount_connected provider account displayName hprovider]
    · intro effect hmem
      obtain ⟨key, account, hlookup, hprotocol, hsent⟩ :=
        queuePresenceUpdates_sound provider _ false effect hmem
      obtain ⟨displayName, heq⟩ :=
        disableServerQueueForAccount_sound provider account effect (by simpa using hsent)
      exact ⟨key, account, displayName, hlookup, hprotocol, heq⟩
  · intro hon
    simp [queuePresenceUpdatesForAccountTimerCallback, hon]
  · intro hnone
    cases hd : st.currentDisplayState <;>
      simp [queuePresenceUpdatesForAccountTimerCallback, hd, hnone]
  · intro account hoff hlookup
    have hrun : queuePresenceUpdatesForAccountTimerCallback provider st accountKey
        = (st, enableServerQueueForAccount provider account) := by
      simp [queuePresenceUpdatesForAccountTimerCallback, hoff, hlookup]
    rw [hrun]
    refine ⟨rfl, ?_, ?_⟩
    · intro displayName hprovider
      exact enableServerQueueForAccount_connected provider account displayName hprovider
    · intro effect hmem
      exact enableServerQueueForAccount_sound provider account effect hmem

/-- C26 with the display off and the gmail scenario account online. -/
theorem C26_debounce_timers_witness :
    queuePresenceUpdatesTimer scenarioProvider
        (runInvocations false initialState
          [Invocation.session (Event.login 7 scenarioGmailLogin),
            Invocation.session (Event.account_logged_in scenarioGmailAccount),
            Invocation.displayEventHandler scenarioProvider ⟨true, some "off", none⟩])
      = (runInvocations false initialState
          [Invocation.session (Event.login 7 scenarioGmailLogin),
            Invocation.session (Event.account_logged_in scenarioGmailAccount),
            Invocation.displayEventHandler scenarioProvider ⟨true, some "off", none⟩], [])
    ∧ (queuePresenceUpdatesForAccountTimerCallback scenarioProvider
        (runInvocations false initialState
          [Invocation.session (Event.login 7 scenarioGmailLogin),
            Invocation.session (Event.account_logged_in scenarioGmailAccount),
            Invocation.displayEventHandler scenarioProvider ⟨true, some "off", none⟩])
        "user2@gmail.com_gmail").2
      = [Effect.send_raw scenarioGmailAccount
          ("<iq from=\x27" ++ "user2@gmail.com"
            ++ "\x27 type=\x27set\x27><query xmlns=\x27google:queue\x27><enable/></query></iq>")] :=
  ⟨(C26_debounce_timers scenarioProvider
      (runInvocations false initialState
        [Invocation.session (Event.login 7 scenarioGmailLogin),
          Invocation.session (Event.account_logged_in scenarioGmailAccount),
          Invocation.displayEventHandler scenarioProvider ⟨true, some "off", none⟩])
      "user2@gmail.com_gmail").1 (by decide),
    ((C26_debounce_timers scenarioProvider
      (runInvocations false initialState
        [Invocation.session (Event.login 7 scenarioGmailLogin),
          Invocation.session (Event.account_logged_in scenarioGmailAccount),
          Invocation.displayEventHandler scenarioProvider ⟨true, some "off", none⟩])
      "user2@gmail.com_gmail").2.2.2.2 scenarioGmailAccount (by decide) (by decide)).2.1
      "user2@gmail.com" rfl⟩

/-! ## C27: online and pending exclude each other -/

/-- C27: in every state reached from the initial state by a sequence of
handler invocations, no account key is in both `onlineAccountData` and
`pendingAccountData`. -/
theorem C27_online_pending_exclusive (DEVICE : Bool) (invocations : List Invocation)
    (key : String) :
    g_hash_table_lookup (runInvocations DEVICE initialState invocations).onlineAccountData key
      = none
    ∨ g_hash_table_lookup (runInvocations DEVICE initialState invocations).pendingAccountData
        key = none :=
  (runInvocations_invariants DEVICE invocations initialState initialState_invariants).1 key

/-! ## C28: the reply of `deviceConnectionClosed` to its own request -/

/-- C28 on concrete inputs: when no account is bound to the address (in the
initial state, and with the online scenario account bound to another address),
`deviceConnectionClosed` answers its own request 9 twice; when an account is
bound to the address, request 9 is answered once. -/
theorem C28_own_request_answered_twice :
    clientReplies (deviceConnectionClosed initialState 9 "10.0.0.1").2
      = [(9, Payload.text "\x7b\"returnValue\":true\x7d"),
          (9, Payload.text "\x7b\"returnValue\":true\x7d")]
    ∧ clientReplies (deviceConnectionClosed
        (runState false initialState
          [Event.login 7 scenarioLoginFull, Event.account_logged_in scenarioAccount])
        9 "10.0.0.2").2
      = [(9, Payload.text "\x7b\"returnValue\":true\x7d"),
          (9, Payload.text "\x7b\"returnValue\":true\x7d")]
    ∧ clientReplies (deviceConnectionClosed
        (runState false initialState
          [Event.login 7 scenarioLoginFull, Event.account_logged_in scenarioAccount])
        9 "10.0.0.1").2
      = [(7, Payload.text
            "\x7b\"serviceName\":\"aol\",  \"username\":\"user1@aol.com\", \"returnValue\":false, \"errorCode\":\"AcctMgr_Network_Error\", \"errorText\":\"Connection failure\", \"connectionStatus\":\"loggedOut\", \"connectionType\":\"\"\x7d"),
          (9, Payload.text "\x7b\"returnValue\":true\x7d")] := by
  decide

/-! ## C29: login without a local address for an active account -/

/-- C29, as stated, fails in a build with `DEVICE`: the login without a local
address takes the online scenario account out of `onlineAccountData` and
disconnects it, and is then rejected; no login is started and the account is
left neither online nor pending. -/
theorem C29_counterexample :
    g_hash_table_lookup
        (runState true initialState
          [Event.login 7 scenarioLoginFull, Event.account_logged_in scenarioAccount]).onlineAccountData
        "user1@aol.com_aol" = some scenarioAccount
    ∧ login true
        (runState true initialState
          [Event.login 7 scenarioLoginFull, Event.account_logged_in scenarioAccount])
        8 ⟨"aol", "user1@aol.com", "p", 0, none, none, none⟩
      = ({ runState true initialState
            [Event.login 7 scenarioLoginFull, Event.account_logged_in scenarioAccount] with
          onlineAccountData := [] },
        [Effect.purple_account_disconnect scenarioAccount,
          Effect.LSMessageReply (some 8) (Payload.json
            [("serviceName", JsonValue.str "aol"),
              ("username", JsonValue.str "user1@aol.com"),
              ("errorCode", JsonValue.str "AcctMgr_Network_Error"),
              ("errorText", JsonValue.str "localIpAddress was null or empty")])]) := by
  decide

/-- C29, amended: a login that carries no local address, for an account that is
online or pending (in a state reached from the initial state, or in any state
in which the key is not bound to the empty address), never takes the
already-logged-in or duplicate-login path: it disconnects the active provider
account and goes on as `login` does in the state in which the key is in
neither `onlineAccountData` nor `pendingAccountData`.  With a non-empty user
name and password that login leaves the account pending when the build has no
`DEVICE`; in a build with `DEVICE` it is rejected with the error text
"localIpAddress was null or empty" and the account is left in neither table. -/
theorem C29_absent_address_never_matches (DEVICE : Bool) (st : AdapterState)
    (message : LSMessage) (params : LoginParams) (active : PurpleAccount)
    (hip : params.localIpAddress.getD "" = "")
    (hactive : g_hash_table_lookup st.onlineAccountData
        (getAccountKey params.username params.serviceName) = some active
      ∨ (g_hash_table_lookup st.onlineAccountData
          (getAccountKey params.username params.serviceName) = none
        ∧ g_hash_table_lookup st.pendingAccountData
          (getAccountKey params.username params.serviceName) = some active))
    (hstate : g_hash_table_lookup st.ipAddressesBoundTo
        (getAccountKey params.username params.serviceName) ≠ some ""
      ∨ ∃ DEVICE2 invocations, st = runInvocations DEVICE2 initialState invocations) :
    login DEVICE st message params
      = ((login DEVICE
            (loginForceLogout { st with libpurpleInitialized := true }
              (getAccountKey params.username params.serviceName)) message params).1,
          (if st.libpurpleInitialized then [] else [Effect.initializeLibpurple])
            ++ Effect.purple_account_disconnect active
              :: (login DEVICE
                  (loginForceLogout { st with libpurpleInitialized := true }
                    (getAccountKey params.username params.serviceName)) message params).2)
    ∧ g_hash_table_lookup
        (loginForceLogout { st with libpurpleInitialized := true }
          (getAccountKey params.username params.serviceName)).onlineAccountData
        (getAccountKey params.username params.serviceName) = none
    ∧ g_hash_table_lookup
        (loginForceLogout { st with libpurpleInitialized := true }
          (getAccountKey params.username params.serviceName)).pendingAccountData
        (getAccountKey params.username params.serviceName) = none
    ∧ (DEVICE = false → params.username ≠ "" → params.password ≠ "" →
        clientReplies (login DEVICE st message params).2 = []
        ∧ (g_hash_table_lookup (login DEVICE st message params).1.pendingAccountData
            (getAccountKey params.username params.serviceName)).isSome = true
        ∧ g_hash_table_lookup (login DEVICE st message params).1.onlineAccountData
            (getAccountKey params.username params.serviceName) = none
        ∧ g_hash_table_lookup (login DEVICE st message params).1.loginMessages
            (getAccountKey params.username params.serviceName) = some message
        ∧ providerLogins (login DEVICE st message params).2
          = [loginProviderAccount st params])
    ∧ (DEVICE = true → params.username ≠ "" → params.password ≠ "" →
        clientReplies (login DEVICE st message params).2
          = [(message, Payload.json
              [("serviceName", JsonValue.str params.serviceName),
                ("username", JsonValue.str
                  (getJavaFriendlyUsername params.username params.serviceName)),
                ("errorCode", JsonValue.str "AcctMgr_Network_Error"),
                ("errorText", JsonValue.str "localIpAddress was null or empty")])]
        ∧ g_hash_table_lookup (login DEVICE st message params).1.pendingAccountData
            (getAccountKey params.username params.serviceName) = none
        ∧ g_hash_table_lookup (login DEVICE st message params).1.onlineAccountData
            (getAccountKey params.username params.serviceName) = none
        ∧ providerLogins (login DEVICE st message params).2 = []) := by
  have hbound : g_hash_table_lookup st.ipAddressesBoundTo
      (getAccountKey params.username params.serviceName) ≠ some "" := by
    rcases hstate with h | h
    · exact h
    · exact (reached_invariants st h).2.2 _
  have hproc : login DEVICE st message params
      = loginProcess DEVICE
          (loginForceLogout { st with libpurpleInitialized := true }
            (getAccountKey params.username params.serviceName))
          ((if st.libpurpleInitialized then [] else [Effect.initializeLibpurple])
            ++ [Effect.purple_account_disconnect active]) message params := by
    rcases hactive with h | ⟨h1, h2⟩
    · simp only [login, h, hip, hbound, if_false]
    · simp only [login, h1, h2, hip, hbound, if_false]
  have hfresh : login DEVICE
        (loginForceLogout { st with libpurpleInitialized := true }
          (getAccountKey params.username params.serviceName)) message params
      = loginProcess DEVICE
          (loginForceLogout { st with libpurpleInitialized := true }
            (getAccountKey params.username params.serviceName)) [] message params := by
    simp [login, loginForceLogout, lookup_remove_self]
  refine ⟨?_, lookup_remove_self _ _, lookup_remove_self _ _, ?_, ?_⟩
  · rw [hproc, hfresh, loginProcess_effects]
    simp
  · intro hdevice hu hp
    have hor : ¬ (params.username = "" ∨ params.password = "") := by
      rintro (h | h)
      · exact hu h
      · exact hp h
    rw [hproc]
    simp only [loginProcess, hor, if_false, hip, hdevice, loginForceLogout]
    refine ⟨?_, ?_, ?_, ?_, ?_⟩
    · cases st.libpurpleInitialized <;>
        simp [clientReplies_append, clientReplies, apply_ite clientReplies]
    · simp [lookup_insert]
    · simp [lookup_remove]
    · simp [lookup_insert]
    · cases st.libpurpleInitialized <;>
        simp [providerLogins_append, providerLogins, apply_ite providerLogins,
          loginProviderAccount]
  · intro hdevice hu hp
    have hor : ¬ (params.username = "" ∨ params.password = "") := by
      rintro (h | h)
      · exact hu h
      · exact hp h
    rw [hproc]
    simp only [loginProcess, hor, if_false, hip, hdevice, loginForceLogout]
    refine ⟨?_, ?_, ?_, ?_⟩
    · cases st.libpurpleInitialized <;>
        simp [clientReplies_append, clientReplies, loginResponsePayload]
    · simp [lookup_remove]
    · simp [lookup_remove]
    · cases st.libpurpleInitialized <;>
        simp [providerLogins_append, providerLogins]

/-- C29, amended, at the online scenario account and a login without a local
address, in a build without `DEVICE`. -/
theorem C29_absent_address_never_matches_witness :
    g_hash_table_lookup
        (login false
          (runInvocations false initialState
            [Invocation.session (Event.login 7 scenarioLoginFull),
              Invocation.session (Event.account_logged_in scenarioAccount)])
          8 ⟨"aol", "user1@aol.com", "p", 0, none, none, none⟩).1.loginMessages
        "user1@aol.com_aol" = some 8 :=
  ((C29_absent_address_never_matches false
    (runInvocations false initialState
      [Invocation.session (Event.login 7 scenarioLoginFull),
        Invocation.session (Event.account_logged_in scenarioAccount)])
    8 ⟨"aol", "user1@aol.com", "p", 0, none, none, none⟩ scenarioAccount rfl
    (Or.inl (by decide))
    (Or.inr ⟨false, [Invocation.session (Event.login 7 scenarioLoginFull),
      Invocation.session (Event.account_logged_in scenarioAccount)], rfl⟩)).2.2.2.1
    rfl (by decide) (by decide)).2.2.2.1

/-! ## C30: the accounts that queue stanzas are sent on -/

/-- C30 on a concrete input: the gmail scenario account is online and the
display is off when the account with protocol id "prpl-irc" connects;
`account_logged_in` arms `queuePresenceUpdatesForAccountTimerCallback` for its
key, and when the timer fires the enable stanza is sent on that account, whose
protocol id is not "prpl-jabber".  `queuePresenceUpdates`, run by
`displayEventHandler` with both accounts online, sends the stanza on the gmail
account only. -/
theorem C30_enable_stanza_on_other_protocol :
    armedTimers (account_logged_in
        (runInvocations false initialState
          [Invocation.session (Event.login 7 scenarioGmailLogin),
            Invocation.session (Event.account_logged_in scenarioGmailAccount),
            Invocation.displayEventHandler scenarioProvider ⟨true, some "off", none⟩,
            Invocation.session (Event.login 8 scenarioIrcLogin)])
        scenarioIrcAccount).2
      = [(POST_LOGIN_WAIT_SECONDS, TimerCallback.queuePresenceUpdatesForAccountTimerCallback,
          "nick@irc.example.org_irc", 3)]
    ∧ sentStanzas (queuePresenceUpdatesForAccountTimerCallback scenarioProvider
        (runInvocations false initialState
          [Invocation.session (Event.login 7 scenarioGmailLogin),
            Invocation.session (Event.account_logged_in scenarioGmailAccount),
            Invocation.displayEventHandler scenarioProvider ⟨true, some "off", none⟩,
            Invocation.session (Event.login 8 scenarioIrcLogin),
            Invocation.session (Event.account_logged_in scenarioIrcAccount)])
        "nick@irc.example.org_irc").2
      = [(scenarioIrcAccount,
          "<iq from=\x27nick@irc.example.org\x27 type=\x27set\x27><query xmlns=\x27google:queue\x27><enable/></query></iq>")]
    ∧ scenarioIrcAccount.protocol_id ≠ "prpl-jabber"
    ∧ sentStanzas (displayEventHandler scenarioProvider
        (runInvocations false initialState
          [Invocation.session (Event.login 7 scenarioGmailLogin),
            Invocation.session (Event.account_logged_in scenarioGmailAccount),
            Invocation.session (Event.login 8 scenarioIrcLogin),
            Invocation.session (Event.account_logged_in scenarioIrcAccount)])
        ⟨true, some "off", none⟩).2
      = [(scenarioGmailAccount,
          "<iq from=\x27user2@gmail.com\x27 type=\x27set\x27><query xmlns=\x27google:queue\x27><enable/></query></iq>")] := by
  decide

end LibpurpleAdapter
